import Mathlib

/-!
Endpoint scaling and evaluation of saturation functions (opm-core).

A shallow embedding of `opm/core/props/satfunc/SaturationPropsFromDeck_impl.hpp`
(`init`, `initEPS`, `initEPSParam` and the evaluator entry points) and of the utilities
of `opm/core/utility/miscUtilitiesBlackoil.cpp`.

Conventions of the embedding:

* a C++ `double` is a rational number, so every identity below is exact; the
  literals `1.0e-6` and `1.0e-8` are the rationals `1/10^6` and `1/10^8`;
* `a / b` is the division of `ℚ`; where the denominator is zero the source
  yields an infinity or a NaN while `ℚ` yields `0`, so no statement below draws
  a conclusion from the value of such a quotient without saying so;
* a `std::vector<double>` is a `List ℚ`; `v.empty()` is `v.isEmpty` and `v[cell]`
  is `vecAt v cell`.  The caller `initEPS` passes vectors that are either empty
  or hold one entry for every cell;
* the procedure updates its argument `data` in place, so the embedding takes the
  record before the call and returns the record after it;
* the evaluator entry points (`satRange`, `relperm`, `capPress`, `swatInitScaling`)
  work on the members of `SaturationPropsFromDeck`; a `std::vector` member is a list
  read with an explicit default outside its range, a `double*` or `int*` argument is a
  map from index to value, and a loop `for (i = 0; i < n; ++i)` is a left fold over
  `List.range n`;
* the curve evaluation methods of the table class (`evalKr`, `evalKrDeriv`, `evalPc`,
  `evalPcDeriv`) are not among the sources and are parameters (`Curves`);
* a procedure that can throw returns an `Except` or an `Option`; the deck and the parsed
  state `init` reads are the record `DeckData`, the arrays `initEPSKey` resolves being a
  field of it, and the fluid properties the utilities call are the parameter record
  `BlackoilPropertiesInterface`.
-/

namespace Opm

/-- Modelled from the spec: the record `EPSTransforms::Transform` is declared in a
header that is not among the sources; its fields are the ones section 3 of the
specification lists for an `EPSTransform`, with the names `initEPSParam` assigns to. -/
structure Transform where
  doNotScale : Bool
  do_3pt : Bool
  smin : ℚ
  scr : ℚ
  sr : ℚ
  smax : ℚ
  slope1 : ℚ
  slope2 : ℚ
  doKrMax : Bool
  doKrCrit : Bool
  doSatInterp : Bool
  krsr : ℚ
  krmax : ℚ
  krSlopeCrit : ℚ
  krSlopeMax : ℚ
  pcFactor : ℚ
deriving DecidableEq

/-- Element access `v[cell]` of a `std::vector<double>`. -/
def vecAt (v : List ℚ) (cell : Nat) : ℚ :=
  v.getD cell 0

/-- The table secondary critical saturation `s_r` of `initEPSParam`
(lines 784-791): `1 - sxcr_tab` for two phases, `1 - sxcr_tab - s0_tab` for three. -/
def tab_s_r (sxcr_tab s0_tab : ℚ) : ℚ :=
  if s0_tab < 0 then 1 - sxcr_tab else 1 - sxcr_tab - s0_tab

/-- The table maximum `s_max` of `initEPSParam` (lines 793-804): `su_tab` for a
non-oil curve, `1 - su_tab` or `1 - su_tab - s0_tab` for an oil curve. -/
def tab_s_max (oil : Bool) (su_tab s0_tab : ℚ) : ℚ :=
  if oil then (if s0_tab < 0 then 1 - su_tab else 1 - su_tab - s0_tab) else su_tab

/-- The idiom `v.empty() ? tab : v[cell]` of `initEPSParam`: the supplied per-cell
value when the array is present, the table value otherwise. -/
def orTab (v : List ℚ) (cell : Nat) (tab : ℚ) : ℚ :=
  if v.isEmpty then tab else vecAt v cell

/-- The test of line 771: no saturation scaling array is supplied. -/
def noSatScaling (do_3pt_ : Bool) (scr su sxcr s0 : List ℚ) : Bool :=
  scr.isEmpty && su.isEmpty && (sxcr.isEmpty || !do_3pt_) && s0.isEmpty

/-- Lines 771-816 of `initEPSParam`: the saturation endpoints and slopes. -/
def initEPSParam_sat (do_3pt_ : Bool) (cell : Nat) (data : Transform) (oil : Bool)
    (sl_tab scr_tab su_tab sxcr_tab s0_tab : ℚ)
    (sl scr su sxcr s0 : List ℚ) : Transform :=
  if noSatScaling do_3pt_ scr su sxcr s0 then
    let data := { data with doNotScale := true }
    let data := { data with smin := sl_tab }
    let data :=
      if oil then
        { data with smax := if s0_tab < 0 then 1 - su_tab else 1 - su_tab - s0_tab }
      else
        { data with smax := su_tab }
    { data with scr := scr_tab }
  else
    let data := { data with doNotScale := false }
    let data := { data with do_3pt := do_3pt_ }
    let s_r : ℚ := if s0_tab < 0 then 1 - sxcr_tab else 1 - sxcr_tab - s0_tab
    let data :=
      if s0_tab < 0 then
        if do_3pt_ then
          { data with sr := if sxcr.isEmpty then s_r else 1 - vecAt sxcr cell }
        else data
      else
        if do_3pt_ then
          { data with sr := 1 - (if sxcr.isEmpty then sxcr_tab else vecAt sxcr cell)
                              - (if s0.isEmpty then s0_tab else vecAt s0 cell) }
        else data
    let data := { data with scr := if scr.isEmpty then scr_tab else vecAt scr cell }
    let s_max : ℚ :=
      if oil then (if s0_tab < 0 then 1 - su_tab else 1 - su_tab - s0_tab) else su_tab
    let data :=
      if oil then
        let data := { data with smin := sl_tab }
        if s0_tab < 0 then
          { data with smax := 1 - (if su.isEmpty then su_tab else vecAt su cell) }
        else
          { data with smax := 1 - (if su.isEmpty then su_tab else vecAt su cell)
                                - (if s0.isEmpty then s0_tab else vecAt s0 cell) }
      else
        let data := { data with smin := if sl.isEmpty then sl_tab else vecAt sl cell }
        { data with smax := if su.isEmpty then su_tab else vecAt su cell }
    if do_3pt_ then
      let data := { data with slope1 := (s_r - scr_tab) / (data.sr - data.scr) }
      { data with slope2 := (s_max - s_r) / (data.smax - data.sr) }
    else
      let data := { data with slope1 := (s_max - scr_tab) / (data.smax - data.scr) }
      let data := { data with slope2 := data.slope1 }
      { data with sr := data.scr + (s_r - scr_tab) * (data.smax - data.scr) / (s_max - scr_tab) }

/-- Lines 818-835 of `initEPSParam`: the relperm endpoint values and slopes. -/
def initEPSParam_kr (cell : Nat) (data : Transform) (krsr_tab krmax_tab : ℚ)
    (krsr krmax : List ℚ) : Transform :=
  let data := { data with doKrMax := !krmax.isEmpty }
  let data := { data with doKrCrit := !krsr.isEmpty }
  let data := { data with doSatInterp := false }
  let data := { data with krsr := if krsr.isEmpty then krsr_tab else vecAt krsr cell }
  let data := { data with krmax := if krmax.isEmpty then krmax_tab else vecAt krmax cell }
  let data := { data with krSlopeCrit := data.krsr / krsr_tab }
  let data := { data with krSlopeMax := data.krmax / krmax_tab }
  if data.doKrCrit then
    if data.sr > data.smax - 1 / 1000000 then
      { data with doKrCrit := false }
    else if |krmax_tab - krsr_tab| > 1 / 1000000 then
      { data with krSlopeMax := (data.krmax - data.krsr) / (krmax_tab - krsr_tab) }
    else
      let data := { data with doSatInterp := true }
      { data with krSlopeMax := (data.krmax - data.krsr) / (data.smax - data.sr) }
  else data

/-- Lines 837-841 of `initEPSParam`: the capillary pressure factor. -/
def initEPSParam_pc (cell : Nat) (data : Transform) (pcmax_tab : ℚ)
    (pcmax : List ℚ) : Transform :=
  if |pcmax_tab| < 1 / 100000000 ∨ pcmax.isEmpty ∨ pcmax_tab * vecAt pcmax cell < 0 then
    { data with pcFactor := 1 }
  else
    { data with pcFactor := vecAt pcmax cell / pcmax_tab }

/-- The procedure `SaturationPropsFromDeck::initEPSParam` (lines 750-843): the three
blocks in the order of the source.  `do_3pt_` is the member the procedure reads. -/
def initEPSParam (do_3pt_ : Bool) (cell : Nat) (data : Transform) (oil : Bool)
    (sl_tab scr_tab su_tab sxcr_tab s0_tab krsr_tab krmax_tab pcmax_tab : ℚ)
    (sl scr su sxcr s0 krsr krmax pcmax : List ℚ) : Transform :=
  let data := initEPSParam_sat do_3pt_ cell data oil sl_tab scr_tab su_tab sxcr_tab s0_tab
    sl scr su sxcr s0
  let data := initEPSParam_kr cell data krsr_tab krmax_tab krsr krmax
  initEPSParam_pc cell data pcmax_tab pcmax

/-- The denominators of the divisions `initEPSParam` performs on an input, in the order
of the source: those of `slope1` and `slope2` (lines 809-810) or of `slope1` and the
two-point `sr` (lines 812 and 814), of `krSlopeCrit` and `krSlopeMax` (lines 823-824), of
the recomputed `krSlopeMax` (line 830 or 833) and of `pcFactor` (line 840). -/
def initEPSParam_denominators (do_3pt_ : Bool) (cell : Nat) (data : Transform) (oil : Bool)
    (sl_tab scr_tab su_tab sxcr_tab s0_tab krsr_tab krmax_tab pcmax_tab : ℚ)
    (sl scr su sxcr s0 krsr _krmax pcmax : List ℚ) : List ℚ :=
  let data := initEPSParam_sat do_3pt_ cell data oil sl_tab scr_tab su_tab sxcr_tab s0_tab
    sl scr su sxcr s0
  let s_max : ℚ :=
    if oil then (if s0_tab < 0 then 1 - su_tab else 1 - su_tab - s0_tab) else su_tab
  let sat : List ℚ :=
    if noSatScaling do_3pt_ scr su sxcr s0 then []
    else if do_3pt_ then [data.sr - data.scr, data.smax - data.sr]
    else [data.smax - data.scr, s_max - scr_tab]
  let kr : List ℚ := [krsr_tab, krmax_tab]
  let krCrit : List ℚ :=
    if !krsr.isEmpty then
      if data.sr > data.smax - 1 / 1000000 then []
      else if |krmax_tab - krsr_tab| > 1 / 1000000 then [krmax_tab - krsr_tab]
      else [data.smax - data.sr]
    else []
  let pc : List ℚ :=
    if |pcmax_tab| < 1 / 100000000 ∨ pcmax.isEmpty ∨ pcmax_tab * vecAt pcmax cell < 0 then []
    else [pcmax_tab]
  sat ++ kr ++ krCrit ++ pc

/-- Modelled from the spec: the saturation remap the evaluator applies with a transform
(`scaleSat` of `EPSTransforms::Transform`) is defined in a file that is not among the
sources.  Section 4.1 step 3 gives it as linear segments: in three-point mode one
segment of slope `slope1` anchored at `scr` (image `scr_tab`) up to `sr` and one of slope
`slope2` anchored at `sr` (image `s_r`) above it, in two-point mode the single segment of
slope `slope1` anchored at `scr`. -/
def remapSat (t : Transform) (scr_tab s_r s : ℚ) : ℚ :=
  if t.do_3pt then
    (if s ≤ t.sr then scr_tab + t.slope1 * (s - t.scr) else s_r + t.slope2 * (s - t.sr))
  else scr_tab + t.slope1 * (s - t.scr)

/-- A record used as the state before the call in the concrete evaluations. -/
def data0 : Transform :=
  { doNotScale := false, do_3pt := false, smin := 0, scr := 0, sr := 0, smax := 0,
    slope1 := 0, slope2 := 0, doKrMax := false, doKrCrit := false, doSatInterp := false,
    krsr := 0, krmax := 0, krSlopeCrit := 0, krSlopeMax := 0, pcFactor := 0 }

/-! ### The evaluator: data model -/

/-- Modelled from the spec: the phase identifiers `BlackoilPhases::Aqua`, `Liquid` and
`Vapour` (water, oil, gas) are declared in a header that is not among the sources. -/
inductive BlackoilPhases where
  | Aqua
  | Liquid
  | Vapour
deriving DecidableEq

/-- Modelled from the spec: the record `PhaseUsage` (section 3: the set of active
phases, their index positions and their count) is declared in a header that is not among
the sources; the fields are the ones the sources read. -/
structure PhaseUsage where
  num_phases : Nat
  phase_used : BlackoilPhases → Bool
  phase_pos : BlackoilPhases → Nat

/-- Modelled from the spec: the per-region table (section 3, `RegionTable`) is declared
in a header that is not among the sources; the fields are the ones `initEPS` and
`satRange_` read.  The arrays `smin_` and `smax_` are indexed by phase position. -/
structure SatFunc where
  smin_ : Nat → ℚ
  smax_ : Nat → ℚ
  swcr_ : ℚ
  sowcr_ : ℚ
  sgcr_ : ℚ
  sogcr_ : ℚ
  krwr_ : ℚ
  krwmax_ : ℚ
  krgr_ : ℚ
  krgmax_ : ℚ
  krorw_ : ℚ
  krorg_ : ℚ
  kromax_ : ℚ
  pcwmax_ : ℚ
  pcgmax_ : ℚ

/-- The four transforms of a cell (`EPSTransforms`), as `initEPS` fills them. -/
structure EPSTransforms where
  wat : Transform
  watoil : Transform
  gas : Transform
  gasoil : Transform

/-- Modelled from the spec: the per-cell hysteresis record (section 3,
`HysteresisState`: "a scalar or small record tracking the historical saturation extreme
reached by that cell") is declared in a header that is not among the sources. -/
structure SatHyst where
  sat_extreme : ℚ

/-- Modelled from the spec: `ExplicitArraysFluidState` is declared in a header that is
not among the sources; it holds the saturation array given to `setSaturationArray` and
the data point index given to `setIndex`. -/
structure ExplicitArraysFluidState where
  saturations : Nat → ℚ
  arrayIdx : Nat

/-- The optional trailing arguments of the overloaded evaluation methods: none (plain
table), the drainage transforms (endpoint scaling), or the drainage transforms, the
imbibition transforms and the history record (hysteresis). -/
inductive EvalMode where
  | plain
  | eps (t : EPSTransforms)
  | hyst (t : EPSTransforms) (th : EPSTransforms) (sh : SatHyst)

/-- The curve evaluation methods of the table class, which are not among the sources,
as parameters.  Each takes the table, the fluid state and the optional arguments and
yields the values it stores through its output pointer, by offset from that pointer:
`num_phases` values (and `num_phases^2` derivative values). -/
structure Curves where
  evalKr : SatFunc → ExplicitArraysFluidState → EvalMode → Nat → ℚ
  evalKrDeriv : SatFunc → ExplicitArraysFluidState → EvalMode → (Nat → ℚ) × (Nat → ℚ)
  evalPc : SatFunc → ExplicitArraysFluidState → EvalMode → Nat → ℚ
  evalPcDeriv : SatFunc → ExplicitArraysFluidState → EvalMode → (Nat → ℚ) × (Nat → ℚ)

/-- The members of `SaturationPropsFromDeck` the entry points read and write. -/
structure SaturationPropsFromDeck where
  phase_usage_ : PhaseUsage
  satfunc_ : List SatFunc
  cell_to_func_ : List Int
  cell_to_func_imb_ : List Int
  do_hyst_ : Bool
  do_eps_ : Bool
  do_3pt_ : Bool
  eps_transf_ : List EPSTransforms
  eps_transf_hyst_ : List EPSTransforms
  sat_hyst_ : List SatHyst

/-- The table read outside the range of `satfunc_` in the embedding. -/
def satFunc0 : SatFunc :=
  { smin_ := fun _ => 0, smax_ := fun _ => 0, swcr_ := 0, sowcr_ := 0, sgcr_ := 0,
    sogcr_ := 0, krwr_ := 0, krwmax_ := 0, krgr_ := 0, krgmax_ := 0, krorw_ := 0,
    krorg_ := 0, kromax_ := 0, pcwmax_ := 0, pcgmax_ := 0 }

/-- The transforms read outside the range of `eps_transf_` in the embedding. -/
def epsTransforms0 : EPSTransforms :=
  { wat := data0, watoil := data0, gas := data0, gasoil := data0 }

/-- The history record read outside the range of `sat_hyst_` in the embedding. -/
def satHyst0 : SatHyst :=
  { sat_extreme := 0 }

/-- The expression `satfunc_[k]`. -/
def SaturationPropsFromDeck.satfuncAt (S : SaturationPropsFromDeck) (k : Int) : SatFunc :=
  S.satfunc_.getD k.toNat satFunc0

/-- The expression `cell_to_func_[c]`. -/
def SaturationPropsFromDeck.cellToFunc (S : SaturationPropsFromDeck) (c : Nat) : Int :=
  S.cell_to_func_.getD c 0

/-- The expression `eps_transf_[c]`. -/
def SaturationPropsFromDeck.epsTransf (S : SaturationPropsFromDeck) (c : Nat) :
    EPSTransforms :=
  S.eps_transf_.getD c epsTransforms0

/-- The expression `eps_transf_hyst_[c]`. -/
def SaturationPropsFromDeck.epsTransfHyst (S : SaturationPropsFromDeck) (c : Nat) :
    EPSTransforms :=
  S.eps_transf_hyst_.getD c epsTransforms0

/-- The expression `sat_hyst_[c]`. -/
def SaturationPropsFromDeck.satHyst (S : SaturationPropsFromDeck) (c : Nat) : SatHyst :=
  S.sat_hyst_.getD c satHyst0

/-- A store of `len` consecutive values through a pointer `out + base`. -/
def writeBlock (out : Nat → ℚ) (base len : Nat) (vals : Nat → ℚ) : Nat → ℚ :=
  fun j => if base ≤ j ∧ j < base + len then vals (j - base) else out j

/-! ### The evaluator: entry points -/

/-- The idiom `t.doNotScale ? satFunc.smin_[pos] : t.smin` of `satRange_`: the minimum
reported for water or gas. -/
def reportedMin (t : Transform) (satFunc : SatFunc) (pos : Nat) : ℚ :=
  if t.doNotScale then satFunc.smin_ pos else t.smin

/-- The idiom `t.doNotScale ? satFunc.smax_[pos] : t.smax` of `satRange_`: the maximum
reported for water or gas. -/
def reportedMax (t : Transform) (satFunc : SatFunc) (pos : Nat) : ℚ :=
  if t.doNotScale then satFunc.smax_ pos else t.smax

/-- The procedure `SaturationPropsFromDeck::satRange_` (lines 376-417): the range of one
batch position, stored in `smin` and `smax` at `np*cellIdx + position of the phase`. -/
def satRange_ (S : SaturationPropsFromDeck) (satFunc : SatFunc) (cellIdx : Nat)
    (cells : Nat → Nat) (smin smax : Nat → ℚ) : (Nat → ℚ) × (Nat → ℚ) :=
  let np := S.phase_usage_.num_phases
  if S.do_eps_ then
    let wpos := S.phase_usage_.phase_pos BlackoilPhases.Aqua
    let opos := S.phase_usage_.phase_pos BlackoilPhases.Liquid
    let gpos := S.phase_usage_.phase_pos BlackoilPhases.Vapour
    let smin := Function.update smin (np * cellIdx + opos) 1
    let smax := Function.update smax (np * cellIdx + opos) 1
    let r : (Nat → ℚ) × (Nat → ℚ) :=
      if S.phase_usage_.phase_used BlackoilPhases.Aqua then
        let smin := Function.update smin (np * cellIdx + wpos)
          (if (S.epsTransf (cells cellIdx)).wat.doNotScale then satFunc.smin_ wpos
            else (S.epsTransf (cells cellIdx)).wat.smin)
        let smax := Function.update smax (np * cellIdx + wpos)
          (if (S.epsTransf (cells cellIdx)).wat.doNotScale then satFunc.smax_ wpos
            else (S.epsTransf (cells cellIdx)).wat.smax)
        let smin := Function.update smin (np * cellIdx + opos)
          (smin (np * cellIdx + opos) - smax (np * cellIdx + wpos))
        let smax := Function.update smax (np * cellIdx + opos)
          (smax (np * cellIdx + opos) - smin (np * cellIdx + wpos))
        (smin, smax)
      else (smin, smax)
    let r : (Nat → ℚ) × (Nat → ℚ) :=
      if S.phase_usage_.phase_used BlackoilPhases.Vapour then
        let smin := Function.update r.1 (np * cellIdx + gpos)
          (if (S.epsTransf (cells cellIdx)).gas.doNotScale then satFunc.smin_ gpos
            else (S.epsTransf (cells cellIdx)).gas.smin)
        let smax := Function.update r.2 (np * cellIdx + gpos)
          (if (S.epsTransf (cells cellIdx)).gas.doNotScale then satFunc.smax_ gpos
            else (S.epsTransf (cells cellIdx)).gas.smax)
        let smin := Function.update smin (np * cellIdx + opos)
          (smin (np * cellIdx + opos) - smax (np * cellIdx + gpos))
        let smax := Function.update smax (np * cellIdx + opos)
          (smax (np * cellIdx + opos) - smin (np * cellIdx + gpos))
        (smin, smax)
      else r
    if S.phase_usage_.phase_used BlackoilPhases.Vapour
        && S.phase_usage_.phase_used BlackoilPhases.Aqua then
      (Function.update r.1 (np * cellIdx + opos) (max 0 (r.1 (np * cellIdx + opos))), r.2)
    else r
  else
    (List.range np).foldl
      (fun (acc : (Nat → ℚ) × (Nat → ℚ)) p =>
        (Function.update acc.1 (np * cellIdx + p) (satFunc.smin_ p),
         Function.update acc.2 (np * cellIdx + p) (satFunc.smax_ p)))
      (smin, smax)

/-- The procedure `SaturationPropsFromDeck::satRange` (lines 364-373). -/
def satRange (S : SaturationPropsFromDeck) (n : Nat) (cells : Nat → Nat)
    (smin smax : Nat → ℚ) : (Nat → ℚ) × (Nat → ℚ) :=
  (List.range n).foldl
    (fun (acc : (Nat → ℚ) × (Nat → ℚ)) cellIdx =>
      let satFunc := S.satfuncAt (S.cellToFunc cellIdx)
      satRange_ S satFunc cellIdx cells acc.1 acc.2)
    (smin, smax)

/-- The call `relperm` makes for one data point in its loop without derivatives
(lines 297-303): the table of the cell and one of three overloads of `evalKr`. -/
def relpermPoint (C : Curves) (S : SaturationPropsFromDeck)
    (fluidState : ExplicitArraysFluidState) (cell : Nat) : Nat → ℚ :=
  if S.do_hyst_ then
    C.evalKr (S.satfuncAt (S.cellToFunc cell)) fluidState
      (EvalMode.hyst (S.epsTransf cell) (S.epsTransfHyst cell) (S.satHyst cell))
  else if S.do_eps_ then
    C.evalKr (S.satfuncAt (S.cellToFunc cell)) fluidState (EvalMode.eps (S.epsTransf cell))
  else
    C.evalKr (S.satfuncAt (S.cellToFunc cell)) fluidState EvalMode.plain

/-- The call `relperm` makes for one data point in its loop with derivatives
(lines 285-291). -/
def relpermPointDeriv (C : Curves) (S : SaturationPropsFromDeck)
    (fluidState : ExplicitArraysFluidState) (cell : Nat) : (Nat → ℚ) × (Nat → ℚ) :=
  if S.do_hyst_ then
    C.evalKrDeriv (S.satfuncAt (S.cellToFunc cell)) fluidState
      (EvalMode.hyst (S.epsTransf cell) (S.epsTransfHyst cell) (S.satHyst cell))
  else if S.do_eps_ then
    C.evalKrDeriv (S.satfuncAt (S.cellToFunc cell)) fluidState
      (EvalMode.eps (S.epsTransf cell))
  else
    C.evalKrDeriv (S.satfuncAt (S.cellToFunc cell)) fluidState EvalMode.plain

/-- The procedure `SaturationPropsFromDeck::relperm` (lines 270-306).  `arrayIdx0` is the
index a freshly constructed fluid state holds; `dkrds` is `none` for a null pointer.
The result is the pair of output arrays after the call. -/
def relperm (C : Curves) (S : SaturationPropsFromDeck) (arrayIdx0 : Nat) (n : Nat)
    (s : Nat → ℚ) (cells : Nat → Nat) (kr : Nat → ℚ) (dkrds : Option (Nat → ℚ)) :
    (Nat → ℚ) × Option (Nat → ℚ) :=
  let fluidState : ExplicitArraysFluidState := { saturations := s, arrayIdx := arrayIdx0 }
  let np := S.phase_usage_.num_phases
  match dkrds with
  | some d =>
    let r := (List.range n).foldl
      (fun (acc : ExplicitArraysFluidState × (Nat → ℚ) × (Nat → ℚ)) i =>
        let fluidState : ExplicitArraysFluidState := { acc.1 with arrayIdx := i }
        let v := relpermPointDeriv C S fluidState (cells i)
        (fluidState, writeBlock acc.2.1 (np * i) np v.1,
          writeBlock acc.2.2 (np * np * i) (np * np) v.2))
      (fluidState, kr, d)
    (r.2.1, some r.2.2)
  | none =>
    let r := (List.range n).foldl
      (fun (acc : ExplicitArraysFluidState × (Nat → ℚ)) i =>
        let v := relpermPoint C S acc.1 (cells i)
        (acc.1, writeBlock acc.2 (np * i) np v))
      (fluidState, kr)
    (r.2, none)

/-- The call `capPress` makes for one data point in its loop without derivatives
(lines 348-352). -/
def capPressPoint (C : Curves) (S : SaturationPropsFromDeck)
    (fluidState : ExplicitArraysFluidState) (cell : Nat) : Nat → ℚ :=
  if S.do_eps_ then
    C.evalPc (S.satfuncAt (S.cellToFunc cell)) fluidState (EvalMode.eps (S.epsTransf cell))
  else
    C.evalPc (S.satfuncAt (S.cellToFunc cell)) fluidState EvalMode.plain

/-- The call `capPress` makes for one data point in its loop with derivatives
(lines 337-341). -/
def capPressPointDeriv (C : Curves) (S : SaturationPropsFromDeck)
    (fluidState : ExplicitArraysFluidState) (cell : Nat) : (Nat → ℚ) × (Nat → ℚ) :=
  if S.do_eps_ then
    C.evalPcDeriv (S.satfuncAt (S.cellToFunc cell)) fluidState
      (EvalMode.eps (S.epsTransf cell))
  else
    C.evalPcDeriv (S.satfuncAt (S.cellToFunc cell)) fluidState EvalMode.plain

/-- The procedure `SaturationPropsFromDeck::capPress` (lines 322-355), with the
conventions of `relperm`. -/
def capPress (C : Curves) (S : SaturationPropsFromDeck) (arrayIdx0 : Nat) (n : Nat)
    (s : Nat → ℚ) (cells : Nat → Nat) (pc : Nat → ℚ) (dpcds : Option (Nat → ℚ)) :
    (Nat → ℚ) × Option (Nat → ℚ) :=
  let fluidState : ExplicitArraysFluidState := { saturations := s, arrayIdx := arrayIdx0 }
  let np := S.phase_usage_.num_phases
  match dpcds with
  | some d =>
    let r := (List.range n).foldl
      (fun (acc : ExplicitArraysFluidState × (Nat → ℚ) × (Nat → ℚ)) i =>
        let fluidState : ExplicitArraysFluidState := { acc.1 with arrayIdx := i }
        let v := capPressPointDeriv C S fluidState (cells i)
        (fluidState, writeBlock acc.2.1 (np * i) np v.1,
          writeBlock acc.2.2 (np * np * i) (np * np) v.2))
      (fluidState, pc, d)
    (r.2.1, some r.2.2)
  | none =>
    let r := (List.range n).foldl
      (fun (acc : ExplicitArraysFluidState × (Nat → ℚ)) i =>
        let fluidState : ExplicitArraysFluidState := { acc.1 with arrayIdx := i }
        let v := capPressPoint C S fluidState (cells i)
        (fluidState, writeBlock acc.2 (np * i) np v))
      (fluidState, pc)
    (r.2, none)

/-- The ways `swatInitScaling` ends: it returns, or it throws `std::runtime_error`. -/
inductive CallResult where
  | returned
  | threw
deriving DecidableEq

/-- The water capillary pressure `pc[wpos]` that `swatInitScaling` evaluates at `swat`
with the current drainage transforms of the cell (lines 457-465). -/
def swatInitPc (C : Curves) (S : SaturationPropsFromDeck) (cell : Nat) (swat : ℚ) : ℚ :=
  let wpos := S.phase_usage_.phase_pos BlackoilPhases.Aqua
  let s : Nat → ℚ := Function.update (fun _ => 0) wpos swat
  let fluidState : ExplicitArraysFluidState := { saturations := s, arrayIdx := 0 }
  let pc : Nat → ℚ := writeBlock (fun _ => 0) 0 S.phase_usage_.num_phases
    (C.evalPc (S.satfuncAt (S.cellToFunc cell)) fluidState (EvalMode.eps (S.epsTransf cell)))
  pc wpos

/-- The procedure `SaturationPropsFromDeck::swatInitScaling` (lines 445-473): how the
call ends, the members after it, and the argument `swat` after it. -/
def swatInitScaling (C : Curves) (S : SaturationPropsFromDeck) (cell : Nat)
    (pcow swat : ℚ) : CallResult × SaturationPropsFromDeck × ℚ :=
  if S.phase_usage_.phase_used BlackoilPhases.Aqua then
    let pc_low_threshold : ℚ := 1 / 100000000
    if swat ≤ (S.epsTransf cell).wat.smin then
      (CallResult.returned, S, (S.epsTransf cell).wat.smin)
    else if pcow < pc_low_threshold then
      (CallResult.returned, S, (S.epsTransf cell).wat.smax)
    else
      let pcw := swatInitPc C S cell swat
      if pcw > pc_low_threshold then
        let wat : Transform :=
          { (S.epsTransf cell).wat with
            pcFactor := (S.epsTransf cell).wat.pcFactor * (pcow / pcw) }
        let t : EPSTransforms := { (S.epsTransf cell) with wat := wat }
        (CallResult.returned, { S with eps_transf_ := S.eps_transf_.set cell t }, swat)
      else (CallResult.returned, S, swat)
  else (CallResult.threw, S, swat)

/-! ### The evaluator: hysteresis update -/

/-- The procedure `SaturationPropsFromDeck::updateSatHyst` (lines 424-437).  The per-step
update of the table class, which is not among the sources, is the parameter `U`: from the
table, the saturations `s + np*i` of the data point, the drainage and imbibition
transforms of the cell and its history record it yields the history record after the
update.  The result is the members after the call. -/
def updateSatHyst (U : SatFunc → (Nat → ℚ) → EPSTransforms → EPSTransforms → SatHyst → SatHyst)
    (S : SaturationPropsFromDeck) (n : Nat) (cells : Nat → Nat) (s : Nat → ℚ) :
    SaturationPropsFromDeck :=
  let np := S.phase_usage_.num_phases
  if S.do_hyst_ then
    (List.range n).foldl
      (fun (acc : SaturationPropsFromDeck) i =>
        { acc with
          sat_hyst_ := acc.sat_hyst_.set (cells i)
            (U (acc.satfuncAt (acc.cellToFunc (cells i))) (fun p => s (np * i + p))
              (acc.epsTransf (cells i)) (acc.epsTransfHyst (cells i))
              (acc.satHyst (cells i))) })
      S
  else S

/-- A sequence of `updateSatHyst` calls, each with its batch size, cells and
saturations. -/
def updateSatHystCalls
    (U : SatFunc → (Nat → ℚ) → EPSTransforms → EPSTransforms → SatHyst → SatHyst)
    (S : SaturationPropsFromDeck) (calls : List (Nat × (Nat → Nat) × (Nat → ℚ))) :
    SaturationPropsFromDeck :=
  calls.foldl (fun acc call => updateSatHyst U acc call.1 call.2.1 call.2.2) S

/-- Modelled from the spec: the per-step update of the table class (its method
`updateSatHyst`) is not among the sources.  Section 4.2: "given a cell's current
saturation vector, update the tracked historical extreme (monotonic — only ever widens,
never shrinks, the recorded maximum displacing saturation) and leave both transforms
untouched".  `disp` picks the displacing saturation out of the saturation vector. -/
def trackExtreme (disp : (Nat → ℚ) → ℚ) :
    SatFunc → (Nat → ℚ) → EPSTransforms → EPSTransforms → SatHyst → SatHyst :=
  fun _ s _ _ h => { sat_extreme := max h.sat_extreme (disp s) }

/-! ### Initialization -/

/-- The exceptions `init` throws, one for each `OPM_THROW` of lines 62-245, for the
`satfunc_.resize` with a negative count, and for a throw inside `initEPS`. -/
inductive InitError where
  | oilInactive
  | satoptsSwitch
  | tooFewSwof
  | tooFewSgof
  | inconsistentTables
  | negativeTableCount
  | ehystrItem2
  | ehystrItem5
  | hysteresisNeedsEndscale
  | hysterWithoutEhystr
  | ehystrWithoutHyster
  | endscaleDirection
  | endscaleReversible
  | endnumRegions
  | scalingKey
  | hysteresisWithRelpermScaling
  | imbnumRegions
  | scalingKeyImbibition
deriving DecidableEq

/-- Modelled from the spec: the deck and the parsed state (section 6, "consumed from the
excluded parsing/table-construction layer") are not among the sources.  The record holds
what `init` reads from them: the phase usage, the keywords present, the data of `SATOPTS`,
`SATNUM`, `ENDNUM` and `IMBNUM`, the number of `SWOF` and `SGOF` tables, items 2 and 5 of
`EHYSTR`, the switches of `ENDSCALE` and `SCALECRS`, the region tables, and the arrays
`initEPSKey` resolves for the 17 drainage keys and the 17 imbibition keys (`none` when it
throws). -/
structure DeckData where
  phase_usage : PhaseUsage
  keywords : List String
  satopts : List String
  satnum : List Int
  swof_size : Int
  sgof_size : Int
  ehystr_item2 : Int
  ehystr_item5 : String
  endscale_direction : String
  endscale_reversible : Bool
  endscale_tables : Int
  scalecrs_enabled : Bool
  endnum : List Int
  imbnum : List Int
  tables : Nat → SatFunc
  eps_vec : Option (List (List ℚ))
  eps_vec_imb : Option (List (List ℚ))

/-- The call `deck->hasKeyword(k)`. -/
def DeckData.hasKeyword (D : DeckData) (k : String) : Bool :=
  D.keywords.contains k

/-- The loop over the data of `SATOPTS` (lines 80-86): every switch must be `HYSTER`,
which sets `hysteresis_switch`; any other switch throws. -/
def satoptsSwitch : List String → Bool → Except InitError Bool
  | [], hysteresis_switch => Except.ok hysteresis_switch
  | x :: xs, _ =>
    if x = "HYSTER" then satoptsSwitch xs true else Except.error InitError.satoptsSwitch

/-- The expression `*std::max_element(v.begin(), v.end())` (of a vector that is not
empty). -/
def maxElement (v : List Int) : Int :=
  v.foldl max (v.headD 0)

/-- The deck position of a cell: `(gc == NULL) ? cell : gc[cell]`. -/
def deckPos (global_cell : Option (Nat → Nat)) (cell : Nat) : Nat :=
  match global_cell with
  | none => cell
  | some gc => gc cell

/-- The number of tables and its consistency checks (lines 104-123); `-1` is
`Uninitialized`. -/
def initNumTables (D : DeckData) (satfuncs_expected : Int) : Except InitError Int :=
  let num_tables : Int := -1
  if D.phase_usage.phase_used BlackoilPhases.Aqua then
    let num_tables := D.swof_size
    if num_tables < satfuncs_expected then Except.error InitError.tooFewSwof
    else if D.phase_usage.phase_used BlackoilPhases.Vapour then
      if D.sgof_size < satfuncs_expected then Except.error InitError.tooFewSgof
      else if num_tables = -1 then Except.ok D.sgof_size
      else if num_tables ≠ D.sgof_size then Except.error InitError.inconsistentTables
      else Except.ok num_tables
    else Except.ok num_tables
  else if D.phase_usage.phase_used BlackoilPhases.Vapour then
    if D.sgof_size < satfuncs_expected then Except.error InitError.tooFewSgof
    else if num_tables = -1 then Except.ok D.sgof_size
    else if num_tables ≠ D.sgof_size then Except.error InitError.inconsistentTables
    else Except.ok num_tables
  else Except.ok num_tables

/-- The check of the `EHYSTR` status (lines 132-153): the value of `do_hyst_`, or the
exception thrown. -/
def initHyst (D : DeckData) (hysteresis_switch : Bool) : Except InitError Bool :=
  if hysteresis_switch && D.hasKeyword "EHYSTR" then
    if D.ehystr_item2 ≠ 0 then Except.error InitError.ehystrItem2
    else if D.ehystr_item5 ≠ "KR" then Except.error InitError.ehystrItem5
    else if ! D.hasKeyword "ENDSCALE" then Except.error InitError.hysteresisNeedsEndscale
    else Except.ok true
  else if hysteresis_switch then Except.error InitError.hysterWithoutEhystr
  else if D.hasKeyword "EHYSTR" then Except.error InitError.ehystrWithoutHyster
  else Except.ok false

/-- The call `v.resize(n)` of a vector of records, new entries being value-initialized
(`d`). -/
def resizeVec {α : Type} (v : List α) (n : Nat) (d : α) : List α :=
  v.take n ++ List.replicate (n - v.length) d

/-- The body of the loop of `SaturationPropsFromDeck::initEPS` (lines 502-550): the
transforms `eps_transf[cell]` of the cell after the four calls of `initEPSParam`, from
the transforms `t` before them and the arrays `eps_vec` that `initEPSKey` resolved for
the 17 keys. -/
def initEPSCell (S : SaturationPropsFromDeck) (eps_vec : List (List ℚ)) (cell : Nat)
    (t : EPSTransforms) : EPSTransforms :=
  let dummy : List ℚ := []
  let wpos := S.phase_usage_.phase_pos BlackoilPhases.Aqua
  let gpos := S.phase_usage_.phase_pos BlackoilPhases.Vapour
  let oilWater := S.phase_usage_.phase_used BlackoilPhases.Aqua
    && S.phase_usage_.phase_used BlackoilPhases.Liquid
    && ! S.phase_usage_.phase_used BlackoilPhases.Vapour
  let oilGas := ! S.phase_usage_.phase_used BlackoilPhases.Aqua
    && S.phase_usage_.phase_used BlackoilPhases.Liquid
    && S.phase_usage_.phase_used BlackoilPhases.Vapour
  let threephase := S.phase_usage_.phase_used BlackoilPhases.Aqua
    && S.phase_usage_.phase_used BlackoilPhases.Liquid
    && S.phase_usage_.phase_used BlackoilPhases.Vapour
  let v : Nat → List ℚ := fun k => eps_vec.getD k []
  let satFunc := S.satfuncAt (S.cellToFunc cell)
  let t : EPSTransforms :=
    if threephase || oilWater then
      let wat := initEPSParam S.do_3pt_ cell t.wat false
        (satFunc.smin_ wpos) satFunc.swcr_ (satFunc.smax_ wpos) satFunc.sowcr_
        (if oilWater then -1 else satFunc.smin_ gpos)
        satFunc.krwr_ satFunc.krwmax_ satFunc.pcwmax_
        (v 0) (v 2) (v 1) (v 6) (v 3) (v 11) (v 8) (v 15)
      let watoil := initEPSParam S.do_3pt_ cell t.watoil true
        0 satFunc.sowcr_ (satFunc.smin_ wpos) satFunc.swcr_
        (if oilWater then -1 else satFunc.smin_ gpos)
        satFunc.krorw_ satFunc.kromax_ 0
        (v 0) (v 6) (v 0) (v 2) (v 3) (v 13) (v 10) dummy
      { t with wat := wat, watoil := watoil }
    else t
  if threephase || oilGas then
    let gas := initEPSParam S.do_3pt_ cell t.gas false
      (satFunc.smin_ gpos) satFunc.sgcr_ (satFunc.smax_ gpos) satFunc.sogcr_
      (if oilGas then -1 else satFunc.smin_ wpos)
      satFunc.krgr_ satFunc.krgmax_ satFunc.pcgmax_
      (v 3) (v 5) (v 4) (v 7) (v 0) (v 12) (v 9) (v 16)
    let gasoil := initEPSParam S.do_3pt_ cell t.gasoil true
      0 satFunc.sogcr_ (satFunc.smin_ gpos) satFunc.sgcr_
      (if oilGas then -1 else satFunc.smin_ wpos)
      satFunc.krorg_ satFunc.kromax_ 0
      (v 3) (v 7) (v 3) (v 5) (v 0) (v 14) (v 10) dummy
    { t with gas := gas, gasoil := gasoil }
  else t

/-- The loop of `SaturationPropsFromDeck::initEPS` (lines 501-551) over the cells, given
the arrays `eps_vec` that `initEPSKey` resolved for the 17 keys: the transforms of every
cell after the four calls of `initEPSParam`. -/
def initEPS (S : SaturationPropsFromDeck) (number_of_cells : Nat) (eps_vec : List (List ℚ))
    (eps_transf : List EPSTransforms) : List EPSTransforms :=
  (List.range number_of_cells).foldl
    (fun (eps_transf : List EPSTransforms) cell =>
      eps_transf.set cell
        (initEPSCell S eps_vec cell (eps_transf.getD cell epsTransforms0)))
    eps_transf

/-- The relperm-value scaling keys `init` tests when hysteresis is active
(lines 199-212). -/
def hystExcludedKeys : List String :=
  ["KRW", "KRG", "KRO", "KRWR", "KRGR", "KRORW", "KRORG", "ENKRVD",
   "IKRG", "IKRO", "IKRWR", "IKRGR", "IKRORW", "IKRORG"]

/-- The saturation table scaling part of `init` (lines 155-245), from the members set so
far, the table count and `do_hyst_`. -/
def initScaling (D : DeckData) (number_of_cells : Nat) (global_cell : Option (Nat → Nat))
    (S : SaturationPropsFromDeck) (num_tables : Int) (do_hyst_ : Bool) :
    Except InitError SaturationPropsFromDeck :=
  let S := { S with do_hyst_ := do_hyst_, do_eps_ := false, do_3pt_ := false }
  if D.hasKeyword "ENDSCALE" then
    if D.endscale_direction ≠ "NODIR" then Except.error InitError.endscaleDirection
    else if ! D.endscale_reversible then Except.error InitError.endscaleReversible
    else
      let S := { S with do_3pt_ := D.hasKeyword "SCALECRS" && D.scalecrs_enabled }
      let S := { S with do_eps_ := true }
      if D.hasKeyword "ENDNUM" && decide (maxElement D.endnum > D.endscale_tables) then
        Except.error InitError.endnumRegions
      else
        match D.eps_vec with
        | none => Except.error InitError.scalingKey
        | some eps_vec =>
          let S := { S with
            eps_transf_ := initEPS S number_of_cells eps_vec
              (resizeVec S.eps_transf_ number_of_cells epsTransforms0) }
          if do_hyst_ then
            if hystExcludedKeys.any D.hasKeyword then
              Except.error InitError.hysteresisWithRelpermScaling
            else if D.hasKeyword "IMBNUM" && decide (maxElement D.imbnum > num_tables) then
              Except.error InitError.imbnumRegions
            else
              let S :=
                if D.hasKeyword "IMBNUM" then
                  { S with
                    cell_to_func_imb_ := (List.range number_of_cells).map
                      (fun cell => D.imbnum.getD (deckPos global_cell cell) 0 - 1) }
                else S
              match D.eps_vec_imb with
              | none => Except.error InitError.scalingKeyImbibition
              | some eps_vec_imb =>
                let S := { S with
                  sat_hyst_ := resizeVec S.sat_hyst_ number_of_cells satHyst0 }
                Except.ok { S with
                  eps_transf_hyst_ := initEPS S number_of_cells eps_vec_imb
                    (resizeVec S.eps_transf_hyst_ number_of_cells epsTransforms0) }
          else Except.ok S
  else Except.ok S

/-- The members of a default-constructed `SaturationPropsFromDeck`, on which `init` is
called. -/
def freshProps (pu : PhaseUsage) : SaturationPropsFromDeck :=
  { phase_usage_ := pu
    satfunc_ := []
    cell_to_func_ := []
    cell_to_func_imb_ := []
    do_hyst_ := false
    do_eps_ := false
    do_3pt_ := false
    eps_transf_ := []
    eps_transf_hyst_ := []
    sat_hyst_ := [] }

/-- The check of the `SATOPTS` status (lines 79-89): the value of `hysteresis_switch`,
or the exception thrown. -/
def initSwitch (D : DeckData) : Except InitError Bool :=
  if D.hasKeyword "SATOPTS" then satoptsSwitch D.satopts false else Except.ok false

/-- The value of `satfuncs_expected` (lines 93-97). -/
def satfuncsExpected (D : DeckData) : Int :=
  if D.hasKeyword "SATNUM" then maxElement D.satnum else 1

/-- The vector `cell_to_func_` after lines 94-104.  (A deck position outside `SATNUM`
reads 0 in the embedding.) -/
def initCellToFunc (D : DeckData) (number_of_cells : Nat) (global_cell : Option (Nat → Nat)) :
    List Int :=
  if D.hasKeyword "SATNUM" then
    (List.range number_of_cells).map
      (fun cell => D.satnum.getD (deckPos global_cell cell) 0 - 1)
  else List.replicate number_of_cells 0

/-- The procedure `SaturationPropsFromDeck::init` (lines 62-245): the members after a
successful call, or the exception thrown.  The call `satfunc_.resize(num_tables)` with
`num_tables = -1` (neither water nor gas active) throws. -/
def init (D : DeckData) (number_of_cells : Nat) (global_cell : Option (Nat → Nat)) :
    Except InitError SaturationPropsFromDeck :=
  let S := freshProps D.phase_usage
  if ! S.phase_usage_.phase_used BlackoilPhases.Liquid then
    Except.error InitError.oilInactive
  else
    match initSwitch D with
    | Except.error e => Except.error e
    | Except.ok hysteresis_switch =>
      let S := { S with cell_to_func_ := initCellToFunc D number_of_cells global_cell }
      match initNumTables D (satfuncsExpected D) with
      | Except.error e => Except.error e
      | Except.ok num_tables =>
        if num_tables < 0 then Except.error InitError.negativeTableCount
        else
          let S := { S with satfunc_ := (List.range num_tables.toNat).map D.tables }
          match initHyst D hysteresis_switch with
          | Except.error e => Except.error e
          | Except.ok do_hyst_ =>
            initScaling D number_of_cells global_cell S num_tables do_hyst_

/-! ### Utilities for black-oil simulators (`miscUtilitiesBlackoil.cpp`) -/

/-- The interface `BlackoilPropertiesInterface`, which is not among the sources, as
parameters: the two counts, and for `relperm(n, s, cells, kr, 0)` and
`viscosity(n, p, z, cells, mu, 0)` the values they store through their output pointer, by
offset from that pointer (`n * numPhases` values). -/
structure BlackoilPropertiesInterface where
  numCells : Nat
  numPhases : Nat
  relperm : Nat → (Nat → ℚ) → (Nat → Nat) → Nat → ℚ
  viscosity : Nat → (Nat → ℚ) → (Nat → ℚ) → (Nat → Nat) → Nat → ℚ

/-- The pointer `&v[k]` into a `std::vector<double>`, read by offset. -/
def ptrAt (v : List ℚ) (k : Nat) : Nat → ℚ :=
  fun j => v.getD (k + j) 0

/-- The call `std::fill(a, a + n, 0.0)`. -/
def fillZero (a : Nat → ℚ) (n : Nat) : Nat → ℚ :=
  fun j => if j < n then 0 else a j

/-- The loop of lines 74-78 of `computeInjectedProduced`: `mob[p] /= visc[p]` and
`totmob += mob[p]` for `p < np`; the result is `mob` and `totmob`. -/
def mobilityLoop (np : Nat) (mob visc : Nat → ℚ) : (Nat → ℚ) × ℚ :=
  (List.range np).foldl
    (fun (st : (Nat → ℚ) × ℚ) p =>
      let mob := Function.update st.1 p (st.1 p / visc p)
      (mob, st.2 + mob p))
    (mob, 0)

/-- The loop of lines 79-81 of `computeInjectedProduced`:
`produced[p] += (mob[p]/totmob)*flux` for `p < np`. -/
def producedLoop (np : Nat) (mob : Nat → ℚ) (totmob flux : ℚ) (produced : Nat → ℚ) :
    Nat → ℚ :=
  (List.range np).foldl
    (fun (produced : Nat → ℚ) p =>
      Function.update produced p (produced p + (mob p / totmob) * flux))
    produced

/-- The arrays the loop over the cells of `computeInjectedProduced` reads and writes. -/
structure InjectedProduced where
  injected : Nat → ℚ
  produced : Nat → ℚ
  mob : Nat → ℚ
  visc : Nat → ℚ

/-- The body of the loop over the cells of `computeInjectedProduced` (lines 67-82). -/
def injectedProducedStep (props : BlackoilPropertiesInterface) (p z s src : List ℚ)
    (dt : ℚ) (np : Nat) (st : InjectedProduced) (c : Nat) : InjectedProduced :=
  if src.getD c 0 > 0 then
    { st with injected := Function.update st.injected 0 (st.injected 0 + src.getD c 0 * dt) }
  else if src.getD c 0 < 0 then
    let flux := - src.getD c 0 * dt
    let sat := ptrAt s (np * c)
    let mob := writeBlock st.mob 0 props.numPhases (props.relperm 1 sat (fun _ => c))
    let visc := writeBlock st.visc 0 props.numPhases
      (props.viscosity 1 (ptrAt p c) (ptrAt z (np * c)) (fun _ => c))
    let r := mobilityLoop np mob visc
    { st with
      mob := r.1
      visc := visc
      produced := producedLoop np r.1 r.2 flux st.produced }
  else st

/-- The procedure `computeInjectedProduced` (lines 48-84): the arrays `injected` and
`produced` after the call, `none` when it throws.  (`np = s.size()/src.size()` is the
division of natural numbers; the source divides by zero when `src` is empty.) -/
def computeInjectedProduced (props : BlackoilPropertiesInterface) (p z s src : List ℚ)
    (dt : ℚ) (injected produced : Nat → ℚ) : Option ((Nat → ℚ) × (Nat → ℚ)) :=
  let num_cells := src.length
  let np := s.length / src.length
  if s.length ≠ num_cells * np then none
  else
    let injected := fillZero injected np
    let produced := fillZero produced np
    let visc : Nat → ℚ := fun _ => 0
    let mob : Nat → ℚ := fun _ => 0
    let st := (List.range num_cells).foldl (injectedProducedStep props p z s src dt np)
      { injected := injected, produced := produced, mob := mob, visc := visc }
    some (st.injected, st.produced)

/-- The phase mobility `kr_p / visc_p` of cell `c` as lines 72-76 of
`computeInjectedProduced` compute it, from the relative permeability and the viscosity of
the one cell. -/
def cellMobility (props : BlackoilPropertiesInterface) (p z s : List ℚ) (np c ph : Nat) :
    ℚ :=
  props.relperm 1 (ptrAt s (np * c)) (fun _ => c) ph
    / props.viscosity 1 (ptrAt p c) (ptrAt z (np * c)) (fun _ => c) ph

/-- The total mobility of cell `c` as lines 74-78 of `computeInjectedProduced` compute
it. -/
def cellTotalMobility (props : BlackoilPropertiesInterface) (p z s : List ℚ) (np c : Nat) :
    ℚ :=
  (Finset.range np).sum (fun ph => cellMobility props p z s np c ph)

/-- The procedure `computePhaseMobilities` (lines 167-192): the vector `pmobc` after the
call (its content before the call is cleared), `none` when the assertion on the size of
`s` fails. -/
def computePhaseMobilities (props : BlackoilPropertiesInterface) (cells : List Nat)
    (p z s : List ℚ) : Option (List ℚ) :=
  let nc := props.numCells
  let np := props.numPhases
  if s.length ≠ nc * np then none
  else
    let mu := (List.range (nc * np)).map
      (props.viscosity nc (ptrAt p 0) (ptrAt z 0) (fun i => cells.getD i 0))
    let pmobc := (List.range (nc * np)).map
      (props.relperm nc (ptrAt s 0) (fun i => cells.getD i 0))
    some (List.zipWith (fun a b => a / b) pmobc mu)

/-- The procedure `computeTotalMobility` (lines 95-117): the vector `totmob` after the
call, `none` when `computePhaseMobilities` fails.  (An entry of `pmobc` read past its end
is 0 in the embedding.) -/
def computeTotalMobility (props : BlackoilPropertiesInterface) (cells : List Nat)
    (p z s : List ℚ) : Option (List ℚ) :=
  match computePhaseMobilities props cells p z s with
  | none => none
  | some pmobc =>
    let np := props.numPhases
    let nc := cells.length
    let totmob : List ℚ := List.replicate nc 0
    some ((List.range nc).foldl
      (fun (totmob : List ℚ) c =>
        (List.range np).foldl
          (fun (totmob : List ℚ) p => totmob.set c (totmob.getD c 0 + pmobc.getD (c * np + p) 0))
          totmob)
      totmob)

/-- The entry `pmobc[j]` as `computePhaseMobilities` computes it: the relative
permeability stored at offset `j` divided by the viscosity stored at offset `j`. -/
def phaseMobility (props : BlackoilPropertiesInterface) (cells : List Nat) (p z s : List ℚ)
    (j : Nat) : ℚ :=
  props.relperm props.numCells (ptrAt s 0) (fun i => cells.getD i 0) j
    / props.viscosity props.numCells (ptrAt p 0) (ptrAt z 0) (fun i => cells.getD i 0) j

/-- The procedure `computeFractionalFlow` (lines 201-221): the vector `fractional_flows`
after the call, `none` when `computePhaseMobilities` fails.  (An entry of `pc_mobs` read
past its end is 0 in the embedding.) -/
def computeFractionalFlow (props : BlackoilPropertiesInterface) (cells : List Nat)
    (p z s : List ℚ) (fractional_flows : List ℚ) : Option (List ℚ) :=
  let num_phases := props.numPhases
  match computePhaseMobilities props cells p z s with
  | none => none
  | some pc_mobs =>
    let fractional_flows := resizeVec fractional_flows (cells.length * num_phases) 0
    some ((List.range cells.length).foldl
      (fun (fractional_flows : List ℚ) i =>
        let phase_sum := (List.range num_phases).foldl
          (fun (phase_sum : ℚ) phase => phase_sum + pc_mobs.getD (i * num_phases + phase) 0)
          0
        (List.range num_phases).foldl
          (fun (fractional_flows : List ℚ) phase =>
            fractional_flows.set (i * num_phases + phase)
              (pc_mobs.getD (i * num_phases + phase) 0 / phase_sum))
          fractional_flows)
      fractional_flows)

/-! ### Concrete inputs for the evaluations -/

/-- A three-phase run: water, oil and gas at positions 0, 1 and 2. -/
def threePhase : PhaseUsage :=
  { num_phases := 3
    phase_used := fun _ => true
    phase_pos := fun ph =>
      match ph with
      | BlackoilPhases.Aqua => 0
      | BlackoilPhases.Liquid => 1
      | BlackoilPhases.Vapour => 2 }

/-- A table whose water range is `[1/4, 3/4]`. -/
def tableA : SatFunc :=
  { satFunc0 with
    smin_ := fun p => if p = 0 then 1/4 else 0
    smax_ := fun p => if p = 0 then 3/4 else if p = 1 then 3/4 else 1/2
    swcr_ := 1/4
    sowcr_ := 1/4
    krwr_ := 3/4
    krwmax_ := 1 }

/-- A table whose water range is `[1/8, 7/8]`. -/
def tableB : SatFunc :=
  { satFunc0 with
    smin_ := fun p => if p = 0 then 1/8 else 0
    smax_ := fun p => if p = 0 then 7/8 else if p = 1 then 7/8 else 1/2 }

/-- Two cells in two regions, cell 0 in the region of `tableA` and cell 1 in the region
of `tableB`, without endpoint scaling. -/
def twoRegions : SaturationPropsFromDeck :=
  { phase_usage_ := threePhase
    satfunc_ := [tableA, tableB]
    cell_to_func_ := [0, 1]
    cell_to_func_imb_ := []
    do_hyst_ := false
    do_eps_ := false
    do_3pt_ := false
    eps_transf_ := []
    eps_transf_hyst_ := []
    sat_hyst_ := [] }

/-- One cell with endpoint scaling: water scaled to `[1/8, 5/8]` with `pcFactor = 1`, gas
left to the table `tableA` (`[0, 1/2]`). -/
def oneScaledCell : SaturationPropsFromDeck :=
  { phase_usage_ := threePhase
    satfunc_ := [tableA]
    cell_to_func_ := [0]
    cell_to_func_imb_ := []
    do_hyst_ := false
    do_eps_ := true
    do_3pt_ := false
    eps_transf_ :=
      [{ wat := { data0 with doNotScale := false, smin := 1/8, smax := 5/8, pcFactor := 1 }
         watoil := data0
         gas := { data0 with doNotScale := true }
         gasoil := data0 }]
    eps_transf_hyst_ := []
    sat_hyst_ := [] }

/-- One cell with endpoint scaling whose water transform is what `initEPSParam` computes
from the table range `[1/4, 3/4]` and a supplied maximum `SWU = 1/8` alone. -/
def lowMaxCell : SaturationPropsFromDeck :=
  { oneScaledCell with
    eps_transf_ :=
      [{ wat := initEPSParam false 0 data0 false (1/4) (1/4) (3/4) (1/4) 0 (3/4) 1 0
                  [] [] [1/8] [] [] [] [] []
         watoil := data0
         gas := { data0 with doNotScale := true }
         gasoil := data0 }] }

/-- Curves for the evaluations: for three phases, straight-line relative permeabilities
`kr_p = s_p` and capillary pressures `pc_p = 1 - s_p`, read from the fluid state at its
index, whatever the table and the optional arguments. -/
def straightLines : Curves :=
  { evalKr := fun _ fs _ p => fs.saturations (3 * fs.arrayIdx + p)
    evalKrDeriv := fun _ fs _ =>
      (fun p => fs.saturations (3 * fs.arrayIdx + p), fun q => if q % 4 = 0 then 1 else 0)
    evalPc := fun _ fs _ p => 1 - fs.saturations (3 * fs.arrayIdx + p)
    evalPcDeriv := fun _ fs _ =>
      (fun p => 1 - fs.saturations (3 * fs.arrayIdx + p),
        fun q => if q % 4 = 0 then -1 else 0) }

/-- Saturations of two data points of three phases: `(1/4, 1/2, 1/4)` and
`(1/2, 1/4, 1/4)`. -/
def twoPoints : Nat → ℚ :=
  fun j => [1/4, 1/2, 1/4, 1/2, 1/4, 1/4].getD j 0

/-- An oil-gas run: oil and gas at positions 0 and 1, no water. -/
def oilGas : PhaseUsage :=
  { num_phases := 2
    phase_used := fun ph =>
      match ph with
      | BlackoilPhases.Aqua => false
      | BlackoilPhases.Liquid => true
      | BlackoilPhases.Vapour => true
    phase_pos := fun ph =>
      match ph with
      | BlackoilPhases.Aqua => 0
      | BlackoilPhases.Liquid => 0
      | BlackoilPhases.Vapour => 1 }

/-- The capillary pressure factor the evaluation finds in its optional arguments: that
of the water transform of the drainage transforms, 1 for the plain table. -/
def pcFactorOf : EvalMode → ℚ
  | EvalMode.plain => 1
  | EvalMode.eps t => t.wat.pcFactor
  | EvalMode.hyst t _ _ => t.wat.pcFactor

/-- Curves for the evaluations whose capillary pressure is scaled by the factor of the
transform: `pc_p = pcFactor * (1 - s_p)`; relative permeabilities as in `straightLines`. -/
def scaledLines : Curves :=
  { straightLines with
    evalPc := fun _ fs m p => pcFactorOf m * (1 - fs.saturations (3 * fs.arrayIdx + p))
    evalPcDeriv := fun _ fs m =>
      (fun p => pcFactorOf m * (1 - fs.saturations (3 * fs.arrayIdx + p)),
        fun q => if q % 4 = 0 then - pcFactorOf m else 0) }

/-- The cell of `oneScaledCell` with the water `pcFactor` halved. -/
def halvedCell : SaturationPropsFromDeck :=
  { oneScaledCell with
    eps_transf_ :=
      [{ wat := { data0 with doNotScale := false, smin := 1/8, smax := 5/8, pcFactor := 1/2 }
         watoil := data0
         gas := { data0 with doNotScale := true }
         gasoil := data0 }] }

/-- One cell with hysteresis active whose tracked extreme is `1/2`. -/
def hystCell : SaturationPropsFromDeck :=
  { oneScaledCell with
    do_hyst_ := true
    eps_transf_hyst_ := oneScaledCell.eps_transf_
    sat_hyst_ := [{ sat_extreme := 1/2 }] }

/-- A three-phase deck with one `SWOF` and one `SGOF` table (`tableA`) and no other
keyword; no scaling array is resolved. -/
def plainDeck : DeckData :=
  { phase_usage := threePhase
    keywords := []
    satopts := []
    satnum := []
    swof_size := 1
    sgof_size := 1
    ehystr_item2 := 0
    ehystr_item5 := ""
    endscale_direction := ""
    endscale_reversible := false
    endscale_tables := 0
    scalecrs_enabled := false
    endnum := []
    imbnum := []
    tables := fun _ => tableA
    eps_vec := some (List.replicate 17 [])
    eps_vec_imb := some (List.replicate 17 []) }

/-- The deck `plainDeck` with `ENDSCALE NODIR REVERS 1` and neither `SATOPTS` nor
`EHYSTR`. -/
def endscaleDeck : DeckData :=
  { plainDeck with
    keywords := ["ENDSCALE"]
    endscale_direction := "NODIR"
    endscale_reversible := true
    endscale_tables := 1 }

/-- The deck `endscaleDeck` with `SATOPTS HYSTER` and `EHYSTR` with item 2 equal to 0 and
item 5 equal to `KR`. -/
def hystDeck : DeckData :=
  { endscaleDeck with
    keywords := ["SATOPTS", "EHYSTR", "ENDSCALE"]
    satopts := ["HYSTER"]
    ehystr_item2 := 0
    ehystr_item5 := "KR" }

/-- The deck `hystDeck` with `ENDNUM` equal to 0 in its one cell and `IKRW` equal to
`1/2` there: `initEPSKey` resolves the array of `IKRW` (index 8) to the deck value. -/
def ikrwDeck : DeckData :=
  { hystDeck with
    keywords := ["SATOPTS", "EHYSTR", "ENDSCALE", "ENDNUM", "IKRW"]
    endnum := [0]
    eps_vec_imb := some (List.replicate 8 [] ++ [[1/2]] ++ List.replicate 8 []) }

/-- The deck `plainDeck` with `SATNUM` equal to 0 in cell 0 and 1 in cell 1. -/
def zeroSatnumDeck : DeckData :=
  { plainDeck with
    keywords := ["SATNUM"]
    satnum := [0, 1] }

/-- The deck `plainDeck` with `SATOPTS HYSTER` alone. -/
def hysterDeck : DeckData :=
  { plainDeck with
    keywords := ["SATOPTS"]
    satopts := ["HYSTER"] }

/-- A three-phase deck with two `SWOF` and two `SGOF` tables and `SATNUM` equal to 1 in
cell 0 and 2 in cell 1. -/
def twoRegionDeck : DeckData :=
  { plainDeck with
    keywords := ["SATNUM"]
    satnum := [1, 2]
    swof_size := 2
    sgof_size := 2
    tables := fun k => if k = 0 then tableA else tableB }

/-- Properties of two cells and two phases for the evaluations: the relative
permeability of a phase is its saturation and every viscosity is 2. -/
def linearProps : BlackoilPropertiesInterface :=
  { numCells := 2
    numPhases := 2
    relperm := fun _ s _ j => s j
    viscosity := fun _ _ _ _ _ => 2 }

/-- The arrays of the 17 scaling keys with `SWL = 1/8` in the one cell and no other
array. -/
def swlOnly : List (List ℚ) :=
  [[1/8]] ++ List.replicate 16 []

/-- An output array before the call. -/
def zeros : Nat → ℚ :=
  fun _ => 0

section InitEPSParam

variable (do_3pt_ : Bool) (cell : Nat) (data : Transform) (oil : Bool)
variable (sl_tab scr_tab su_tab sxcr_tab s0_tab krsr_tab krmax_tab pcmax_tab : ℚ)
variable (sl scr su sxcr s0 krsr krmax pcmax : List ℚ)

/-! ### Shared lemmas -/

/-- The test of line 771 fails exactly when some saturation scaling array is supplied
(`sxcr` counting only in three-point mode). -/
lemma noSatScaling_eq_false_iff :
    noSatScaling do_3pt_ scr su sxcr s0 = false ↔
      (scr ≠ [] ∨ su ≠ [] ∨ s0 ≠ [] ∨ (do_3pt_ = true ∧ sxcr ≠ [])) := by
  cases do_3pt_ <;> cases scr <;> cases su <;> cases sxcr <;> cases s0 <;>
    simp [noSatScaling]

/-- The capillary pressure block assigns `pcFactor` and nothing else. -/
lemma initEPSParam_pc_eq :
    initEPSParam_pc cell data pcmax_tab pcmax =
      { data with pcFactor :=
          if |pcmax_tab| < 1 / 100000000 ∨ pcmax.isEmpty ∨ pcmax_tab * vecAt pcmax cell < 0
          then 1 else vecAt pcmax cell / pcmax_tab } := by
  unfold initEPSParam_pc
  split_ifs <;> rfl

/-- The relperm block leaves the saturation endpoints and slopes alone. -/
lemma initEPSParam_kr_frame :
    (initEPSParam_kr cell data krsr_tab krmax_tab krsr krmax).doNotScale = data.doNotScale ∧
    (initEPSParam_kr cell data krsr_tab krmax_tab krsr krmax).do_3pt = data.do_3pt ∧
    (initEPSParam_kr cell data krsr_tab krmax_tab krsr krmax).smin = data.smin ∧
    (initEPSParam_kr cell data krsr_tab krmax_tab krsr krmax).scr = data.scr ∧
    (initEPSParam_kr cell data krsr_tab krmax_tab krsr krmax).sr = data.sr ∧
    (initEPSParam_kr cell data krsr_tab krmax_tab krsr krmax).smax = data.smax ∧
    (initEPSParam_kr cell data krsr_tab krmax_tab krsr krmax).slope1 = data.slope1 ∧
    (initEPSParam_kr cell data krsr_tab krmax_tab krsr krmax).slope2 = data.slope2 := by
  unfold initEPSParam_kr
  simp only
  split_ifs <;> exact ⟨rfl, rfl, rfl, rfl, rfl, rfl, rfl, rfl⟩

/-- The saturation endpoints and slopes after `initEPSParam` are those of its first block. -/
lemma initEPSParam_sat_fields :
    (initEPSParam do_3pt_ cell data oil sl_tab scr_tab su_tab sxcr_tab s0_tab krsr_tab krmax_tab
        pcmax_tab sl scr su sxcr s0 krsr krmax pcmax).doNotScale
      = (initEPSParam_sat do_3pt_ cell data oil sl_tab scr_tab su_tab sxcr_tab s0_tab
          sl scr su sxcr s0).doNotScale ∧
    (initEPSParam do_3pt_ cell data oil sl_tab scr_tab su_tab sxcr_tab s0_tab krsr_tab krmax_tab
        pcmax_tab sl scr su sxcr s0 krsr krmax pcmax).smin
      = (initEPSParam_sat do_3pt_ cell data oil sl_tab scr_tab su_tab sxcr_tab s0_tab
          sl scr su sxcr s0).smin ∧
    (initEPSParam do_3pt_ cell data oil sl_tab scr_tab su_tab sxcr_tab s0_tab krsr_tab krmax_tab
        pcmax_tab sl scr su sxcr s0 krsr krmax pcmax).scr
      = (initEPSParam_sat do_3pt_ cell data oil sl_tab scr_tab su_tab sxcr_tab s0_tab
          sl scr su sxcr s0).scr ∧
    (initEPSParam do_3pt_ cell data oil sl_tab scr_tab su_tab sxcr_tab s0_tab krsr_tab krmax_tab
        pcmax_tab sl scr su sxcr s0 krsr krmax pcmax).sr
      = (initEPSParam_sat do_3pt_ cell data oil sl_tab scr_tab su_tab sxcr_tab s0_tab
          sl scr su sxcr s0).sr ∧
    (initEPSParam do_3pt_ cell data oil sl_tab scr_tab su_tab sxcr_tab s0_tab krsr_tab krmax_tab
        pcmax_tab sl scr su sxcr s0 krsr krmax pcmax).smax
      = (initEPSParam_sat do_3pt_ cell data oil sl_tab scr_tab su_tab sxcr_tab s0_tab
          sl scr su sxcr s0).smax ∧
    (initEPSParam do_3pt_ cell data oil sl_tab scr_tab su_tab sxcr_tab s0_tab krsr_tab krmax_tab
        pcmax_tab sl scr su sxcr s0 krsr krmax pcmax).slope1
      = (initEPSParam_sat do_3pt_ cell data oil sl_tab scr_tab su_tab sxcr_tab s0_tab
          sl scr su sxcr s0).slope1 ∧
    (initEPSParam do_3pt_ cell data oil sl_tab scr_tab su_tab sxcr_tab s0_tab krsr_tab krmax_tab
        pcmax_tab sl scr su sxcr s0 krsr krmax pcmax).slope2
      = (initEPSParam_sat do_3pt_ cell data oil sl_tab scr_tab su_tab sxcr_tab s0_tab
          sl scr su sxcr s0).slope2 := by
  obtain ⟨h1, -, h3, h4, h5, h6, h7, h8⟩ := initEPSParam_kr_frame cell
    (initEPSParam_sat do_3pt_ cell data oil sl_tab scr_tab su_tab sxcr_tab s0_tab
      sl scr su sxcr s0) krsr_tab krmax_tab krsr krmax
  simp only [initEPSParam, initEPSParam_pc_eq]
  exact ⟨h1, h3, h4, h5, h6, h7, h8⟩

/-- The first block when no saturation scaling array is supplied (lines 772-779). -/
lemma initEPSParam_sat_unscaled (h : noSatScaling do_3pt_ scr su sxcr s0 = true) :
    initEPSParam_sat do_3pt_ cell data oil sl_tab scr_tab su_tab sxcr_tab s0_tab
        sl scr su sxcr s0 =
      { data with doNotScale := true, smin := sl_tab, smax := tab_s_max oil su_tab s0_tab,
                  scr := scr_tab } := by
  unfold initEPSParam_sat tab_s_max
  simp only [h, if_true]
  cases oil <;> simp

/-- The first block when some saturation scaling array is supplied (lines 781-815). -/
lemma initEPSParam_sat_scaled (h : noSatScaling do_3pt_ scr su sxcr s0 = false) :
    (initEPSParam_sat do_3pt_ cell data oil sl_tab scr_tab su_tab sxcr_tab s0_tab
        sl scr su sxcr s0).doNotScale = false ∧
    (initEPSParam_sat do_3pt_ cell data oil sl_tab scr_tab su_tab sxcr_tab s0_tab
        sl scr su sxcr s0).scr = orTab scr cell scr_tab ∧
    (initEPSParam_sat do_3pt_ cell data oil sl_tab scr_tab su_tab sxcr_tab s0_tab
        sl scr su sxcr s0).smin = (if oil then sl_tab else orTab sl cell sl_tab) ∧
    (initEPSParam_sat do_3pt_ cell data oil sl_tab scr_tab su_tab sxcr_tab s0_tab
        sl scr su sxcr s0).smax =
      (if oil then
        (if s0_tab < 0 then 1 - orTab su cell su_tab
          else 1 - orTab su cell su_tab - orTab s0 cell s0_tab)
       else orTab su cell su_tab) ∧
    (initEPSParam_sat do_3pt_ cell data oil sl_tab scr_tab su_tab sxcr_tab s0_tab
        sl scr su sxcr s0).sr =
      (if do_3pt_ then
        (if s0_tab < 0 then 1 - orTab sxcr cell sxcr_tab
          else 1 - orTab sxcr cell sxcr_tab - orTab s0 cell s0_tab)
       else
        (initEPSParam_sat do_3pt_ cell data oil sl_tab scr_tab su_tab sxcr_tab s0_tab
            sl scr su sxcr s0).scr
          + (tab_s_r sxcr_tab s0_tab - scr_tab)
            * ((initEPSParam_sat do_3pt_ cell data oil sl_tab scr_tab su_tab sxcr_tab s0_tab
                  sl scr su sxcr s0).smax
                - (initEPSParam_sat do_3pt_ cell data oil sl_tab scr_tab su_tab sxcr_tab s0_tab
                  sl scr su sxcr s0).scr)
            / (tab_s_max oil su_tab s0_tab - scr_tab)) ∧
    (initEPSParam_sat do_3pt_ cell data oil sl_tab scr_tab su_tab sxcr_tab s0_tab
        sl scr su sxcr s0).slope1 =
      (if do_3pt_ then
        (tab_s_r sxcr_tab s0_tab - scr_tab)
          / ((initEPSParam_sat do_3pt_ cell data oil sl_tab scr_tab su_tab sxcr_tab s0_tab
                sl scr su sxcr s0).sr
              - (initEPSParam_sat do_3pt_ cell data oil sl_tab scr_tab su_tab sxcr_tab s0_tab
                sl scr su sxcr s0).scr)
       else
        (tab_s_max oil su_tab s0_tab - scr_tab)
          / ((initEPSParam_sat do_3pt_ cell data oil sl_tab scr_tab su_tab sxcr_tab s0_tab
                sl scr su sxcr s0).smax
              - (initEPSParam_sat do_3pt_ cell data oil sl_tab scr_tab su_tab sxcr_tab s0_tab
                sl scr su sxcr s0).scr)) ∧
    (initEPSParam_sat do_3pt_ cell data oil sl_tab scr_tab su_tab sxcr_tab s0_tab
        sl scr su sxcr s0).slope2 =
      (if do_3pt_ then
        (tab_s_max oil su_tab s0_tab - tab_s_r sxcr_tab s0_tab)
          / ((initEPSParam_sat do_3pt_ cell data oil sl_tab scr_tab su_tab sxcr_tab s0_tab
                sl scr su sxcr s0).smax
              - (initEPSParam_sat do_3pt_ cell data oil sl_tab scr_tab su_tab sxcr_tab s0_tab
                sl scr su sxcr s0).sr)
       else
        (tab_s_max oil su_tab s0_tab - scr_tab)
          / ((initEPSParam_sat do_3pt_ cell data oil sl_tab scr_tab su_tab sxcr_tab s0_tab
                sl scr su sxcr s0).smax
              - (initEPSParam_sat do_3pt_ cell data oil sl_tab scr_tab su_tab sxcr_tab s0_tab
                sl scr su sxcr s0).scr)) := by
  unfold initEPSParam_sat tab_s_max tab_s_r orTab
  simp only [h]
  cases do_3pt_ <;> cases oil <;> by_cases h0 : s0_tab < 0 <;> simp [h0] <;>
    split_ifs <;> rfl

/-- The relperm block in closed form (lines 818-835), in terms of the endpoints `sr`
and `smax` it reads and leaves alone. -/
lemma initEPSParam_kr_spec :
    (initEPSParam_kr cell data krsr_tab krmax_tab krsr krmax).doKrMax = !krmax.isEmpty ∧
    (initEPSParam_kr cell data krsr_tab krmax_tab krsr krmax).krsr = orTab krsr cell krsr_tab ∧
    (initEPSParam_kr cell data krsr_tab krmax_tab krsr krmax).krmax = orTab krmax cell krmax_tab ∧
    (initEPSParam_kr cell data krsr_tab krmax_tab krsr krmax).krSlopeCrit = orTab krsr cell krsr_tab / krsr_tab ∧
    (initEPSParam_kr cell data krsr_tab krmax_tab krsr krmax).doKrCrit = (!krsr.isEmpty && decide (data.sr ≤ data.smax - 1 / 1000000)) ∧
    (initEPSParam_kr cell data krsr_tab krmax_tab krsr krmax).doSatInterp =
      (!krsr.isEmpty && decide (data.sr ≤ data.smax - 1 / 1000000)
        && decide (|krmax_tab - krsr_tab| ≤ 1 / 1000000)) ∧
    (initEPSParam_kr cell data krsr_tab krmax_tab krsr krmax).krSlopeMax =
      (if krsr.isEmpty = false ∧ data.sr ≤ data.smax - 1 / 1000000 then
        (if 1 / 1000000 < |krmax_tab - krsr_tab| then
          (orTab krmax cell krmax_tab - orTab krsr cell krsr_tab) / (krmax_tab - krsr_tab)
         else
          (orTab krmax cell krmax_tab - orTab krsr cell krsr_tab) / (data.smax - data.sr))
       else orTab krmax cell krmax_tab / krmax_tab) := by
  unfold initEPSParam_kr orTab
  simp only [gt_iff_lt]
  by_cases hk : krsr.isEmpty = true
  · simp [hk]
  · have hk2 : krsr.isEmpty = false := by simpa using hk
    simp only [hk2, Bool.not_false, if_true, Bool.true_and, true_and, Bool.false_eq_true,
      if_false]
    by_cases hs : data.smax - 1 / 1000000 < data.sr
    · have hs2 : ¬ data.sr ≤ data.smax - 1 / 1000000 := not_le.mpr hs
      simp only [if_pos hs, if_neg hs2, decide_eq_false hs2, Bool.false_and]
      simp
    · have hs2 : data.sr ≤ data.smax - 1 / 1000000 := not_lt.mp hs
      by_cases ht : 1 / 1000000 < |krmax_tab - krsr_tab|
      · have ht2 : ¬ |krmax_tab - krsr_tab| ≤ 1 / 1000000 := not_le.mpr ht
        simp only [if_neg hs, if_pos hs2, if_pos ht, decide_eq_true hs2, decide_eq_false ht2,
          Bool.true_and]
        simp
      · have ht2 : |krmax_tab - krsr_tab| ≤ 1 / 1000000 := not_lt.mp ht
        simp only [if_neg hs, if_pos hs2, if_neg ht, decide_eq_true hs2, decide_eq_true ht2,
          Bool.true_and]
        simp

/-- The relperm fields after `initEPSParam` in closed form, in terms of the endpoints
`sr` and `smax` of the record the procedure returns. -/
lemma initEPSParam_kr_closed :
    (initEPSParam do_3pt_ cell data oil sl_tab scr_tab su_tab sxcr_tab s0_tab krsr_tab krmax_tab
        pcmax_tab sl scr su sxcr s0 krsr krmax pcmax).doKrMax = !krmax.isEmpty ∧
    (initEPSParam do_3pt_ cell data oil sl_tab scr_tab su_tab sxcr_tab s0_tab krsr_tab krmax_tab
        pcmax_tab sl scr su sxcr s0 krsr krmax pcmax).krsr = orTab krsr cell krsr_tab ∧
    (initEPSParam do_3pt_ cell data oil sl_tab scr_tab su_tab sxcr_tab s0_tab krsr_tab krmax_tab
        pcmax_tab sl scr su sxcr s0 krsr krmax pcmax).krmax = orTab krmax cell krmax_tab ∧
    (initEPSParam do_3pt_ cell data oil sl_tab scr_tab su_tab sxcr_tab s0_tab krsr_tab krmax_tab
        pcmax_tab sl scr su sxcr s0 krsr krmax pcmax).krSlopeCrit = orTab krsr cell krsr_tab / krsr_tab ∧
    (initEPSParam do_3pt_ cell data oil sl_tab scr_tab su_tab sxcr_tab s0_tab krsr_tab krmax_tab
        pcmax_tab sl scr su sxcr s0 krsr krmax pcmax).doKrCrit =
      (!krsr.isEmpty &&
        decide ((initEPSParam do_3pt_ cell data oil sl_tab scr_tab su_tab sxcr_tab s0_tab krsr_tab krmax_tab
        pcmax_tab sl scr su sxcr s0 krsr krmax pcmax).sr ≤
          (initEPSParam do_3pt_ cell data oil sl_tab scr_tab su_tab sxcr_tab s0_tab krsr_tab krmax_tab
        pcmax_tab sl scr su sxcr s0 krsr krmax pcmax).smax - 1 / 1000000)) ∧
    (initEPSParam do_3pt_ cell data oil sl_tab scr_tab su_tab sxcr_tab s0_tab krsr_tab krmax_tab
        pcmax_tab sl scr su sxcr s0 krsr krmax pcmax).doSatInterp =
      (!krsr.isEmpty &&
        decide ((initEPSParam do_3pt_ cell data oil sl_tab scr_tab su_tab sxcr_tab s0_tab krsr_tab krmax_tab
        pcmax_tab sl scr su sxcr s0 krsr krmax pcmax).sr ≤
          (initEPSParam do_3pt_ cell data oil sl_tab scr_tab su_tab sxcr_tab s0_tab krsr_tab krmax_tab
        pcmax_tab sl scr su sxcr s0 krsr krmax pcmax).smax - 1 / 1000000)
        && decide (|krmax_tab - krsr_tab| ≤ 1 / 1000000)) ∧
    (initEPSParam do_3pt_ cell data oil sl_tab scr_tab su_tab sxcr_tab s0_tab krsr_tab krmax_tab
        pcmax_tab sl scr su sxcr s0 krsr krmax pcmax).krSlopeMax =
      (if krsr.isEmpty = false ∧
          (initEPSParam do_3pt_ cell data oil sl_tab scr_tab su_tab sxcr_tab s0_tab krsr_tab krmax_tab
        pcmax_tab sl scr su sxcr s0 krsr krmax pcmax).sr ≤
          (initEPSParam do_3pt_ cell data oil sl_tab scr_tab su_tab sxcr_tab s0_tab krsr_tab krmax_tab
        pcmax_tab sl scr su sxcr s0 krsr krmax pcmax).smax - 1 / 1000000 then
        (if 1 / 1000000 < |krmax_tab - krsr_tab| then
          (orTab krmax cell krmax_tab - orTab krsr cell krsr_tab) / (krmax_tab - krsr_tab)
         else
          (orTab krmax cell krmax_tab - orTab krsr cell krsr_tab) /
            ((initEPSParam do_3pt_ cell data oil sl_tab scr_tab su_tab sxcr_tab s0_tab krsr_tab krmax_tab
        pcmax_tab sl scr su sxcr s0 krsr krmax pcmax).smax -
              (initEPSParam do_3pt_ cell data oil sl_tab scr_tab su_tab sxcr_tab s0_tab krsr_tab krmax_tab
        pcmax_tab sl scr su sxcr s0 krsr krmax pcmax).sr))
       else orTab krmax cell krmax_tab / krmax_tab) := by
  obtain ⟨-, -, -, -, h5, h6, -, -⟩ := initEPSParam_kr_frame cell
    (initEPSParam_sat do_3pt_ cell data oil sl_tab scr_tab su_tab sxcr_tab s0_tab
      sl scr su sxcr s0) krsr_tab krmax_tab krsr krmax
  have hk := initEPSParam_kr_spec cell
    (initEPSParam_sat do_3pt_ cell data oil sl_tab scr_tab su_tab sxcr_tab s0_tab
      sl scr su sxcr s0) krsr_tab krmax_tab krsr krmax
  simp only [initEPSParam, initEPSParam_pc_eq]
  rw [h5, h6]
  exact hk

/-- The capillary pressure factor after `initEPSParam` in closed form (lines 837-841). -/
lemma initEPSParam_pcFactor_closed :
    (initEPSParam do_3pt_ cell data oil sl_tab scr_tab su_tab sxcr_tab s0_tab krsr_tab krmax_tab
        pcmax_tab sl scr su sxcr s0 krsr krmax pcmax).pcFactor =
      (if |pcmax_tab| < 1 / 100000000 ∨ pcmax.isEmpty ∨ pcmax_tab * vecAt pcmax cell < 0
        then 1 else vecAt pcmax cell / pcmax_tab) := by
  simp only [initEPSParam, initEPSParam_pc_eq]

/-- In the scaled case the record keeps the mode flag `do_3pt_` (line 782). -/
lemma initEPSParam_do_3pt_scaled (h : noSatScaling do_3pt_ scr su sxcr s0 = false) :
    (initEPSParam do_3pt_ cell data oil sl_tab scr_tab su_tab sxcr_tab s0_tab krsr_tab krmax_tab
        pcmax_tab sl scr su sxcr s0 krsr krmax pcmax).do_3pt = do_3pt_ := by
  obtain ⟨-, h2, -⟩ := initEPSParam_kr_frame cell
    (initEPSParam_sat do_3pt_ cell data oil sl_tab scr_tab su_tab sxcr_tab s0_tab
      sl scr su sxcr s0) krsr_tab krmax_tab krsr krmax
  simp only [initEPSParam, initEPSParam_pc_eq]
  rw [h2]
  unfold initEPSParam_sat
  simp only [h]
  cases do_3pt_ <;> cases oil <;> by_cases h0 : s0_tab < 0 <;> simp [h0]

/-- The remap is non-decreasing as soon as both slopes are non-negative and, in
three-point mode, the lower segment ends no higher than the upper one starts. -/
lemma remapSat_monotone (t : Transform) (c r : ℚ) (h1 : 0 ≤ t.slope1) (h2 : 0 ≤ t.slope2)
    (hjoin : t.do_3pt = true → c + t.slope1 * (t.sr - t.scr) ≤ r) :
    Monotone (remapSat t c r) := by
  intro a b hab
  unfold remapSat
  by_cases h3 : t.do_3pt = true
  · have hj := hjoin h3
    simp only [h3, if_true]
    by_cases ha : a ≤ t.sr
    · by_cases hb : b ≤ t.sr
      · simp only [if_pos ha, if_pos hb]
        nlinarith [mul_le_mul_of_nonneg_left (sub_le_sub_right hab t.scr) h1]
      · simp only [if_pos ha, if_neg hb]
        have hb2 : 0 ≤ b - t.sr := by linarith [not_le.mp hb]
        nlinarith [mul_le_mul_of_nonneg_left (sub_le_sub_right ha t.scr) h1,
          mul_nonneg h2 hb2]
    · have hb : ¬ b ≤ t.sr := fun hb => ha (le_trans hab hb)
      simp only [if_neg ha, if_neg hb]
      nlinarith [mul_le_mul_of_nonneg_left (sub_le_sub_right hab t.sr) h2]
  · have h3f : t.do_3pt = false := by simpa using h3
    simp only [h3f, Bool.false_eq_true, if_false]
    nlinarith [mul_le_mul_of_nonneg_left (sub_le_sub_right hab t.scr) h1]

/-! ### The saturation endpoints -/

/-- C1: when the `scr`, `su` and `s0` arrays are all absent and (the `sxcr` array is
absent or three-point mode is off), `initEPSParam` sets `doNotScale = true`,
`smin = sl_tab`, `scr = scr_tab`, and `smax = su_tab` for a non-oil curve,
`smax = 1 - su_tab` for a two-phase oil curve (`s0_tab < 0`) and
`smax = 1 - su_tab - s0_tab` for a three-phase oil curve. -/
theorem initEPSParam_no_arrays_table_endpoints
    (hscr : scr = []) (hsu : su = []) (hs0 : s0 = [])
    (hsxcr : sxcr = [] ∨ do_3pt_ = false) :
    (initEPSParam do_3pt_ cell data oil sl_tab scr_tab su_tab sxcr_tab s0_tab krsr_tab krmax_tab
        pcmax_tab sl scr su sxcr s0 krsr krmax pcmax).doNotScale = true ∧
    (initEPSParam do_3pt_ cell data oil sl_tab scr_tab su_tab sxcr_tab s0_tab krsr_tab krmax_tab
        pcmax_tab sl scr su sxcr s0 krsr krmax pcmax).smin = sl_tab ∧
    (initEPSParam do_3pt_ cell data oil sl_tab scr_tab su_tab sxcr_tab s0_tab krsr_tab krmax_tab
        pcmax_tab sl scr su sxcr s0 krsr krmax pcmax).scr = scr_tab ∧
    (oil = false →
      (initEPSParam do_3pt_ cell data oil sl_tab scr_tab su_tab sxcr_tab s0_tab krsr_tab krmax_tab
        pcmax_tab sl scr su sxcr s0 krsr krmax pcmax).smax = su_tab) ∧
    (oil = true → s0_tab < 0 →
      (initEPSParam do_3pt_ cell data oil sl_tab scr_tab su_tab sxcr_tab s0_tab krsr_tab krmax_tab
        pcmax_tab sl scr su sxcr s0 krsr krmax pcmax).smax = 1 - su_tab) ∧
    (oil = true → ¬ s0_tab < 0 →
      (initEPSParam do_3pt_ cell data oil sl_tab scr_tab su_tab sxcr_tab s0_tab krsr_tab krmax_tab
        pcmax_tab sl scr su sxcr s0 krsr krmax pcmax).smax = 1 - su_tab - s0_tab) := by
  have h : noSatScaling do_3pt_ scr su sxcr s0 = true := by
    subst hscr hsu hs0
    rcases hsxcr with hx | hx <;> subst hx <;> simp [noSatScaling]
  obtain ⟨e1, e2, e3, -, e5, -, -⟩ := initEPSParam_sat_fields do_3pt_ cell data oil sl_tab scr_tab
    su_tab sxcr_tab s0_tab krsr_tab krmax_tab pcmax_tab sl scr su sxcr s0 krsr krmax pcmax
  rw [e1, e2, e3, e5, initEPSParam_sat_unscaled do_3pt_ cell data oil sl_tab scr_tab su_tab
    sxcr_tab s0_tab sl scr su sxcr s0 h]
  refine ⟨rfl, rfl, rfl, ?_, ?_, ?_⟩
  · intro ho; simp [tab_s_max, ho]
  · intro ho h0; simp [tab_s_max, ho, h0]
  · intro ho h0; simp [tab_s_max, ho, h0]

/-- The statement of C1 at a three-phase oil curve in three-point mode with only the
minimum array `sl` supplied. -/
theorem initEPSParam_no_arrays_table_endpoints_witness :
    (initEPSParam true 0 data0 true 0 (1/5) (1/10) (3/20) (1/20) (4/5) 1 0
        [3/25] [] [] [] [] [] [] []).doNotScale = true ∧
    (initEPSParam true 0 data0 true 0 (1/5) (1/10) (3/20) (1/20) (4/5) 1 0
        [3/25] [] [] [] [] [] [] []).smin = 0 ∧
    (initEPSParam true 0 data0 true 0 (1/5) (1/10) (3/20) (1/20) (4/5) 1 0
        [3/25] [] [] [] [] [] [] []).scr = 1/5 ∧
    (initEPSParam true 0 data0 true 0 (1/5) (1/10) (3/20) (1/20) (4/5) 1 0
        [3/25] [] [] [] [] [] [] []).smax = 1 - 1/10 - 1/20 :=
  have h := initEPSParam_no_arrays_table_endpoints true 0 data0 true 0 (1/5) (1/10) (3/20)
    (1/20) (4/5) 1 0 [3/25] [] [] [] [] [] [] [] rfl rfl rfl (Or.inl rfl)
  ⟨h.1, h.2.1, h.2.2.1, h.2.2.2.2.2 rfl (by norm_num)⟩

/-- C2: when at least one of the `scr`, `su`, `s0` (or, in three-point mode, `sxcr`)
arrays is supplied, `initEPSParam` sets `doNotScale = false` and remaps every endpoint
to the supplied per-cell value when its array is present and to the table value
otherwise: `scr`; for a non-oil curve `smin` and `smax`; for an oil curve
`smin = sl_tab` and `smax = 1 - su - s0`, the `s0` term being dropped in two-phase
(`s0_tab < 0`); and in three-point mode `sr = 1 - sxcr - s0`, the `s0` term again
dropped in two-phase. -/
theorem initEPSParam_supplied_arrays_remap
    (hsup : scr ≠ [] ∨ su ≠ [] ∨ s0 ≠ [] ∨ (do_3pt_ = true ∧ sxcr ≠ [])) :
    (initEPSParam do_3pt_ cell data oil sl_tab scr_tab su_tab sxcr_tab s0_tab krsr_tab krmax_tab
        pcmax_tab sl scr su sxcr s0 krsr krmax pcmax).doNotScale = false ∧
    (initEPSParam do_3pt_ cell data oil sl_tab scr_tab su_tab sxcr_tab s0_tab krsr_tab krmax_tab
        pcmax_tab sl scr su sxcr s0 krsr krmax pcmax).scr = orTab scr cell scr_tab ∧
    (oil = false →
      (initEPSParam do_3pt_ cell data oil sl_tab scr_tab su_tab sxcr_tab s0_tab krsr_tab krmax_tab
        pcmax_tab sl scr su sxcr s0 krsr krmax pcmax).smin = orTab sl cell sl_tab ∧
      (initEPSParam do_3pt_ cell data oil sl_tab scr_tab su_tab sxcr_tab s0_tab krsr_tab krmax_tab
        pcmax_tab sl scr su sxcr s0 krsr krmax pcmax).smax = orTab su cell su_tab) ∧
    (oil = true →
      (initEPSParam do_3pt_ cell data oil sl_tab scr_tab su_tab sxcr_tab s0_tab krsr_tab krmax_tab
        pcmax_tab sl scr su sxcr s0 krsr krmax pcmax).smin = sl_tab ∧
      (s0_tab < 0 →
        (initEPSParam do_3pt_ cell data oil sl_tab scr_tab su_tab sxcr_tab s0_tab krsr_tab krmax_tab
        pcmax_tab sl scr su sxcr s0 krsr krmax pcmax).smax = 1 - orTab su cell su_tab) ∧
      (¬ s0_tab < 0 →
        (initEPSParam do_3pt_ cell data oil sl_tab scr_tab su_tab sxcr_tab s0_tab krsr_tab krmax_tab
        pcmax_tab sl scr su sxcr s0 krsr krmax pcmax).smax = 1 - orTab su cell su_tab - orTab s0 cell s0_tab)) ∧
    (do_3pt_ = true →
      (s0_tab < 0 →
        (initEPSParam do_3pt_ cell data oil sl_tab scr_tab su_tab sxcr_tab s0_tab krsr_tab krmax_tab
        pcmax_tab sl scr su sxcr s0 krsr krmax pcmax).sr = 1 - orTab sxcr cell sxcr_tab) ∧
      (¬ s0_tab < 0 →
        (initEPSParam do_3pt_ cell data oil sl_tab scr_tab su_tab sxcr_tab s0_tab krsr_tab krmax_tab
        pcmax_tab sl scr su sxcr s0 krsr krmax pcmax).sr = 1 - orTab sxcr cell sxcr_tab - orTab s0 cell s0_tab)) := by
  have h := (noSatScaling_eq_false_iff do_3pt_ scr su sxcr s0).mpr hsup
  obtain ⟨e1, e2, e3, e4, e5, -, -⟩ := initEPSParam_sat_fields do_3pt_ cell data oil sl_tab scr_tab
    su_tab sxcr_tab s0_tab krsr_tab krmax_tab pcmax_tab sl scr su sxcr s0 krsr krmax pcmax
  obtain ⟨f1, f2, f3, f4, f5, -, -⟩ := initEPSParam_sat_scaled do_3pt_ cell data oil sl_tab
    scr_tab su_tab sxcr_tab s0_tab sl scr su sxcr s0 h
  rw [e1, e2, e3, e4, e5, f1, f3, f4, f5, f2]
  refine ⟨rfl, rfl, ?_, ?_, ?_⟩
  · intro ho; simp [ho]
  · intro ho
    refine ⟨by simp [ho], fun h0 => ?_, fun h0 => ?_⟩ <;> simp [ho, h0]
  · intro h3
    refine ⟨fun h0 => ?_, fun h0 => ?_⟩ <;> simp [h3, h0]

/-- The statement of C2 at a three-phase oil curve in three-point mode with the `scr`,
`su`, `sxcr` and `s0` arrays supplied. -/
theorem initEPSParam_supplied_arrays_remap_witness :
    (initEPSParam true 0 data0 true 0 (1/5) (1/10) (3/20) (1/20) (4/5) 1 0
        [] [1/4] [3/25] [1/8] [1/16] [] [] []).doNotScale = false ∧
    (initEPSParam true 0 data0 true 0 (1/5) (1/10) (3/20) (1/20) (4/5) 1 0
        [] [1/4] [3/25] [1/8] [1/16] [] [] []).scr = orTab [1/4] 0 (1/5) ∧
    (initEPSParam true 0 data0 true 0 (1/5) (1/10) (3/20) (1/20) (4/5) 1 0
        [] [1/4] [3/25] [1/8] [1/16] [] [] []).smin = 0 ∧
    (initEPSParam true 0 data0 true 0 (1/5) (1/10) (3/20) (1/20) (4/5) 1 0
        [] [1/4] [3/25] [1/8] [1/16] [] [] []).smax = 1 - orTab [3/25] 0 (1/10) - orTab [1/16] 0 (1/20) ∧
    (initEPSParam true 0 data0 true 0 (1/5) (1/10) (3/20) (1/20) (4/5) 1 0
        [] [1/4] [3/25] [1/8] [1/16] [] [] []).sr = 1 - orTab [1/8] 0 (3/20) - orTab [1/16] 0 (1/20) :=
  have h := initEPSParam_supplied_arrays_remap true 0 data0 true 0 (1/5) (1/10) (3/20) (1/20)
    (4/5) 1 0 [] [1/4] [3/25] [1/8] [1/16] [] [] [] (Or.inl (List.cons_ne_nil _ _))
  ⟨h.1, h.2.1, (h.2.2.2.1 rfl).1, (h.2.2.2.1 rfl).2.2 (by norm_num),
    (h.2.2.2.2 rfl).2 (by norm_num)⟩

/-- C3: in the scaled case, with `s_max` the table maximum and `s_r` the table secondary
critical saturation, three-point mode sets `slope1 = (s_r - scr_tab)/(sr - scr)` and
`slope2 = (s_max - s_r)/(smax - sr)`, and two-point mode sets
`slope1 = slope2 = (s_max - scr_tab)/(smax - scr)`. -/
theorem initEPSParam_slopes
    (hsup : scr ≠ [] ∨ su ≠ [] ∨ s0 ≠ [] ∨ (do_3pt_ = true ∧ sxcr ≠ [])) :
    (do_3pt_ = true →
      (initEPSParam do_3pt_ cell data oil sl_tab scr_tab su_tab sxcr_tab s0_tab krsr_tab krmax_tab
        pcmax_tab sl scr su sxcr s0 krsr krmax pcmax).slope1 =
        (tab_s_r sxcr_tab s0_tab - scr_tab) /
          ((initEPSParam do_3pt_ cell data oil sl_tab scr_tab su_tab sxcr_tab s0_tab krsr_tab krmax_tab
        pcmax_tab sl scr su sxcr s0 krsr krmax pcmax).sr - (initEPSParam do_3pt_ cell data oil sl_tab scr_tab su_tab sxcr_tab s0_tab krsr_tab krmax_tab
        pcmax_tab sl scr su sxcr s0 krsr krmax pcmax).scr) ∧
      (initEPSParam do_3pt_ cell data oil sl_tab scr_tab su_tab sxcr_tab s0_tab krsr_tab krmax_tab
        pcmax_tab sl scr su sxcr s0 krsr krmax pcmax).slope2 =
        (tab_s_max oil su_tab s0_tab - tab_s_r sxcr_tab s0_tab) /
          ((initEPSParam do_3pt_ cell data oil sl_tab scr_tab su_tab sxcr_tab s0_tab krsr_tab krmax_tab
        pcmax_tab sl scr su sxcr s0 krsr krmax pcmax).smax - (initEPSParam do_3pt_ cell data oil sl_tab scr_tab su_tab sxcr_tab s0_tab krsr_tab krmax_tab
        pcmax_tab sl scr su sxcr s0 krsr krmax pcmax).sr)) ∧
    (do_3pt_ = false →
      (initEPSParam do_3pt_ cell data oil sl_tab scr_tab su_tab sxcr_tab s0_tab krsr_tab krmax_tab
        pcmax_tab sl scr su sxcr s0 krsr krmax pcmax).slope1 =
        (tab_s_max oil su_tab s0_tab - scr_tab) /
          ((initEPSParam do_3pt_ cell data oil sl_tab scr_tab su_tab sxcr_tab s0_tab krsr_tab krmax_tab
        pcmax_tab sl scr su sxcr s0 krsr krmax pcmax).smax - (initEPSParam do_3pt_ cell data oil sl_tab scr_tab su_tab sxcr_tab s0_tab krsr_tab krmax_tab
        pcmax_tab sl scr su sxcr s0 krsr krmax pcmax).scr) ∧
      (initEPSParam do_3pt_ cell data oil sl_tab scr_tab su_tab sxcr_tab s0_tab krsr_tab krmax_tab
        pcmax_tab sl scr su sxcr s0 krsr krmax pcmax).slope2 =
        (tab_s_max oil su_tab s0_tab - scr_tab) /
          ((initEPSParam do_3pt_ cell data oil sl_tab scr_tab su_tab sxcr_tab s0_tab krsr_tab krmax_tab
        pcmax_tab sl scr su sxcr s0 krsr krmax pcmax).smax - (initEPSParam do_3pt_ cell data oil sl_tab scr_tab su_tab sxcr_tab s0_tab krsr_tab krmax_tab
        pcmax_tab sl scr su sxcr s0 krsr krmax pcmax).scr)) := by
  have h := (noSatScaling_eq_false_iff do_3pt_ scr su sxcr s0).mpr hsup
  obtain ⟨-, -, e3, e4, e5, e6, e7⟩ := initEPSParam_sat_fields do_3pt_ cell data oil sl_tab scr_tab
    su_tab sxcr_tab s0_tab krsr_tab krmax_tab pcmax_tab sl scr su sxcr s0 krsr krmax pcmax
  obtain ⟨-, -, -, -, -, f6, f7⟩ := initEPSParam_sat_scaled do_3pt_ cell data oil sl_tab
    scr_tab su_tab sxcr_tab s0_tab sl scr su sxcr s0 h
  rw [e3, e4, e5, e6, e7, f6, f7]
  refine ⟨fun h3 => ?_, fun h3 => ?_⟩ <;> simp [h3]

/-- The statement of C3 at a two-phase water curve in two-point mode with the `sl`, `scr`
and `su` arrays supplied, and at a three-phase oil curve in three-point mode. -/
theorem initEPSParam_slopes_witness :
    ((initEPSParam false 0 data0 false (1/10) (1/5) (9/10) (3/20) (-1) (4/5) 1 0
        [3/25] [1/4] [17/20] [] [] [] [] []).slope1 =
        (tab_s_max false (9/10) (-1) - 1/5) /
          ((initEPSParam false 0 data0 false (1/10) (1/5) (9/10) (3/20) (-1) (4/5) 1 0
        [3/25] [1/4] [17/20] [] [] [] [] []).smax -
            (initEPSParam false 0 data0 false (1/10) (1/5) (9/10) (3/20) (-1) (4/5) 1 0
        [3/25] [1/4] [17/20] [] [] [] [] []).scr) ∧
      (initEPSParam false 0 data0 false (1/10) (1/5) (9/10) (3/20) (-1) (4/5) 1 0
        [3/25] [1/4] [17/20] [] [] [] [] []).slope2 =
        (tab_s_max false (9/10) (-1) - 1/5) /
          ((initEPSParam false 0 data0 false (1/10) (1/5) (9/10) (3/20) (-1) (4/5) 1 0
        [3/25] [1/4] [17/20] [] [] [] [] []).smax -
            (initEPSParam false 0 data0 false (1/10) (1/5) (9/10) (3/20) (-1) (4/5) 1 0
        [3/25] [1/4] [17/20] [] [] [] [] []).scr)) ∧
    ((initEPSParam true 0 data0 true 0 (1/5) (1/10) (3/20) (1/20) (4/5) 1 0
        [] [1/4] [3/25] [1/8] [1/16] [] [] []).slope1 =
        (tab_s_r (3/20) (1/20) - 1/5) /
          ((initEPSParam true 0 data0 true 0 (1/5) (1/10) (3/20) (1/20) (4/5) 1 0
        [] [1/4] [3/25] [1/8] [1/16] [] [] []).sr -
            (initEPSParam true 0 data0 true 0 (1/5) (1/10) (3/20) (1/20) (4/5) 1 0
        [] [1/4] [3/25] [1/8] [1/16] [] [] []).scr) ∧
      (initEPSParam true 0 data0 true 0 (1/5) (1/10) (3/20) (1/20) (4/5) 1 0
        [] [1/4] [3/25] [1/8] [1/16] [] [] []).slope2 =
        (tab_s_max true (1/10) (1/20) - tab_s_r (3/20) (1/20)) /
          ((initEPSParam true 0 data0 true 0 (1/5) (1/10) (3/20) (1/20) (4/5) 1 0
        [] [1/4] [3/25] [1/8] [1/16] [] [] []).smax -
            (initEPSParam true 0 data0 true 0 (1/5) (1/10) (3/20) (1/20) (4/5) 1 0
        [] [1/4] [3/25] [1/8] [1/16] [] [] []).sr)) :=
  ⟨(initEPSParam_slopes false 0 data0 false (1/10) (1/5) (9/10) (3/20) (-1) (4/5) 1 0
      [3/25] [1/4] [17/20] [] [] [] [] [] (Or.inl (List.cons_ne_nil _ _))).2 rfl,
   (initEPSParam_slopes true 0 data0 true 0 (1/5) (1/10) (3/20) (1/20) (4/5) 1 0
      [] [1/4] [3/25] [1/8] [1/16] [] [] [] (Or.inl (List.cons_ne_nil _ _))).1 rfl⟩

/-! ### Algebraic relations between the slopes -/

/-- C4: round trip in two-point mode.  When a scaling array is supplied (so that
lines 812-815 store `sr`), `s_max ≠ scr_tab` and `smax ≠ scr`, the stored `sr` is the
exact inverse image of the table secondary critical saturation `s_r` under the linear
map of the transform: `scr_tab + slope1 * (sr - scr) = s_r`. -/
theorem initEPSParam_two_point_sr_round_trip
    (hsup : scr ≠ [] ∨ su ≠ [] ∨ s0 ≠ [])
    (htab : tab_s_max oil su_tab s0_tab ≠ scr_tab)
    (hscaled : (initEPSParam false cell data oil sl_tab scr_tab su_tab sxcr_tab s0_tab krsr_tab krmax_tab
        pcmax_tab sl scr su sxcr s0 krsr krmax pcmax).smax ≠
      (initEPSParam false cell data oil sl_tab scr_tab su_tab sxcr_tab s0_tab krsr_tab krmax_tab
        pcmax_tab sl scr su sxcr s0 krsr krmax pcmax).scr) :
    scr_tab +
      (initEPSParam false cell data oil sl_tab scr_tab su_tab sxcr_tab s0_tab krsr_tab krmax_tab
        pcmax_tab sl scr su sxcr s0 krsr krmax pcmax).slope1 *
        ((initEPSParam false cell data oil sl_tab scr_tab su_tab sxcr_tab s0_tab krsr_tab krmax_tab
        pcmax_tab sl scr su sxcr s0 krsr krmax pcmax).sr -
          (initEPSParam false cell data oil sl_tab scr_tab su_tab sxcr_tab s0_tab krsr_tab krmax_tab
        pcmax_tab sl scr su sxcr s0 krsr krmax pcmax).scr)
      = tab_s_r sxcr_tab s0_tab := by
  have hsup2 : scr ≠ [] ∨ su ≠ [] ∨ s0 ≠ [] ∨ (false = true ∧ sxcr ≠ []) := by
    rcases hsup with h | h | h
    · exact Or.inl h
    · exact Or.inr (Or.inl h)
    · exact Or.inr (Or.inr (Or.inl h))
  have h := (noSatScaling_eq_false_iff false scr su sxcr s0).mpr hsup2
  obtain ⟨-, -, e3, e4, e5, e6, -⟩ := initEPSParam_sat_fields false cell data oil sl_tab scr_tab
    su_tab sxcr_tab s0_tab krsr_tab krmax_tab pcmax_tab sl scr su sxcr s0 krsr krmax pcmax
  obtain ⟨-, -, -, -, f5, f6, -⟩ := initEPSParam_sat_scaled false cell data oil sl_tab
    scr_tab su_tab sxcr_tab s0_tab sl scr su sxcr s0 h
  rw [e3, e5] at hscaled
  rw [e3, e4, e6, f6, f5]
  simp only [Bool.false_eq_true, if_false]
  have h1 : tab_s_max oil su_tab s0_tab - scr_tab ≠ 0 := sub_ne_zero.mpr htab
  have h2 : (initEPSParam_sat false cell data oil sl_tab scr_tab su_tab sxcr_tab s0_tab
      sl scr su sxcr s0).smax - (initEPSParam_sat false cell data oil sl_tab scr_tab su_tab
      sxcr_tab s0_tab sl scr su sxcr s0).scr ≠ 0 := sub_ne_zero.mpr hscaled
  field_simp
  ring

/-- The statement of C4 at a two-phase water curve with the `sl`, `scr` and `su` arrays
supplied: table range `[1/5, 9/10]`, scaled range `[1/4, 17/20]`. -/
theorem initEPSParam_two_point_sr_round_trip_witness :
    (1/5 : ℚ) +
      (initEPSParam false 0 data0 false (1/10) (1/5) (9/10) (3/20) (-1) (4/5) 1 0
        [3/25] [1/4] [17/20] [] [] [] [] []).slope1 *
        ((initEPSParam false 0 data0 false (1/10) (1/5) (9/10) (3/20) (-1) (4/5) 1 0
        [3/25] [1/4] [17/20] [] [] [] [] []).sr -
          (initEPSParam false 0 data0 false (1/10) (1/5) (9/10) (3/20) (-1) (4/5) 1 0
        [3/25] [1/4] [17/20] [] [] [] [] []).scr)
      = tab_s_r (3/20) (-1) :=
  initEPSParam_two_point_sr_round_trip 0 data0 false (1/10) (1/5) (9/10) (3/20) (-1) (4/5) 1 0
    [3/25] [1/4] [17/20] [] [] [] [] [] (Or.inl (List.cons_ne_nil _ _))
    (by norm_num [tab_s_max])
    (by norm_num [initEPSParam, initEPSParam_sat, initEPSParam_kr, initEPSParam_pc,
      noSatScaling, vecAt, data0])

/-- C5, as stated, fails: a two-phase water curve in three-point mode with
`scr_tab = 1/4`, `sxcr_tab = 3/4` (so `s_r = scr_tab`), `su_tab = 7/8`, `scr = [3/8]`,
`sxcr = [5/8]` (so `sr = scr = 3/8`).  Numerator and denominator of `slope1` are both
zero (a NaN in the source, `0` in `ℚ`), `slope2 = 5/4`, and the two slopes differ. -/
theorem initEPSParam_three_point_coincident_slopes_differ :
    (initEPSParam true 0 data0 false (1/8) (1/4) (7/8) (3/4) (-1) (3/4) 1 0
        [] [3/8] [] [5/8] [] [] [] []).sr =
      (initEPSParam true 0 data0 false (1/8) (1/4) (7/8) (3/4) (-1) (3/4) 1 0
        [] [3/8] [] [5/8] [] [] [] []).scr ∧
    tab_s_r (3/4) (-1) = 1/4 ∧
    (initEPSParam true 0 data0 false (1/8) (1/4) (7/8) (3/4) (-1) (3/4) 1 0
        [] [3/8] [] [5/8] [] [] [] []).slope2 = 5/4 ∧
    (initEPSParam true 0 data0 false (1/8) (1/4) (7/8) (3/4) (-1) (3/4) 1 0
        [] [3/8] [] [5/8] [] [] [] []).slope1 ≠
      (initEPSParam true 0 data0 false (1/8) (1/4) (7/8) (3/4) (-1) (3/4) 1 0
        [] [3/8] [] [5/8] [] [] [] []).slope2 := by
  norm_num [initEPSParam, initEPSParam_sat, initEPSParam_kr, initEPSParam_pc,
    noSatScaling, vecAt, data0, tab_s_r]

/-- C5, amended: in three-point mode with a scaling array supplied, when `sr = scr` and
`s_r = scr_tab`, `slope2` is the two-point slope `(s_max - scr_tab)/(smax - scr)`, which
is the value two-point mode gives to `slope1` and `slope2` on the same input whenever
one of `scr`, `su`, `s0` is supplied; `slope1` is the quotient
`(s_r - scr_tab)/(sr - scr)`, whose numerator and denominator are both zero. -/
theorem initEPSParam_three_point_coincident_slope2
    (hsup : scr ≠ [] ∨ su ≠ [] ∨ s0 ≠ [] ∨ sxcr ≠ [])
    (hsr : (initEPSParam true cell data oil sl_tab scr_tab su_tab sxcr_tab s0_tab krsr_tab krmax_tab
        pcmax_tab sl scr su sxcr s0 krsr krmax pcmax).sr =
      (initEPSParam true cell data oil sl_tab scr_tab su_tab sxcr_tab s0_tab krsr_tab krmax_tab
        pcmax_tab sl scr su sxcr s0 krsr krmax pcmax).scr)
    (htab : tab_s_r sxcr_tab s0_tab = scr_tab) :
    (initEPSParam true cell data oil sl_tab scr_tab su_tab sxcr_tab s0_tab krsr_tab krmax_tab
        pcmax_tab sl scr su sxcr s0 krsr krmax pcmax).slope2 =
      (tab_s_max oil su_tab s0_tab - scr_tab) /
        ((initEPSParam true cell data oil sl_tab scr_tab su_tab sxcr_tab s0_tab krsr_tab krmax_tab
        pcmax_tab sl scr su sxcr s0 krsr krmax pcmax).smax -
          (initEPSParam true cell data oil sl_tab scr_tab su_tab sxcr_tab s0_tab krsr_tab krmax_tab
        pcmax_tab sl scr su sxcr s0 krsr krmax pcmax).scr) ∧
    (scr ≠ [] ∨ su ≠ [] ∨ s0 ≠ [] →
      (initEPSParam true cell data oil sl_tab scr_tab su_tab sxcr_tab s0_tab krsr_tab krmax_tab
        pcmax_tab sl scr su sxcr s0 krsr krmax pcmax).slope2 =
        (initEPSParam false cell data oil sl_tab scr_tab su_tab sxcr_tab s0_tab krsr_tab krmax_tab
        pcmax_tab sl scr su sxcr s0 krsr krmax pcmax).slope1 ∧
      (initEPSParam true cell data oil sl_tab scr_tab su_tab sxcr_tab s0_tab krsr_tab krmax_tab
        pcmax_tab sl scr su sxcr s0 krsr krmax pcmax).slope2 =
        (initEPSParam false cell data oil sl_tab scr_tab su_tab sxcr_tab s0_tab krsr_tab krmax_tab
        pcmax_tab sl scr su sxcr s0 krsr krmax pcmax).slope2) ∧
    (initEPSParam true cell data oil sl_tab scr_tab su_tab sxcr_tab s0_tab krsr_tab krmax_tab
        pcmax_tab sl scr su sxcr s0 krsr krmax pcmax).slope1 =
      (tab_s_r sxcr_tab s0_tab - scr_tab) /
        ((initEPSParam true cell data oil sl_tab scr_tab su_tab sxcr_tab s0_tab krsr_tab krmax_tab
        pcmax_tab sl scr su sxcr s0 krsr krmax pcmax).sr -
          (initEPSParam true cell data oil sl_tab scr_tab su_tab sxcr_tab s0_tab krsr_tab krmax_tab
        pcmax_tab sl scr su sxcr s0 krsr krmax pcmax).scr) ∧
    tab_s_r sxcr_tab s0_tab - scr_tab = 0 ∧
    (initEPSParam true cell data oil sl_tab scr_tab su_tab sxcr_tab s0_tab krsr_tab krmax_tab
        pcmax_tab sl scr su sxcr s0 krsr krmax pcmax).sr -
      (initEPSParam true cell data oil sl_tab scr_tab su_tab sxcr_tab s0_tab krsr_tab krmax_tab
        pcmax_tab sl scr su sxcr s0 krsr krmax pcmax).scr = 0 := by
  have hsup3 : scr ≠ [] ∨ su ≠ [] ∨ s0 ≠ [] ∨ (true = true ∧ sxcr ≠ []) := by
    rcases hsup with h | h | h | h
    · exact Or.inl h
    · exact Or.inr (Or.inl h)
    · exact Or.inr (Or.inr (Or.inl h))
    · exact Or.inr (Or.inr (Or.inr ⟨rfl, h⟩))
  have h := (noSatScaling_eq_false_iff true scr su sxcr s0).mpr hsup3
  obtain ⟨-, -, e3, e4, e5, e6, e7⟩ := initEPSParam_sat_fields true cell data oil sl_tab scr_tab
    su_tab sxcr_tab s0_tab krsr_tab krmax_tab pcmax_tab sl scr su sxcr s0 krsr krmax pcmax
  obtain ⟨-, f2, -, f4, -, f6, f7⟩ := initEPSParam_sat_scaled true cell data oil sl_tab
    scr_tab su_tab sxcr_tab s0_tab sl scr su sxcr s0 h
  have hs2 : (initEPSParam true cell data oil sl_tab scr_tab su_tab sxcr_tab s0_tab krsr_tab krmax_tab
        pcmax_tab sl scr su sxcr s0 krsr krmax pcmax).slope2 =
      (tab_s_max oil su_tab s0_tab - scr_tab) /
        ((initEPSParam true cell data oil sl_tab scr_tab su_tab sxcr_tab s0_tab krsr_tab krmax_tab
        pcmax_tab sl scr su sxcr s0 krsr krmax pcmax).smax -
          (initEPSParam true cell data oil sl_tab scr_tab su_tab sxcr_tab s0_tab krsr_tab krmax_tab
        pcmax_tab sl scr su sxcr s0 krsr krmax pcmax).scr) := by
    rw [← hsr, e7, f7, e5, e4, htab]
    simp
  refine ⟨hs2, ?_, ?_, ?_, ?_⟩
  · intro hsup0
    have hsup2 : scr ≠ [] ∨ su ≠ [] ∨ s0 ≠ [] ∨ (false = true ∧ sxcr ≠ []) := by
      rcases hsup0 with h | h | h
      · exact Or.inl h
      · exact Or.inr (Or.inl h)
      · exact Or.inr (Or.inr (Or.inl h))
    have h' := (noSatScaling_eq_false_iff false scr su sxcr s0).mpr hsup2
    obtain ⟨-, -, d3, -, d5, d6, d7⟩ := initEPSParam_sat_fields false cell data oil sl_tab
      scr_tab su_tab sxcr_tab s0_tab krsr_tab krmax_tab pcmax_tab sl scr su sxcr s0 krsr krmax
      pcmax
    obtain ⟨-, g2, -, g4, -, g6, g7⟩ := initEPSParam_sat_scaled false cell data oil sl_tab
      scr_tab su_tab sxcr_tab s0_tab sl scr su sxcr s0 h'
    rw [hs2, d6, d7, g6, g7, e5, e3, f2, f4, g2, g4]
    simp
  · rw [e6, f6, e4, e3]
    simp
  · rw [htab]; ring
  · rw [hsr]; ring

/-- The amended statement of C5 at the input of the counterexample: `slope2 = 5/4` is
the slope two-point mode computes there. -/
theorem initEPSParam_three_point_coincident_slope2_witness :
    (initEPSParam true 0 data0 false (1/8) (1/4) (7/8) (3/4) (-1) (3/4) 1 0
        [] [3/8] [] [5/8] [] [] [] []).slope2 =
      (tab_s_max false (7/8) (-1) - 1/4) /
        ((initEPSParam true 0 data0 false (1/8) (1/4) (7/8) (3/4) (-1) (3/4) 1 0
        [] [3/8] [] [5/8] [] [] [] []).smax -
          (initEPSParam true 0 data0 false (1/8) (1/4) (7/8) (3/4) (-1) (3/4) 1 0
        [] [3/8] [] [5/8] [] [] [] []).scr) ∧
    (initEPSParam true 0 data0 false (1/8) (1/4) (7/8) (3/4) (-1) (3/4) 1 0
        [] [3/8] [] [5/8] [] [] [] []).slope2 =
      (initEPSParam false 0 data0 false (1/8) (1/4) (7/8) (3/4) (-1) (3/4) 1 0
        [] [3/8] [] [5/8] [] [] [] []).slope1 ∧
    (initEPSParam true 0 data0 false (1/8) (1/4) (7/8) (3/4) (-1) (3/4) 1 0
        [] [3/8] [] [5/8] [] [] [] []).slope2 =
      (initEPSParam false 0 data0 false (1/8) (1/4) (7/8) (3/4) (-1) (3/4) 1 0
        [] [3/8] [] [5/8] [] [] [] []).slope2 :=
  have h := initEPSParam_three_point_coincident_slope2 0 data0 false (1/8) (1/4) (7/8) (3/4)
    (-1) (3/4) 1 0 [] [3/8] [] [5/8] [] [] [] [] (Or.inl (List.cons_ne_nil _ _))
    (by norm_num [initEPSParam, initEPSParam_sat, initEPSParam_kr, initEPSParam_pc,
      noSatScaling, vecAt, data0])
    (by norm_num [tab_s_r])
  ⟨h.1, (h.2.1 (Or.inl (List.cons_ne_nil _ _))).1, (h.2.1 (Or.inl (List.cons_ne_nil _ _))).2⟩

/-- C6: for physically valid input (table endpoints `scr_tab ≤ s_r ≤ s_max` and scaled
endpoints `scr < sr < smax` in three-point mode; `scr_tab ≤ s_max` and `scr < smax` in
two-point mode) the slopes `initEPSParam` computes in the scaled case satisfy
`slope1 ≥ 0` and `slope2 ≥ 0`, and the piecewise-linear saturation remap defined by the
transform is non-decreasing. -/
theorem initEPSParam_slopes_nonneg
    (hsup : scr ≠ [] ∨ su ≠ [] ∨ s0 ≠ [] ∨ (do_3pt_ = true ∧ sxcr ≠ []))
    (hvalid :
      (do_3pt_ = true ∧
        scr_tab ≤ tab_s_r sxcr_tab s0_tab ∧
        tab_s_r sxcr_tab s0_tab ≤ tab_s_max oil su_tab s0_tab ∧
        (initEPSParam do_3pt_ cell data oil sl_tab scr_tab su_tab sxcr_tab s0_tab krsr_tab krmax_tab
        pcmax_tab sl scr su sxcr s0 krsr krmax pcmax).scr <
          (initEPSParam do_3pt_ cell data oil sl_tab scr_tab su_tab sxcr_tab s0_tab krsr_tab krmax_tab
        pcmax_tab sl scr su sxcr s0 krsr krmax pcmax).sr ∧
        (initEPSParam do_3pt_ cell data oil sl_tab scr_tab su_tab sxcr_tab s0_tab krsr_tab krmax_tab
        pcmax_tab sl scr su sxcr s0 krsr krmax pcmax).sr <
          (initEPSParam do_3pt_ cell data oil sl_tab scr_tab su_tab sxcr_tab s0_tab krsr_tab krmax_tab
        pcmax_tab sl scr su sxcr s0 krsr krmax pcmax).smax) ∨
      (do_3pt_ = false ∧
        scr_tab ≤ tab_s_max oil su_tab s0_tab ∧
        (initEPSParam do_3pt_ cell data oil sl_tab scr_tab su_tab sxcr_tab s0_tab krsr_tab krmax_tab
        pcmax_tab sl scr su sxcr s0 krsr krmax pcmax).scr <
          (initEPSParam do_3pt_ cell data oil sl_tab scr_tab su_tab sxcr_tab s0_tab krsr_tab krmax_tab
        pcmax_tab sl scr su sxcr s0 krsr krmax pcmax).smax)) :
    0 ≤ (initEPSParam do_3pt_ cell data oil sl_tab scr_tab su_tab sxcr_tab s0_tab krsr_tab krmax_tab
        pcmax_tab sl scr su sxcr s0 krsr krmax pcmax).slope1 ∧
    0 ≤ (initEPSParam do_3pt_ cell data oil sl_tab scr_tab su_tab sxcr_tab s0_tab krsr_tab krmax_tab
        pcmax_tab sl scr su sxcr s0 krsr krmax pcmax).slope2 ∧
    Monotone (remapSat
      (initEPSParam do_3pt_ cell data oil sl_tab scr_tab su_tab sxcr_tab s0_tab krsr_tab krmax_tab
        pcmax_tab sl scr su sxcr s0 krsr krmax pcmax)
      scr_tab (tab_s_r sxcr_tab s0_tab)) := by
  have h := (noSatScaling_eq_false_iff do_3pt_ scr su sxcr s0).mpr hsup
  have hmode := initEPSParam_do_3pt_scaled do_3pt_ cell data oil sl_tab scr_tab
    su_tab sxcr_tab s0_tab krsr_tab krmax_tab pcmax_tab sl scr su sxcr s0 krsr krmax pcmax h
  obtain ⟨-, -, e3, e4, e5, e6, e7⟩ := initEPSParam_sat_fields do_3pt_ cell data oil sl_tab
    scr_tab su_tab sxcr_tab s0_tab krsr_tab krmax_tab pcmax_tab sl scr su sxcr s0 krsr krmax pcmax
  obtain ⟨-, -, -, -, -, f6, f7⟩ := initEPSParam_sat_scaled do_3pt_ cell data oil sl_tab
    scr_tab su_tab sxcr_tab s0_tab sl scr su sxcr s0 h
  rw [← e3, ← e4, ← e5, ← e6] at f6
  rw [← e3, ← e4, ← e5, ← e7] at f7
  rcases hvalid with ⟨h3, ht1, ht2, hs1, hs2⟩ | ⟨h3, ht, hs⟩
  · subst h3
    simp only [if_true] at f6 f7
    have hd1 := sub_pos.mpr hs1
    have hd2 := sub_pos.mpr hs2
    have p1 := div_nonneg (sub_nonneg.mpr ht1) hd1.le
    have p2 := div_nonneg (sub_nonneg.mpr ht2) hd2.le
    rw [← f6] at p1
    rw [← f7] at p2
    refine ⟨p1, p2, remapSat_monotone _ _ _ p1 p2 (fun _ => ?_)⟩
    rw [f6, div_mul_cancel₀ _ hd1.ne']
    linarith
  · subst h3
    simp only [Bool.false_eq_true, if_false] at f6 f7
    have hd := sub_pos.mpr hs
    have p1 := div_nonneg (sub_nonneg.mpr ht) hd.le
    have p2 := p1
    rw [← f6] at p1
    rw [← f7] at p2
    refine ⟨p1, p2, remapSat_monotone _ _ _ p1 p2 (fun h3 => ?_)⟩
    rw [hmode] at h3
    exact absurd h3 (by decide)

/-- The statement of C6 at a three-phase oil curve in three-point mode and at a two-phase
water curve in two-point mode. -/
theorem initEPSParam_slopes_nonneg_witness :
    (0 ≤ (initEPSParam true 0 data0 true 0 (1/5) (1/10) (3/20) (1/20) (4/5) 1 0
        [] [1/4] [3/25] [1/8] [1/16] [] [] []).slope1 ∧
     0 ≤ (initEPSParam true 0 data0 true 0 (1/5) (1/10) (3/20) (1/20) (4/5) 1 0
        [] [1/4] [3/25] [1/8] [1/16] [] [] []).slope2 ∧
     Monotone (remapSat
      (initEPSParam true 0 data0 true 0 (1/5) (1/10) (3/20) (1/20) (4/5) 1 0
        [] [1/4] [3/25] [1/8] [1/16] [] [] [])
      (1/5) (tab_s_r (3/20) (1/20)))) ∧
    (0 ≤ (initEPSParam false 0 data0 false (1/10) (1/5) (9/10) (3/20) (-1) (4/5) 1 0
        [3/25] [1/4] [17/20] [] [] [] [] []).slope1 ∧
     0 ≤ (initEPSParam false 0 data0 false (1/10) (1/5) (9/10) (3/20) (-1) (4/5) 1 0
        [3/25] [1/4] [17/20] [] [] [] [] []).slope2 ∧
     Monotone (remapSat
      (initEPSParam false 0 data0 false (1/10) (1/5) (9/10) (3/20) (-1) (4/5) 1 0
        [3/25] [1/4] [17/20] [] [] [] [] [])
      (1/5) (tab_s_r (3/20) (-1)))) :=
  ⟨initEPSParam_slopes_nonneg true 0 data0 true 0 (1/5) (1/10) (3/20) (1/20) (4/5) 1 0
      [] [1/4] [3/25] [1/8] [1/16] [] [] [] (Or.inl (List.cons_ne_nil _ _))
      (Or.inl (by norm_num [initEPSParam, initEPSParam_sat, initEPSParam_kr, initEPSParam_pc,
        noSatScaling, vecAt, data0, tab_s_r, tab_s_max])),
   initEPSParam_slopes_nonneg false 0 data0 false (1/10) (1/5) (9/10) (3/20) (-1) (4/5) 1 0
      [3/25] [1/4] [17/20] [] [] [] [] [] (Or.inl (List.cons_ne_nil _ _))
      (Or.inr (by norm_num [initEPSParam, initEPSParam_sat, initEPSParam_kr, initEPSParam_pc,
        noSatScaling, vecAt, data0, tab_s_r, tab_s_max]))⟩

/-! ### Capillary pressure factor and relperm endpoint values -/

/-- C7: `pcFactor = pcmax[cell]/pcmax_tab` when `|pcmax_tab| ≥ 1e-8`, the `pcmax` array
is supplied and `pcmax_tab * pcmax[cell] ≥ 0`; in every other case `initEPSParam` sets
`pcFactor = 1`.  In particular `pcmax_tab = 0` yields `pcFactor = 1` for every override
value. -/
theorem initEPSParam_pcFactor :
    (initEPSParam do_3pt_ cell data oil sl_tab scr_tab su_tab sxcr_tab s0_tab krsr_tab krmax_tab
        pcmax_tab sl scr su sxcr s0 krsr krmax pcmax).pcFactor =
      (if 1 / 100000000 ≤ |pcmax_tab| ∧ pcmax ≠ [] ∧ 0 ≤ pcmax_tab * vecAt pcmax cell
        then vecAt pcmax cell / pcmax_tab else 1) ∧
    (initEPSParam do_3pt_ cell data oil sl_tab scr_tab su_tab sxcr_tab s0_tab krsr_tab krmax_tab
        0 sl scr su sxcr s0 krsr krmax pcmax).pcFactor = 1 := by
  constructor
  · rw [initEPSParam_pcFactor_closed]
    by_cases hc : 1 / 100000000 ≤ |pcmax_tab| ∧ pcmax ≠ [] ∧ 0 ≤ pcmax_tab * vecAt pcmax cell
    · have hn : ¬ (|pcmax_tab| < 1 / 100000000 ∨ pcmax.isEmpty = true ∨
          pcmax_tab * vecAt pcmax cell < 0) := by
        rintro (h | h | h)
        · exact absurd hc.1 (not_le.mpr h)
        · exact hc.2.1 (List.isEmpty_iff.mp h)
        · exact absurd hc.2.2 (not_le.mpr h)
      rw [if_neg hn, if_pos hc]
    · have hp : |pcmax_tab| < 1 / 100000000 ∨ pcmax.isEmpty = true ∨
          pcmax_tab * vecAt pcmax cell < 0 := by
        by_contra hcon
        push_neg at hcon
        exact hc ⟨hcon.1, fun h => hcon.2.1 (List.isEmpty_iff.mpr h), hcon.2.2⟩
      rw [if_pos hp, if_neg hc]
  · rw [initEPSParam_pcFactor_closed]
    rw [if_pos (Or.inl (by norm_num))]

/-- C8: `initEPSParam` sets `krsr` and `krmax` to the supplied per-cell values when their
arrays are present and to `krsr_tab` / `krmax_tab` otherwise, sets
`doKrMax = (krmax array present)`, sets `krSlopeCrit = krsr/krsr_tab` in every case, and
sets `krSlopeMax = krmax/krmax_tab` whenever `doKrCrit` ends false; hence with no
relperm-value arrays supplied and nonzero table values both slopes equal 1. -/
theorem initEPSParam_relperm_endpoints :
    (initEPSParam do_3pt_ cell data oil sl_tab scr_tab su_tab sxcr_tab s0_tab krsr_tab krmax_tab
        pcmax_tab sl scr su sxcr s0 krsr krmax pcmax).krsr = orTab krsr cell krsr_tab ∧
    (initEPSParam do_3pt_ cell data oil sl_tab scr_tab su_tab sxcr_tab s0_tab krsr_tab krmax_tab
        pcmax_tab sl scr su sxcr s0 krsr krmax pcmax).krmax = orTab krmax cell krmax_tab ∧
    (initEPSParam do_3pt_ cell data oil sl_tab scr_tab su_tab sxcr_tab s0_tab krsr_tab krmax_tab
        pcmax_tab sl scr su sxcr s0 krsr krmax pcmax).doKrMax = !krmax.isEmpty ∧
    (initEPSParam do_3pt_ cell data oil sl_tab scr_tab su_tab sxcr_tab s0_tab krsr_tab krmax_tab
        pcmax_tab sl scr su sxcr s0 krsr krmax pcmax).krSlopeCrit =
      (initEPSParam do_3pt_ cell data oil sl_tab scr_tab su_tab sxcr_tab s0_tab krsr_tab krmax_tab
        pcmax_tab sl scr su sxcr s0 krsr krmax pcmax).krsr / krsr_tab ∧
    ((initEPSParam do_3pt_ cell data oil sl_tab scr_tab su_tab sxcr_tab s0_tab krsr_tab krmax_tab
        pcmax_tab sl scr su sxcr s0 krsr krmax pcmax).doKrCrit = false →
      (initEPSParam do_3pt_ cell data oil sl_tab scr_tab su_tab sxcr_tab s0_tab krsr_tab krmax_tab
        pcmax_tab sl scr su sxcr s0 krsr krmax pcmax).krSlopeMax =
        (initEPSParam do_3pt_ cell data oil sl_tab scr_tab su_tab sxcr_tab s0_tab krsr_tab krmax_tab
        pcmax_tab sl scr su sxcr s0 krsr krmax pcmax).krmax / krmax_tab) ∧
    (krsr = [] → krmax = [] → krsr_tab ≠ 0 → krmax_tab ≠ 0 →
      (initEPSParam do_3pt_ cell data oil sl_tab scr_tab su_tab sxcr_tab s0_tab krsr_tab krmax_tab
        pcmax_tab sl scr su sxcr s0 krsr krmax pcmax).krSlopeCrit = 1 ∧
      (initEPSParam do_3pt_ cell data oil sl_tab scr_tab su_tab sxcr_tab s0_tab krsr_tab krmax_tab
        pcmax_tab sl scr su sxcr s0 krsr krmax pcmax).krSlopeMax = 1) := by
  obtain ⟨k1, k2, k3, k4, k5, -, k7⟩ := initEPSParam_kr_closed do_3pt_ cell data oil sl_tab
    scr_tab su_tab sxcr_tab s0_tab krsr_tab krmax_tab pcmax_tab sl scr su sxcr s0 krsr krmax pcmax
  refine ⟨k2, k3, k1, by rw [k4, k2], ?_, ?_⟩
  · intro hc
    rw [k5] at hc
    rw [k7, k3, if_neg]
    rintro ⟨hk, hs⟩
    rw [hk, decide_eq_true hs] at hc
    exact absurd hc (by decide)
  · intro hk hm h1 h2
    rw [k4, k7, if_neg (by simp [hk])]
    subst hk hm
    simp [orTab, h1, h2]

/-- The statement of C8 at a two-phase water curve with no relperm-value array supplied
and table values `krsr_tab = 4/5`, `krmax_tab = 1`. -/
theorem initEPSParam_relperm_endpoints_witness :
    (initEPSParam false 0 data0 false (1/10) (1/5) (9/10) (3/20) (-1) (4/5) 1 0
        [3/25] [1/4] [17/20] [] [] [] [] []).krSlopeCrit = 1 ∧
    (initEPSParam false 0 data0 false (1/10) (1/5) (9/10) (3/20) (-1) (4/5) 1 0
        [3/25] [1/4] [17/20] [] [] [] [] []).krSlopeMax = 1 :=
  (initEPSParam_relperm_endpoints false 0 data0 false (1/10) (1/5) (9/10) (3/20) (-1) (4/5) 1 0
    [3/25] [1/4] [17/20] [] [] [] [] []).2.2.2.2.2 rfl rfl (by norm_num) (by norm_num)

/-- C9: after `initEPSParam`, `doKrCrit` is true if and only if the `krsr` array is
supplied and `sr ≤ smax - 1e-6`; when the override is supplied but `sr > smax - 1e-6` the
override is disabled: `doKrCrit = false`, `doSatInterp = false` and `krSlopeMax` keeps the
two-endpoint value `krmax/krmax_tab`. -/
theorem initEPSParam_doKrCrit :
    ((initEPSParam do_3pt_ cell data oil sl_tab scr_tab su_tab sxcr_tab s0_tab krsr_tab krmax_tab
        pcmax_tab sl scr su sxcr s0 krsr krmax pcmax).doKrCrit = true ↔
      krsr ≠ [] ∧
      (initEPSParam do_3pt_ cell data oil sl_tab scr_tab su_tab sxcr_tab s0_tab krsr_tab krmax_tab
        pcmax_tab sl scr su sxcr s0 krsr krmax pcmax).sr ≤
        (initEPSParam do_3pt_ cell data oil sl_tab scr_tab su_tab sxcr_tab s0_tab krsr_tab krmax_tab
        pcmax_tab sl scr su sxcr s0 krsr krmax pcmax).smax - 1 / 1000000) ∧
    (krsr ≠ [] →
      (initEPSParam do_3pt_ cell data oil sl_tab scr_tab su_tab sxcr_tab s0_tab krsr_tab krmax_tab
        pcmax_tab sl scr su sxcr s0 krsr krmax pcmax).smax - 1 / 1000000 <
        (initEPSParam do_3pt_ cell data oil sl_tab scr_tab su_tab sxcr_tab s0_tab krsr_tab krmax_tab
        pcmax_tab sl scr su sxcr s0 krsr krmax pcmax).sr →
      (initEPSParam do_3pt_ cell data oil sl_tab scr_tab su_tab sxcr_tab s0_tab krsr_tab krmax_tab
        pcmax_tab sl scr su sxcr s0 krsr krmax pcmax).doKrCrit = false ∧
      (initEPSParam do_3pt_ cell data oil sl_tab scr_tab su_tab sxcr_tab s0_tab krsr_tab krmax_tab
        pcmax_tab sl scr su sxcr s0 krsr krmax pcmax).doSatInterp = false ∧
      (initEPSParam do_3pt_ cell data oil sl_tab scr_tab su_tab sxcr_tab s0_tab krsr_tab krmax_tab
        pcmax_tab sl scr su sxcr s0 krsr krmax pcmax).krSlopeMax =
        (initEPSParam do_3pt_ cell data oil sl_tab scr_tab su_tab sxcr_tab s0_tab krsr_tab krmax_tab
        pcmax_tab sl scr su sxcr s0 krsr krmax pcmax).krmax / krmax_tab) := by
  obtain ⟨-, -, k3, -, k5, k6, k7⟩ := initEPSParam_kr_closed do_3pt_ cell data oil sl_tab
    scr_tab su_tab sxcr_tab s0_tab krsr_tab krmax_tab pcmax_tab sl scr su sxcr s0 krsr krmax pcmax
  constructor
  · rw [k5, Bool.and_eq_true, decide_eq_true_iff]
    cases krsr <;> simp
  · intro hk hs
    have hs2 := not_le.mpr hs
    rw [k5, k6, k7, k3, if_neg (fun h => hs2 h.2), decide_eq_false hs2]
    simp

/-- The statement of C9 at a two-phase water curve in three-point mode where the `krsr`
array is supplied and `sr = smax = 9/10`. -/
theorem initEPSParam_doKrCrit_witness :
    (initEPSParam true 0 data0 false (1/10) (1/5) (9/10) (3/20) (-1) (4/5) 1 0
        [] [1/4] [9/10] [1/10] [] [7/10] [19/20] []).doKrCrit = false ∧
    (initEPSParam true 0 data0 false (1/10) (1/5) (9/10) (3/20) (-1) (4/5) 1 0
        [] [1/4] [9/10] [1/10] [] [7/10] [19/20] []).doSatInterp = false ∧
    (initEPSParam true 0 data0 false (1/10) (1/5) (9/10) (3/20) (-1) (4/5) 1 0
        [] [1/4] [9/10] [1/10] [] [7/10] [19/20] []).krSlopeMax =
      (initEPSParam true 0 data0 false (1/10) (1/5) (9/10) (3/20) (-1) (4/5) 1 0
        [] [1/4] [9/10] [1/10] [] [7/10] [19/20] []).krmax / 1 :=
  (initEPSParam_doKrCrit true 0 data0 false (1/10) (1/5) (9/10) (3/20) (-1) (4/5) 1 0
    [] [1/4] [9/10] [1/10] [] [7/10] [19/20] []).2 (List.cons_ne_nil _ _)
    (by norm_num [initEPSParam, initEPSParam_sat, initEPSParam_kr, initEPSParam_pc,
      noSatScaling, vecAt, data0])

/-- C10: when the critical-saturation relperm override stays active (`krsr` supplied and
`sr ≤ smax - 1e-6`): if `|krmax_tab - krsr_tab| > 1e-6` then `doSatInterp = false` and
`krSlopeMax = (krmax - krsr)/(krmax_tab - krsr_tab)`; otherwise `doSatInterp = true` and
`krSlopeMax = (krmax - krsr)/(smax - sr)`.  `doSatInterp` is true in no other case. -/
theorem initEPSParam_doKrCrit_active :
    (krsr ≠ [] →
      (initEPSParam do_3pt_ cell data oil sl_tab scr_tab su_tab sxcr_tab s0_tab krsr_tab krmax_tab
        pcmax_tab sl scr su sxcr s0 krsr krmax pcmax).sr ≤
        (initEPSParam do_3pt_ cell data oil sl_tab scr_tab su_tab sxcr_tab s0_tab krsr_tab krmax_tab
        pcmax_tab sl scr su sxcr s0 krsr krmax pcmax).smax - 1 / 1000000 →
      (1 / 1000000 < |krmax_tab - krsr_tab| →
        (initEPSParam do_3pt_ cell data oil sl_tab scr_tab su_tab sxcr_tab s0_tab krsr_tab krmax_tab
        pcmax_tab sl scr su sxcr s0 krsr krmax pcmax).doSatInterp = false ∧
        (initEPSParam do_3pt_ cell data oil sl_tab scr_tab su_tab sxcr_tab s0_tab krsr_tab krmax_tab
        pcmax_tab sl scr su sxcr s0 krsr krmax pcmax).krSlopeMax =
          ((initEPSParam do_3pt_ cell data oil sl_tab scr_tab su_tab sxcr_tab s0_tab krsr_tab krmax_tab
        pcmax_tab sl scr su sxcr s0 krsr krmax pcmax).krmax -
            (initEPSParam do_3pt_ cell data oil sl_tab scr_tab su_tab sxcr_tab s0_tab krsr_tab krmax_tab
        pcmax_tab sl scr su sxcr s0 krsr krmax pcmax).krsr) / (krmax_tab - krsr_tab)) ∧
      (¬ 1 / 1000000 < |krmax_tab - krsr_tab| →
        (initEPSParam do_3pt_ cell data oil sl_tab scr_tab su_tab sxcr_tab s0_tab krsr_tab krmax_tab
        pcmax_tab sl scr su sxcr s0 krsr krmax pcmax).doSatInterp = true ∧
        (initEPSParam do_3pt_ cell data oil sl_tab scr_tab su_tab sxcr_tab s0_tab krsr_tab krmax_tab
        pcmax_tab sl scr su sxcr s0 krsr krmax pcmax).krSlopeMax =
          ((initEPSParam do_3pt_ cell data oil sl_tab scr_tab su_tab sxcr_tab s0_tab krsr_tab krmax_tab
        pcmax_tab sl scr su sxcr s0 krsr krmax pcmax).krmax -
            (initEPSParam do_3pt_ cell data oil sl_tab scr_tab su_tab sxcr_tab s0_tab krsr_tab krmax_tab
        pcmax_tab sl scr su sxcr s0 krsr krmax pcmax).krsr) /
          ((initEPSParam do_3pt_ cell data oil sl_tab scr_tab su_tab sxcr_tab s0_tab krsr_tab krmax_tab
        pcmax_tab sl scr su sxcr s0 krsr krmax pcmax).smax -
            (initEPSParam do_3pt_ cell data oil sl_tab scr_tab su_tab sxcr_tab s0_tab krsr_tab krmax_tab
        pcmax_tab sl scr su sxcr s0 krsr krmax pcmax).sr))) ∧
    ((initEPSParam do_3pt_ cell data oil sl_tab scr_tab su_tab sxcr_tab s0_tab krsr_tab krmax_tab
        pcmax_tab sl scr su sxcr s0 krsr krmax pcmax).doSatInterp = true ↔
      krsr ≠ [] ∧
      (initEPSParam do_3pt_ cell data oil sl_tab scr_tab su_tab sxcr_tab s0_tab krsr_tab krmax_tab
        pcmax_tab sl scr su sxcr s0 krsr krmax pcmax).sr ≤
        (initEPSParam do_3pt_ cell data oil sl_tab scr_tab su_tab sxcr_tab s0_tab krsr_tab krmax_tab
        pcmax_tab sl scr su sxcr s0 krsr krmax pcmax).smax - 1 / 1000000 ∧
      ¬ 1 / 1000000 < |krmax_tab - krsr_tab|) := by
  obtain ⟨-, k2, k3, -, -, k6, k7⟩ := initEPSParam_kr_closed do_3pt_ cell data oil sl_tab
    scr_tab su_tab sxcr_tab s0_tab krsr_tab krmax_tab pcmax_tab sl scr su sxcr s0 krsr krmax pcmax
  constructor
  · intro hk hs
    have hk2 : krsr.isEmpty = false := by cases krsr <;> simp at hk ⊢
    rw [k6, k7, k3, k2, if_pos ⟨hk2, hs⟩]
    constructor
    · intro ht
      rw [if_pos ht, hk2, decide_eq_true hs, decide_eq_false (not_le.mpr ht)]
      exact ⟨rfl, rfl⟩
    · intro ht
      rw [if_neg ht, hk2, decide_eq_true hs, decide_eq_true (not_lt.mp ht)]
      exact ⟨rfl, rfl⟩
  · rw [k6, Bool.and_eq_true, Bool.and_eq_true, decide_eq_true_iff, decide_eq_true_iff,
      not_lt, and_assoc]
    cases krsr <;> simp

/-- The statement of C10 at a two-phase water curve in three-point mode with a flat table
(`krsr_tab = krmax_tab = 1`), `krsr = 7/10`, `krmax = 19/20`, `sr = 4/5` and
`smax = 9/10`: saturation-domain interpolation with `krSlopeMax = 5/2`. -/
theorem initEPSParam_doKrCrit_active_witness :
    (initEPSParam true 0 data0 false (1/10) (1/5) (9/10) (3/20) (-1) 1 1 0
        [] [1/4] [9/10] [1/5] [] [7/10] [19/20] []).doSatInterp = true ∧
    (initEPSParam true 0 data0 false (1/10) (1/5) (9/10) (3/20) (-1) 1 1 0
        [] [1/4] [9/10] [1/5] [] [7/10] [19/20] []).krSlopeMax = 5/2 :=
  have h := ((initEPSParam_doKrCrit_active true 0 data0 false (1/10) (1/5) (9/10) (3/20) (-1)
    1 1 0 [] [1/4] [9/10] [1/5] [] [7/10] [19/20] []).1 (List.cons_ne_nil _ _)
    (by norm_num [initEPSParam, initEPSParam_sat, initEPSParam_kr, initEPSParam_pc,
      noSatScaling, vecAt, data0])).2 (by norm_num)
  ⟨h.1, h.2.trans (by norm_num [initEPSParam, initEPSParam_sat, initEPSParam_kr,
      initEPSParam_pc, noSatScaling, vecAt, data0])⟩

/-! ### The unscaled case and the later blocks -/

/-- C11, as stated, fails: a two-phase water curve with no saturation scaling array and
`krmax = [7/8]`, `pcmax = [2]` (`krsr_tab = 3/4`, `pcmax_tab = 4`).  `initEPSParam` sets
`doNotScale = true` and still assigns `krsr = 3/4`, `krmax = 7/8`, `doKrMax = true` and
`pcFactor = 1/2`, none of which is the value before the call. -/
theorem initEPSParam_unscaled_assigns_relperm_and_pc :
    (initEPSParam false 0 data0 false (1/8) (1/4) (7/8) (3/4) (-1) (3/4) 1 4
        [] [] [] [] [] [] [7/8] [2]).doNotScale = true ∧
    (initEPSParam false 0 data0 false (1/8) (1/4) (7/8) (3/4) (-1) (3/4) 1 4
        [] [] [] [] [] [] [7/8] [2]).krsr = 3/4 ∧
    (initEPSParam false 0 data0 false (1/8) (1/4) (7/8) (3/4) (-1) (3/4) 1 4
        [] [] [] [] [] [] [7/8] [2]).krsr ≠ data0.krsr ∧
    (initEPSParam false 0 data0 false (1/8) (1/4) (7/8) (3/4) (-1) (3/4) 1 4
        [] [] [] [] [] [] [7/8] [2]).krmax ≠ data0.krmax ∧
    (initEPSParam false 0 data0 false (1/8) (1/4) (7/8) (3/4) (-1) (3/4) 1 4
        [] [] [] [] [] [] [7/8] [2]).doKrMax ≠ data0.doKrMax ∧
    (initEPSParam false 0 data0 false (1/8) (1/4) (7/8) (3/4) (-1) (3/4) 1 4
        [] [] [] [] [] [] [7/8] [2]).pcFactor = 1/2 ∧
    (initEPSParam false 0 data0 false (1/8) (1/4) (7/8) (3/4) (-1) (3/4) 1 4
        [] [] [] [] [] [] [7/8] [2]).pcFactor ≠ data0.pcFactor := by
  norm_num [initEPSParam, initEPSParam_sat, initEPSParam_kr, initEPSParam_pc,
    noSatScaling, vecAt, data0]

/-- C11, amended: when `initEPSParam` sets `doNotScale = true`, the saturation scaling
fields `do_3pt`, `sr`, `slope1` and `slope2` keep the value they had before the call,
while the relperm and capillary pressure fields are assigned as in the scaled case:
`doKrMax`, `krsr`, `krmax` and `krSlopeCrit` from the `krsr` and `krmax` arrays and the
table values, `doKrCrit` from the `krsr` array and the unchanged `sr`, and `pcFactor`
from the `pcmax` array by the test of line 837. -/
theorem initEPSParam_unscaled_frame
    (hscr : scr = []) (hsu : su = []) (hs0 : s0 = [])
    (hsxcr : sxcr = [] ∨ do_3pt_ = false) :
    (initEPSParam do_3pt_ cell data oil sl_tab scr_tab su_tab sxcr_tab s0_tab krsr_tab krmax_tab
        pcmax_tab sl scr su sxcr s0 krsr krmax pcmax).doNotScale = true ∧
    (initEPSParam do_3pt_ cell data oil sl_tab scr_tab su_tab sxcr_tab s0_tab krsr_tab krmax_tab
        pcmax_tab sl scr su sxcr s0 krsr krmax pcmax).do_3pt = data.do_3pt ∧
    (initEPSParam do_3pt_ cell data oil sl_tab scr_tab su_tab sxcr_tab s0_tab krsr_tab krmax_tab
        pcmax_tab sl scr su sxcr s0 krsr krmax pcmax).sr = data.sr ∧
    (initEPSParam do_3pt_ cell data oil sl_tab scr_tab su_tab sxcr_tab s0_tab krsr_tab krmax_tab
        pcmax_tab sl scr su sxcr s0 krsr krmax pcmax).slope1 = data.slope1 ∧
    (initEPSParam do_3pt_ cell data oil sl_tab scr_tab su_tab sxcr_tab s0_tab krsr_tab krmax_tab
        pcmax_tab sl scr su sxcr s0 krsr krmax pcmax).slope2 = data.slope2 ∧
    (initEPSParam do_3pt_ cell data oil sl_tab scr_tab su_tab sxcr_tab s0_tab krsr_tab krmax_tab
        pcmax_tab sl scr su sxcr s0 krsr krmax pcmax).doKrMax = !krmax.isEmpty ∧
    (initEPSParam do_3pt_ cell data oil sl_tab scr_tab su_tab sxcr_tab s0_tab krsr_tab krmax_tab
        pcmax_tab sl scr su sxcr s0 krsr krmax pcmax).krsr = orTab krsr cell krsr_tab ∧
    (initEPSParam do_3pt_ cell data oil sl_tab scr_tab su_tab sxcr_tab s0_tab krsr_tab krmax_tab
        pcmax_tab sl scr su sxcr s0 krsr krmax pcmax).krmax = orTab krmax cell krmax_tab ∧
    (initEPSParam do_3pt_ cell data oil sl_tab scr_tab su_tab sxcr_tab s0_tab krsr_tab krmax_tab
        pcmax_tab sl scr su sxcr s0 krsr krmax pcmax).krSlopeCrit = orTab krsr cell krsr_tab / krsr_tab ∧
    (initEPSParam do_3pt_ cell data oil sl_tab scr_tab su_tab sxcr_tab s0_tab krsr_tab krmax_tab
        pcmax_tab sl scr su sxcr s0 krsr krmax pcmax).doKrCrit =
      (!krsr.isEmpty && decide (data.sr ≤ tab_s_max oil su_tab s0_tab - 1 / 1000000)) ∧
    (initEPSParam do_3pt_ cell data oil sl_tab scr_tab su_tab sxcr_tab s0_tab krsr_tab krmax_tab
        pcmax_tab sl scr su sxcr s0 krsr krmax pcmax).pcFactor =
      (if |pcmax_tab| < 1 / 100000000 ∨ pcmax.isEmpty ∨ pcmax_tab * vecAt pcmax cell < 0
        then 1 else vecAt pcmax cell / pcmax_tab) := by
  have h : noSatScaling do_3pt_ scr su sxcr s0 = true := by
    subst hscr hsu hs0
    rcases hsxcr with hx | hx <;> subst hx <;> simp [noSatScaling]
  have hsat := initEPSParam_sat_unscaled do_3pt_ cell data oil sl_tab scr_tab su_tab
    sxcr_tab s0_tab sl scr su sxcr s0 h
  obtain ⟨f1, f2, -, -, f5, -, f7, f8⟩ := initEPSParam_kr_frame cell
    (initEPSParam_sat do_3pt_ cell data oil sl_tab scr_tab su_tab sxcr_tab s0_tab
      sl scr su sxcr s0) krsr_tab krmax_tab krsr krmax
  obtain ⟨k1, k2, k3, k4, k5, -, -⟩ := initEPSParam_kr_spec cell
    (initEPSParam_sat do_3pt_ cell data oil sl_tab scr_tab su_tab sxcr_tab s0_tab
      sl scr su sxcr s0) krsr_tab krmax_tab krsr krmax
  rw [initEPSParam_pcFactor_closed]
  simp only [initEPSParam, initEPSParam_pc_eq]
  rw [f1, f2, f5, f7, f8, k1, k2, k3, k4, k5, hsat]
  exact ⟨rfl, rfl, rfl, rfl, rfl, rfl, rfl, rfl, rfl, rfl, trivial⟩

/-- The amended statement of C11 at the input of the counterexample. -/
theorem initEPSParam_unscaled_frame_witness :
    (initEPSParam false 0 data0 false (1/8) (1/4) (7/8) (3/4) (-1) (3/4) 1 4
        [] [] [] [] [] [] [7/8] [2]).doNotScale = true ∧
    (initEPSParam false 0 data0 false (1/8) (1/4) (7/8) (3/4) (-1) (3/4) 1 4
        [] [] [] [] [] [] [7/8] [2]).sr = data0.sr ∧
    (initEPSParam false 0 data0 false (1/8) (1/4) (7/8) (3/4) (-1) (3/4) 1 4
        [] [] [] [] [] [] [7/8] [2]).slope1 = data0.slope1 ∧
    (initEPSParam false 0 data0 false (1/8) (1/4) (7/8) (3/4) (-1) (3/4) 1 4
        [] [] [] [] [] [] [7/8] [2]).slope2 = data0.slope2 ∧
    (initEPSParam false 0 data0 false (1/8) (1/4) (7/8) (3/4) (-1) (3/4) 1 4
        [] [] [] [] [] [] [7/8] [2]).krsr = orTab [] 0 (3/4) :=
  have h := initEPSParam_unscaled_frame false 0 data0 false (1/8) (1/4) (7/8) (3/4) (-1)
    (3/4) 1 4 [] [] [] [] [] [] [7/8] [2] rfl rfl rfl (Or.inl rfl)
  ⟨h.1, h.2.2.1, h.2.2.2.1, h.2.2.2.2.1, h.2.2.2.2.2.2.1⟩

/-- C32: the recomputations of `krSlopeMax` divide by a guarded denominator.  When the
record returned has `doKrCrit` set and `doSatInterp` clear, `krSlopeMax` is the
value-domain ratio and `|krmax_tab - krsr_tab| > 1e-6`; when it has `doSatInterp` set,
`krSlopeMax` is the saturation-domain ratio and `smax - sr >= 1e-6`; when `doKrCrit` is
clear, `krSlopeMax` is not recomputed. -/
theorem initEPSParam_krSlopeMax_guarded :
    ((initEPSParam do_3pt_ cell data oil sl_tab scr_tab su_tab sxcr_tab s0_tab krsr_tab krmax_tab
        pcmax_tab sl scr su sxcr s0 krsr krmax pcmax).doKrCrit = true → (initEPSParam do_3pt_ cell data oil sl_tab scr_tab su_tab sxcr_tab s0_tab krsr_tab krmax_tab
        pcmax_tab sl scr su sxcr s0 krsr krmax pcmax).doSatInterp = false →
      1 / 1000000 < |krmax_tab - krsr_tab|
        ∧ (initEPSParam do_3pt_ cell data oil sl_tab scr_tab su_tab sxcr_tab s0_tab krsr_tab krmax_tab
        pcmax_tab sl scr su sxcr s0 krsr krmax pcmax).krSlopeMax = ((initEPSParam do_3pt_ cell data oil sl_tab scr_tab su_tab sxcr_tab s0_tab krsr_tab krmax_tab
        pcmax_tab sl scr su sxcr s0 krsr krmax pcmax).krmax - (initEPSParam do_3pt_ cell data oil sl_tab scr_tab su_tab sxcr_tab s0_tab krsr_tab krmax_tab
        pcmax_tab sl scr su sxcr s0 krsr krmax pcmax).krsr) / (krmax_tab - krsr_tab)) ∧
    ((initEPSParam do_3pt_ cell data oil sl_tab scr_tab su_tab sxcr_tab s0_tab krsr_tab krmax_tab
        pcmax_tab sl scr su sxcr s0 krsr krmax pcmax).doSatInterp = true →
      (initEPSParam do_3pt_ cell data oil sl_tab scr_tab su_tab sxcr_tab s0_tab krsr_tab krmax_tab
        pcmax_tab sl scr su sxcr s0 krsr krmax pcmax).doKrCrit = true
        ∧ 1 / 1000000 ≤ (initEPSParam do_3pt_ cell data oil sl_tab scr_tab su_tab sxcr_tab s0_tab krsr_tab krmax_tab
        pcmax_tab sl scr su sxcr s0 krsr krmax pcmax).smax - (initEPSParam do_3pt_ cell data oil sl_tab scr_tab su_tab sxcr_tab s0_tab krsr_tab krmax_tab
        pcmax_tab sl scr su sxcr s0 krsr krmax pcmax).sr
        ∧ (initEPSParam do_3pt_ cell data oil sl_tab scr_tab su_tab sxcr_tab s0_tab krsr_tab krmax_tab
        pcmax_tab sl scr su sxcr s0 krsr krmax pcmax).smax - (initEPSParam do_3pt_ cell data oil sl_tab scr_tab su_tab sxcr_tab s0_tab krsr_tab krmax_tab
        pcmax_tab sl scr su sxcr s0 krsr krmax pcmax).sr ≠ 0
        ∧ (initEPSParam do_3pt_ cell data oil sl_tab scr_tab su_tab sxcr_tab s0_tab krsr_tab krmax_tab
        pcmax_tab sl scr su sxcr s0 krsr krmax pcmax).krSlopeMax = ((initEPSParam do_3pt_ cell data oil sl_tab scr_tab su_tab sxcr_tab s0_tab krsr_tab krmax_tab
        pcmax_tab sl scr su sxcr s0 krsr krmax pcmax).krmax - (initEPSParam do_3pt_ cell data oil sl_tab scr_tab su_tab sxcr_tab s0_tab krsr_tab krmax_tab
        pcmax_tab sl scr su sxcr s0 krsr krmax pcmax).krsr) / ((initEPSParam do_3pt_ cell data oil sl_tab scr_tab su_tab sxcr_tab s0_tab krsr_tab krmax_tab
        pcmax_tab sl scr su sxcr s0 krsr krmax pcmax).smax - (initEPSParam do_3pt_ cell data oil sl_tab scr_tab su_tab sxcr_tab s0_tab krsr_tab krmax_tab
        pcmax_tab sl scr su sxcr s0 krsr krmax pcmax).sr)) ∧
    ((initEPSParam do_3pt_ cell data oil sl_tab scr_tab su_tab sxcr_tab s0_tab krsr_tab krmax_tab
        pcmax_tab sl scr su sxcr s0 krsr krmax pcmax).doKrCrit = false → (initEPSParam do_3pt_ cell data oil sl_tab scr_tab su_tab sxcr_tab s0_tab krsr_tab krmax_tab
        pcmax_tab sl scr su sxcr s0 krsr krmax pcmax).doSatInterp = false
        ∧ (initEPSParam do_3pt_ cell data oil sl_tab scr_tab su_tab sxcr_tab s0_tab krsr_tab krmax_tab
        pcmax_tab sl scr su sxcr s0 krsr krmax pcmax).krSlopeMax = (initEPSParam do_3pt_ cell data oil sl_tab scr_tab su_tab sxcr_tab s0_tab krsr_tab krmax_tab
        pcmax_tab sl scr su sxcr s0 krsr krmax pcmax).krmax / krmax_tab) := by
  obtain ⟨-, k2, k3, -, k5, k6, k7⟩ := initEPSParam_kr_closed do_3pt_ cell data oil sl_tab scr_tab su_tab sxcr_tab s0_tab krsr_tab krmax_tab
        pcmax_tab sl scr su sxcr s0 krsr krmax pcmax
  generalize (initEPSParam do_3pt_ cell data oil sl_tab scr_tab su_tab sxcr_tab s0_tab krsr_tab krmax_tab
        pcmax_tab sl scr su sxcr s0 krsr krmax pcmax) = t at k2 k3 k5 k6 k7 ⊢
  rw [k5, k6, k7, k2, k3]
  by_cases he : krsr.isEmpty = true
  · simp [he]
  · have he2 : krsr.isEmpty = false := by simpa using he
    by_cases hs : t.sr ≤ t.smax - 1 / 1000000
    · by_cases hk : 1 / 1000000 < |krmax_tab - krsr_tab|
      · have hk2 : ¬ |krmax_tab - krsr_tab| ≤ 1 / 1000000 := not_le.mpr hk
        rw [he2, decide_eq_true hs, decide_eq_false hk2, if_pos ⟨rfl, hs⟩, if_pos hk]
        exact ⟨fun _ _ => ⟨hk, rfl⟩, fun h => absurd h (by decide),
          fun h => absurd h (by decide)⟩
      · have hk2 : |krmax_tab - krsr_tab| ≤ 1 / 1000000 := not_lt.mp hk
        rw [he2, decide_eq_true hs, decide_eq_true hk2, if_pos ⟨rfl, hs⟩, if_neg hk]
        have h1 : 1 / 1000000 ≤ t.smax - t.sr := by linarith
        have h2 : t.smax - t.sr ≠ 0 := by
          intro h0
          rw [h0] at h1
          norm_num at h1
        exact ⟨fun _ h => absurd h (by decide), fun _ => ⟨rfl, h1, h2, rfl⟩,
          fun h => absurd h (by decide)⟩
    · rw [he2, decide_eq_false hs, if_neg (fun h => hs h.2)]
      simp

/-- C36: for a non-oil curve with no `scr`, `su` and `s0` array, and no `sxcr` array or
three-point mode off, `initEPSParam` sets `doNotScale` and takes `smin` from the table,
whatever the array `sl` holds. -/
theorem initEPSParam_lone_minimum_ignored
    (hscr : scr = []) (hsu : su = []) (hs0 : s0 = []) (hsx : sxcr = [] ∨ do_3pt_ = false) :
    (initEPSParam do_3pt_ cell data false sl_tab scr_tab su_tab sxcr_tab s0_tab krsr_tab
        krmax_tab pcmax_tab sl scr su sxcr s0 krsr krmax pcmax).doNotScale = true ∧
    (initEPSParam do_3pt_ cell data false sl_tab scr_tab su_tab sxcr_tab s0_tab krsr_tab
        krmax_tab pcmax_tab sl scr su sxcr s0 krsr krmax pcmax).smin = sl_tab := by
  have h : noSatScaling do_3pt_ scr su sxcr s0 = true := by
    subst hscr hsu hs0
    rcases hsx with h | h
    · subst h
      simp [noSatScaling]
    · subst h
      simp [noSatScaling]
  obtain ⟨e1, e2, -, -, -, -, -⟩ := initEPSParam_sat_fields do_3pt_ cell data false sl_tab
    scr_tab su_tab sxcr_tab s0_tab krsr_tab krmax_tab pcmax_tab sl scr su sxcr s0 krsr krmax
    pcmax
  rw [e1, e2, initEPSParam_sat_unscaled do_3pt_ cell data false sl_tab scr_tab su_tab
    sxcr_tab s0_tab sl scr su sxcr s0 h]
  exact ⟨rfl, rfl⟩

/-- Witness of C36: a water curve with table minimum `1/4` and the array `SWL = 1/8`
alone: the record has `doNotScale` set and `smin = 1/4`, not `1/8`. -/
theorem initEPSParam_lone_minimum_ignored_witness :
    (initEPSParam false 0 data0 false (1/4) (1/4) (3/4) (1/4) 0 (3/4) 1 0
        [1/8] [] [] [] [] [] [] []).doNotScale = true ∧
    (initEPSParam false 0 data0 false (1/4) (1/4) (3/4) (1/4) 0 (3/4) 1 0
        [1/8] [] [] [] [] [] [] []).smin = 1 / 4 ∧
    vecAt [1/8] 0 ≠ (1 / 4 : ℚ) :=
  ⟨(initEPSParam_lone_minimum_ignored false 0 data0 (1/4) (1/4) (3/4) (1/4) 0 (3/4) 1 0
      [1/8] [] [] [] [] [] [] [] rfl rfl rfl (Or.inl rfl)).1,
    (initEPSParam_lone_minimum_ignored false 0 data0 (1/4) (1/4) (3/4) (1/4) 0 (3/4) 1 0
      [1/8] [] [] [] [] [] [] [] rfl rfl rfl (Or.inl rfl)).2,
    by norm_num [vecAt]⟩

/-- The statement of C32 at a two-phase water curve in three-point mode with a flat table
(`krsr_tab = krmax_tab = 1`), `sr = 4/5` and `smax = 9/10`: saturation-domain
interpolation is selected and its denominator `smax - sr` is at least `1e-6`. -/
theorem initEPSParam_krSlopeMax_guarded_witness :
    (initEPSParam true 0 data0 false (1/10) (1/5) (9/10) (3/20) (-1) 1 1 0
        [] [1/4] [9/10] [1/5] [] [7/10] [19/20] []).doSatInterp = true ∧
    1 / 1000000 ≤ (initEPSParam true 0 data0 false (1/10) (1/5) (9/10) (3/20) (-1) 1 1 0
        [] [1/4] [9/10] [1/5] [] [7/10] [19/20] []).smax - (initEPSParam true 0 data0 false (1/10) (1/5) (9/10) (3/20) (-1) 1 1 0
        [] [1/4] [9/10] [1/5] [] [7/10] [19/20] []).sr ∧
    (initEPSParam true 0 data0 false (1/10) (1/5) (9/10) (3/20) (-1) 1 1 0
        [] [1/4] [9/10] [1/5] [] [7/10] [19/20] []).krSlopeMax = ((initEPSParam true 0 data0 false (1/10) (1/5) (9/10) (3/20) (-1) 1 1 0
        [] [1/4] [9/10] [1/5] [] [7/10] [19/20] []).krmax - (initEPSParam true 0 data0 false (1/10) (1/5) (9/10) (3/20) (-1) 1 1 0
        [] [1/4] [9/10] [1/5] [] [7/10] [19/20] []).krsr) / ((initEPSParam true 0 data0 false (1/10) (1/5) (9/10) (3/20) (-1) 1 1 0
        [] [1/4] [9/10] [1/5] [] [7/10] [19/20] []).smax - (initEPSParam true 0 data0 false (1/10) (1/5) (9/10) (3/20) (-1) 1 1 0
        [] [1/4] [9/10] [1/5] [] [7/10] [19/20] []).sr) :=
  have h0 : (initEPSParam true 0 data0 false (1/10) (1/5) (9/10) (3/20) (-1) 1 1 0
        [] [1/4] [9/10] [1/5] [] [7/10] [19/20] []).doSatInterp = true := by
    norm_num [initEPSParam, initEPSParam_sat, initEPSParam_kr, initEPSParam_pc,
      noSatScaling, vecAt, data0]
  have h := (initEPSParam_krSlopeMax_guarded true 0 data0 false (1/10) (1/5) (9/10) (3/20)
    (-1) 1 1 0 [] [1/4] [9/10] [1/5] [] [7/10] [19/20] []).2.1 h0
  ⟨h0, h.2.1, h.2.2.2⟩

/-- C33, as stated, fails: `initEPSParam` divides by zero.  With a table relperm
`krsr_tab = 0` the denominator of `krSlopeCrit` is 0, and with the supplied maximum
`su = 1/4` equal to the critical saturation `scr = 1/4` the denominator `smax - scr` of
`slope1` is 0. -/
theorem initEPSParam_divides_by_zero :
    (0 : ℚ) ∈ initEPSParam_denominators false 0 data0 false (1/4) (1/4) (3/4) (1/4) 0 0 1 0
        [] [] [] [] [] [] [] [] ∧
    (0 : ℚ) ∈ initEPSParam_denominators false 0 data0 false (1/4) (1/4) (3/4) (1/4) 0 (3/4) 1 0
        [] [] [1/4] [] [] [] [] [] := by
  constructor <;>
    norm_num [initEPSParam_denominators, initEPSParam_sat, noSatScaling, vecAt, data0]

/-- C33, amended: only the recomputed `krSlopeMax` and `pcFactor` have a fallback; the
other divisions are unconditional.  No division of `initEPSParam` has a zero denominator
exactly when `krsr_tab` and `krmax_tab` are not 0 and, if a saturation scaling array is
supplied, the endpoints of the record returned are distinct: `sr ≠ scr` and `smax ≠ sr`
in three-point mode, `smax ≠ scr` and the table maximum different from `scr_tab` in
two-point mode. -/
theorem initEPSParam_denominators_nonzero_iff :
    (0 : ℚ) ∉ initEPSParam_denominators do_3pt_ cell data oil sl_tab scr_tab su_tab sxcr_tab s0_tab krsr_tab krmax_tab
        pcmax_tab sl scr su sxcr s0 krsr krmax pcmax ↔
      krsr_tab ≠ 0 ∧ krmax_tab ≠ 0 ∧
      (noSatScaling do_3pt_ scr su sxcr s0 = false →
        (do_3pt_ = true → (initEPSParam do_3pt_ cell data oil sl_tab scr_tab su_tab sxcr_tab s0_tab krsr_tab krmax_tab
        pcmax_tab sl scr su sxcr s0 krsr krmax pcmax).sr ≠ (initEPSParam do_3pt_ cell data oil sl_tab scr_tab su_tab sxcr_tab s0_tab krsr_tab krmax_tab
        pcmax_tab sl scr su sxcr s0 krsr krmax pcmax).scr ∧ (initEPSParam do_3pt_ cell data oil sl_tab scr_tab su_tab sxcr_tab s0_tab krsr_tab krmax_tab
        pcmax_tab sl scr su sxcr s0 krsr krmax pcmax).smax ≠ (initEPSParam do_3pt_ cell data oil sl_tab scr_tab su_tab sxcr_tab s0_tab krsr_tab krmax_tab
        pcmax_tab sl scr su sxcr s0 krsr krmax pcmax).sr)
        ∧ (do_3pt_ = false →
            (initEPSParam do_3pt_ cell data oil sl_tab scr_tab su_tab sxcr_tab s0_tab krsr_tab krmax_tab
        pcmax_tab sl scr su sxcr s0 krsr krmax pcmax).smax ≠ (initEPSParam do_3pt_ cell data oil sl_tab scr_tab su_tab sxcr_tab s0_tab krsr_tab krmax_tab
        pcmax_tab sl scr su sxcr s0 krsr krmax pcmax).scr ∧ tab_s_max oil su_tab s0_tab ≠ scr_tab)) := by
  obtain ⟨-, -, e3, e4, e5, -, -⟩ := initEPSParam_sat_fields do_3pt_ cell data oil sl_tab scr_tab su_tab sxcr_tab s0_tab krsr_tab krmax_tab
        pcmax_tab sl scr su sxcr s0 krsr krmax pcmax
  rw [e3, e4, e5]
  unfold initEPSParam_denominators tab_s_max
  simp only []
  generalize initEPSParam_sat do_3pt_ cell data oil sl_tab scr_tab su_tab sxcr_tab s0_tab
    sl scr su sxcr s0 = d
  have hcrit : ∀ (l : List ℚ),
      l = (if (!krsr.isEmpty) = true then
            if d.sr > d.smax - 1 / 1000000 then []
            else if |krmax_tab - krsr_tab| > 1 / 1000000 then [krmax_tab - krsr_tab]
            else [d.smax - d.sr]
          else []) → (0 : ℚ) ∉ l := by
    intro l hl
    subst hl
    split_ifs with h1 h2 h3
    · simp
    · intro h0
      rw [List.mem_singleton] at h0
      rw [← h0, abs_zero] at h3
      norm_num at h3
    · intro h0
      rw [List.mem_singleton] at h0
      have : d.sr ≤ d.smax - 1 / 1000000 := not_lt.mp h2
      rw [← sub_eq_zero] at h0
      linarith
    · simp
  have hpc : ∀ (l : List ℚ),
      l = (if |pcmax_tab| < 1 / 100000000 ∨ pcmax.isEmpty = true
              ∨ pcmax_tab * vecAt pcmax cell < 0
            then [] else [pcmax_tab]) → (0 : ℚ) ∉ l := by
    intro l hl
    subst hl
    split_ifs with h1
    · simp
    · intro h0
      rw [List.mem_singleton] at h0
      apply h1
      left
      rw [← h0, abs_zero]
      norm_num
  have hc := hcrit _ rfl
  have hp := hpc _ rfl
  simp only [List.mem_append, not_or]
  constructor
  · rintro ⟨⟨⟨h1, h2⟩, -⟩, -⟩
    simp only [List.mem_cons, List.mem_singleton, List.not_mem_nil, or_false, not_or] at h2
    refine ⟨fun h => h2.1 h.symm, fun h => h2.2 h.symm, fun hn => ?_⟩
    rw [hn] at h1
    simp only [Bool.false_eq_true, if_false] at h1
    constructor
    · intro h3
      subst h3
      simp only [if_true, List.mem_cons, List.mem_singleton, List.not_mem_nil, or_false,
        not_or] at h1
      exact ⟨fun h => h1.1 (by rw [h, sub_self]), fun h => h1.2 (by rw [h, sub_self])⟩
    · intro h3
      subst h3
      simp only [Bool.false_eq_true, if_false, List.mem_cons, List.mem_singleton,
        List.not_mem_nil, or_false, not_or] at h1
      exact ⟨fun h => h1.1 (by rw [h, sub_self]), fun h => h1.2 (by rw [h, sub_self])⟩
  · rintro ⟨k1, k2, k3⟩
    refine ⟨⟨⟨?_, ?_⟩, hc⟩, hp⟩
    · by_cases hn : noSatScaling do_3pt_ scr su sxcr s0 = true
      · rw [if_pos hn]
        exact List.not_mem_nil _
      · rw [if_neg hn]
        have hn2 : noSatScaling do_3pt_ scr su sxcr s0 = false := by simpa using hn
        obtain ⟨a, b⟩ := k3 hn2
        cases do_3pt_ with
        | true =>
          obtain ⟨a1, a2⟩ := a rfl
          simp only [if_true, List.mem_cons, List.mem_singleton, List.not_mem_nil, or_false,
            not_or]
          exact ⟨fun h => a1 (sub_eq_zero.mp h.symm), fun h => a2 (sub_eq_zero.mp h.symm)⟩
        | false =>
          obtain ⟨b1, b2⟩ := b rfl
          simp only [Bool.false_eq_true, if_false, List.mem_cons, List.mem_singleton,
            List.not_mem_nil, or_false, not_or]
          exact ⟨fun h => b1 (sub_eq_zero.mp h.symm), fun h => b2 (sub_eq_zero.mp h.symm)⟩
    · simp only [List.mem_cons, List.mem_singleton, List.not_mem_nil, or_false, not_or]
      exact ⟨fun h => k1 h.symm, fun h => k2 h.symm⟩

/-- The amended statement of C33 at a three-phase water curve in two-point mode with
`krsr_tab = 3/4`, `krmax_tab = 1`, table range `[1/4, 3/4]` and the supplied maximum
`su = 5/8`: no division has a zero denominator. -/
theorem initEPSParam_denominators_nonzero_iff_witness :
    (0 : ℚ) ∉ initEPSParam_denominators false 0 data0 false (1/4) (1/4) (3/4) (1/4) 0 (3/4) 1 0
        [] [] [5/8] [] [] [] [] [] :=
  (initEPSParam_denominators_nonzero_iff false 0 data0 false (1/4) (1/4) (3/4) (1/4) 0 (3/4)
    1 0 [] [] [5/8] [] [] [] [] []).mpr
    ⟨by norm_num, by norm_num, fun _ =>
      ⟨(fun h => by cases h), fun _ =>
        ⟨by
          norm_num [initEPSParam, initEPSParam_sat, initEPSParam_kr, initEPSParam_pc,
      noSatScaling, vecAt, data0],
        by norm_num [tab_s_max]⟩⟩⟩

end InitEPSParam

section Evaluator

variable (C : Curves) (S : SaturationPropsFromDeck)

/-! ### Shared lemmas: loops and stores -/

/-- Loop invariant rule for `for (k = 0; k < n; ++k)`. -/
lemma foldl_range_invariant {α : Type} (step : α → Nat → α) (Inv : Nat → α → Prop) (a : α)
    (h0 : Inv 0 a) (hstep : ∀ k acc, Inv k acc → Inv (k + 1) (step acc k)) :
    ∀ n, Inv n ((List.range n).foldl step a) := by
  intro n
  induction n with
  | zero => simpa using h0
  | succ m ih =>
    rw [List.range_succ, List.foldl_append]
    exact hstep m _ ih

/-- A slot of an earlier block lies below the base of a later block. -/
lemma block_index_lt {np i k p : Nat} (hi : i < k) (hp : p < np) : np * i + p < np * k := by
  have h1 : np * (i + 1) ≤ np * k := Nat.mul_le_mul_left np hi
  have h2 : np * (i + 1) = np * i + np := Nat.mul_succ np i
  omega

lemma writeBlock_hit (out : Nat → ℚ) (base len : Nat) (vals : Nat → ℚ) {p : Nat}
    (hp : p < len) : writeBlock out base len vals (base + p) = vals p := by
  unfold writeBlock
  rw [if_pos ⟨Nat.le_add_right base p, Nat.add_lt_add_left hp base⟩, Nat.add_sub_cancel_left]

lemma writeBlock_below (out : Nat → ℚ) (base len : Nat) (vals : Nat → ℚ) {j : Nat}
    (hj : j < base) : writeBlock out base len vals j = out j := by
  unfold writeBlock
  rw [if_neg (fun h => absurd h.1 (Nat.not_le.mpr hj))]

/-- The procedure `satRange_` at position `cellIdx` leaves every slot below
`np * cellIdx` alone. -/
lemma satRange__below (satFunc : SatFunc) (cellIdx : Nat) (cells : Nat → Nat)
    (smin smax : Nat → ℚ) {j : Nat} (hj : j < S.phase_usage_.num_phases * cellIdx) :
    (satRange_ S satFunc cellIdx cells smin smax).1 j = smin j ∧
    (satRange_ S satFunc cellIdx cells smin smax).2 j = smax j := by
  unfold satRange_
  by_cases he : S.do_eps_ = true
  · have ho : j ≠ S.phase_usage_.num_phases * cellIdx
        + S.phase_usage_.phase_pos BlackoilPhases.Liquid := by omega
    have hw : j ≠ S.phase_usage_.num_phases * cellIdx
        + S.phase_usage_.phase_pos BlackoilPhases.Aqua := by omega
    have hg : j ≠ S.phase_usage_.num_phases * cellIdx
        + S.phase_usage_.phase_pos BlackoilPhases.Vapour := by omega
    simp only [he, if_true]
    cases S.phase_usage_.phase_used BlackoilPhases.Aqua <;>
      cases S.phase_usage_.phase_used BlackoilPhases.Vapour <;>
      simp [Function.update_apply, ho, hw, hg]
  · have he' : S.do_eps_ = false := by simpa using he
    simp only [he', Bool.false_eq_true, if_false]
    exact foldl_range_invariant _
      (fun _ (acc : (Nat → ℚ) × (Nat → ℚ)) => acc.1 j = smin j ∧ acc.2 j = smax j)
      (smin, smax) ⟨rfl, rfl⟩
      (fun k acc hacc => by
        have hk : j ≠ S.phase_usage_.num_phases * cellIdx + k := by omega
        simp only [Function.update_apply, hk, if_false]
        exact hacc) _

/-- Without endpoint scaling `satRange_` stores the range of the table it is given. -/
lemma satRange__plain_slots (satFunc : SatFunc) (cellIdx : Nat) (cells : Nat → Nat)
    (smin smax : Nat → ℚ) (he : S.do_eps_ = false) {p : Nat}
    (hp : p < S.phase_usage_.num_phases) :
    (satRange_ S satFunc cellIdx cells smin smax).1
        (S.phase_usage_.num_phases * cellIdx + p) = satFunc.smin_ p ∧
    (satRange_ S satFunc cellIdx cells smin smax).2
        (S.phase_usage_.num_phases * cellIdx + p) = satFunc.smax_ p := by
  unfold satRange_
  simp only [he, Bool.false_eq_true, if_false]
  exact foldl_range_invariant _
    (fun k (acc : (Nat → ℚ) × (Nat → ℚ)) => ∀ q, q < k →
      acc.1 (S.phase_usage_.num_phases * cellIdx + q) = satFunc.smin_ q ∧
      acc.2 (S.phase_usage_.num_phases * cellIdx + q) = satFunc.smax_ q)
    (smin, smax) (fun q hq => absurd hq (Nat.not_lt_zero q))
    (fun k acc hacc q hq => by
      by_cases hqk : q = k
      · subst hqk
        simp [Function.update_apply]
      · have hne : S.phase_usage_.num_phases * cellIdx + q
            ≠ S.phase_usage_.num_phases * cellIdx + k := by omega
        simp only [Function.update_apply, hne, if_false]
        exact hacc q (by omega)) _ p hp

/-- With endpoint scaling `satRange_` stores, at the position it is given: for oil the
complement of the water and gas ranges (the minimum clipped at zero when water and gas
are both active), for water and gas the reported range. -/
lemma satRange__eps_slots (satFunc : SatFunc) (cellIdx : Nat) (cells : Nat → Nat)
    (smin smax : Nat → ℚ) (he : S.do_eps_ = true)
    (hwo : S.phase_usage_.phase_used BlackoilPhases.Aqua = true →
      S.phase_usage_.phase_pos BlackoilPhases.Aqua
        ≠ S.phase_usage_.phase_pos BlackoilPhases.Liquid)
    (hgo : S.phase_usage_.phase_used BlackoilPhases.Vapour = true →
      S.phase_usage_.phase_pos BlackoilPhases.Vapour
        ≠ S.phase_usage_.phase_pos BlackoilPhases.Liquid)
    (hwg : S.phase_usage_.phase_used BlackoilPhases.Aqua = true →
      S.phase_usage_.phase_used BlackoilPhases.Vapour = true →
      S.phase_usage_.phase_pos BlackoilPhases.Aqua
        ≠ S.phase_usage_.phase_pos BlackoilPhases.Vapour) :
    (satRange_ S satFunc cellIdx cells smin smax).1
        (S.phase_usage_.num_phases * cellIdx + S.phase_usage_.phase_pos BlackoilPhases.Liquid)
      = (if S.phase_usage_.phase_used BlackoilPhases.Vapour = true ∧
            S.phase_usage_.phase_used BlackoilPhases.Aqua = true then
          max 0 (1
            - (if S.phase_usage_.phase_used BlackoilPhases.Aqua = true then
                reportedMax (S.epsTransf (cells cellIdx)).wat satFunc
                  (S.phase_usage_.phase_pos BlackoilPhases.Aqua) else 0)
            - (if S.phase_usage_.phase_used BlackoilPhases.Vapour = true then
                reportedMax (S.epsTransf (cells cellIdx)).gas satFunc
                  (S.phase_usage_.phase_pos BlackoilPhases.Vapour) else 0))
         else
          1
            - (if S.phase_usage_.phase_used BlackoilPhases.Aqua = true then
                reportedMax (S.epsTransf (cells cellIdx)).wat satFunc
                  (S.phase_usage_.phase_pos BlackoilPhases.Aqua) else 0)
            - (if S.phase_usage_.phase_used BlackoilPhases.Vapour = true then
                reportedMax (S.epsTransf (cells cellIdx)).gas satFunc
                  (S.phase_usage_.phase_pos BlackoilPhases.Vapour) else 0)) ∧
    (satRange_ S satFunc cellIdx cells smin smax).2
        (S.phase_usage_.num_phases * cellIdx + S.phase_usage_.phase_pos BlackoilPhases.Liquid)
      = 1
          - (if S.phase_usage_.phase_used BlackoilPhases.Aqua = true then
              reportedMin (S.epsTransf (cells cellIdx)).wat satFunc
                (S.phase_usage_.phase_pos BlackoilPhases.Aqua) else 0)
          - (if S.phase_usage_.phase_used BlackoilPhases.Vapour = true then
              reportedMin (S.epsTransf (cells cellIdx)).gas satFunc
                (S.phase_usage_.phase_pos BlackoilPhases.Vapour) else 0) ∧
    (S.phase_usage_.phase_used BlackoilPhases.Aqua = true →
      (satRange_ S satFunc cellIdx cells smin smax).1
          (S.phase_usage_.num_phases * cellIdx + S.phase_usage_.phase_pos BlackoilPhases.Aqua)
        = reportedMin (S.epsTransf (cells cellIdx)).wat satFunc
            (S.phase_usage_.phase_pos BlackoilPhases.Aqua) ∧
      (satRange_ S satFunc cellIdx cells smin smax).2
          (S.phase_usage_.num_phases * cellIdx + S.phase_usage_.phase_pos BlackoilPhases.Aqua)
        = reportedMax (S.epsTransf (cells cellIdx)).wat satFunc
            (S.phase_usage_.phase_pos BlackoilPhases.Aqua)) ∧
    (S.phase_usage_.phase_used BlackoilPhases.Vapour = true →
      (satRange_ S satFunc cellIdx cells smin smax).1
          (S.phase_usage_.num_phases * cellIdx + S.phase_usage_.phase_pos BlackoilPhases.Vapour)
        = reportedMin (S.epsTransf (cells cellIdx)).gas satFunc
            (S.phase_usage_.phase_pos BlackoilPhases.Vapour) ∧
      (satRange_ S satFunc cellIdx cells smin smax).2
          (S.phase_usage_.num_phases * cellIdx + S.phase_usage_.phase_pos BlackoilPhases.Vapour)
        = reportedMax (S.epsTransf (cells cellIdx)).gas satFunc
            (S.phase_usage_.phase_pos BlackoilPhases.Vapour)) := by
  unfold satRange_ reportedMin reportedMax
  simp only [he, if_true]
  generalize S.phase_usage_.phase_pos BlackoilPhases.Aqua = wpos at *
  generalize S.phase_usage_.phase_pos BlackoilPhases.Liquid = opos at *
  generalize S.phase_usage_.phase_pos BlackoilPhases.Vapour = gpos at *
  generalize S.phase_usage_.num_phases * cellIdx = base at *
  cases hW : S.phase_usage_.phase_used BlackoilPhases.Aqua <;>
    cases hG : S.phase_usage_.phase_used BlackoilPhases.Vapour
  · simp [Function.update_apply]
  · have h1 := hgo hG
    have h2 : opos ≠ gpos := fun h => h1 h.symm
    simp [Function.update_apply, h1, h2]
  · have h1 := hwo hW
    have h2 : opos ≠ wpos := fun h => h1 h.symm
    simp [Function.update_apply, h1, h2]
  · have h1 := hwo hW
    have h2 : opos ≠ wpos := fun h => h1 h.symm
    have h3 := hgo hG
    have h4 : opos ≠ gpos := fun h => h3 h.symm
    have h5 := hwg hW hG
    have h6 : gpos ≠ wpos := fun h => h5 h.symm
    simp [Function.update_apply, h1, h2, h3, h4, h5, h6]

/-- One more round of the loop of `satRange`. -/
lemma satRange_succ (m : Nat) (cells : Nat → Nat) (smin smax : Nat → ℚ) :
    satRange S (m + 1) cells smin smax =
      satRange_ S (S.satfuncAt (S.cellToFunc m)) m cells
        (satRange S m cells smin smax).1 (satRange S m cells smin smax).2 := by
  unfold satRange
  rw [List.range_succ, List.foldl_append]
  rfl

/-- What `satRange` leaves in a slot of position `i` is what round `i` of its loop stored
there: the later rounds write above it. -/
lemma satRange_slot (n : Nat) (cells : Nat → Nat) (smin smax : Nat → ℚ) {i j : Nat}
    (hi : i < n) (hj : j < S.phase_usage_.num_phases * (i + 1)) :
    (satRange S n cells smin smax).1 j =
      (satRange_ S (S.satfuncAt (S.cellToFunc i)) i cells
        (satRange S i cells smin smax).1 (satRange S i cells smin smax).2).1 j ∧
    (satRange S n cells smin smax).2 j =
      (satRange_ S (S.satfuncAt (S.cellToFunc i)) i cells
        (satRange S i cells smin smax).1 (satRange S i cells smin smax).2).2 j := by
  induction n with
  | zero => exact absurd hi (Nat.not_lt_zero i)
  | succ m ih =>
    rw [satRange_succ]
    by_cases him : i = m
    · subst him
      exact ⟨rfl, rfl⟩
    · have hlt : i < m := by omega
      have hjm : j < S.phase_usage_.num_phases * m :=
        lt_of_lt_of_le hj (Nat.mul_le_mul_left _ hlt)
      obtain ⟨h1, h2⟩ := satRange__below S (S.satfuncAt (S.cellToFunc m)) m cells
        (satRange S m cells smin smax).1 (satRange S m cells smin smax).2 hjm
      rw [h1, h2]
      exact ih hlt

/-- The slot of phase position `p` of batch position `i` is a slot of that position. -/
lemma slot_lt_block {np i p : Nat} (hp : p < np) : np * i + p < np * (i + 1) := by
  rw [Nat.mul_succ]
  omega

/-! ### The saturation range -/

/-- C12 at a failing input: cell 0 lies in the region of `tableA` (water range
`[1/4, 3/4]`), cell 1 in the region of `tableB` (water range `[1/8, 7/8]`), no endpoint
scaling.  For the batch `cells = [1]` the water range `satRange` stores at position 0 is
that of `tableA`, the table of cell 0, not that of the region of `cells[0] = 1`; for the
batch `cells = [1, 1]` the same cell gets two different ranges. -/
theorem satRange_reads_table_of_position :
    (twoRegions.satfuncAt (twoRegions.cellToFunc 1)).smin_ 0 = 1/8 ∧
    (twoRegions.satfuncAt (twoRegions.cellToFunc 1)).smax_ 0 = 7/8 ∧
    (satRange twoRegions 1 (fun _ => 1) zeros zeros).1 0 = 1/4 ∧
    (satRange twoRegions 1 (fun _ => 1) zeros zeros).2 0 = 3/4 ∧
    (satRange twoRegions 2 (fun _ => 1) zeros zeros).1 0 = 1/4 ∧
    (satRange twoRegions 2 (fun _ => 1) zeros zeros).1 3 = 1/8 := by
  have h0 := satRange_slot twoRegions 1 (fun _ => 1) zeros zeros (i := 0) (j := 0)
    (by decide) (by decide)
  have h1 := satRange_slot twoRegions 2 (fun _ => 1) zeros zeros (i := 0) (j := 0)
    (by decide) (by decide)
  have h2 := satRange_slot twoRegions 2 (fun _ => 1) zeros zeros (i := 1) (j := 3)
    (by decide) (by decide)
  have p0 := fun a b => satRange__plain_slots twoRegions
    (twoRegions.satfuncAt (twoRegions.cellToFunc 0)) 0 (fun _ => 1) a b rfl (p := 0)
    (by decide)
  have p1 := fun a b => satRange__plain_slots twoRegions
    (twoRegions.satfuncAt (twoRegions.cellToFunc 1)) 1 (fun _ => 1) a b rfl (p := 0)
    (by decide)
  refine ⟨?_, ?_, ?_, ?_, ?_, ?_⟩
  · norm_num [SaturationPropsFromDeck.satfuncAt, SaturationPropsFromDeck.cellToFunc,
      twoRegions, tableB]
  · norm_num [SaturationPropsFromDeck.satfuncAt, SaturationPropsFromDeck.cellToFunc,
      twoRegions, tableB]
  · rw [h0.1]
    exact (p0 _ _).1.trans (by
      norm_num [SaturationPropsFromDeck.satfuncAt, SaturationPropsFromDeck.cellToFunc,
        twoRegions, tableA])
  · rw [h0.2]
    exact (p0 _ _).2.trans (by
      norm_num [SaturationPropsFromDeck.satfuncAt, SaturationPropsFromDeck.cellToFunc,
        twoRegions, tableA])
  · rw [h1.1]
    exact (p0 _ _).1.trans (by
      norm_num [SaturationPropsFromDeck.satfuncAt, SaturationPropsFromDeck.cellToFunc,
        twoRegions, tableA])
  · rw [h2.1]
    exact (p1 _ _).1.trans (by
      norm_num [SaturationPropsFromDeck.satfuncAt, SaturationPropsFromDeck.cellToFunc,
        twoRegions, tableB])

/-- C13: under endpoint scaling `satRange` reports, at every batch position, oil as the
complement of the reported water and gas ranges: `smax_oil = 1 - smin_water - smin_gas`
and `smin_oil = 1 - smax_water - smax_gas` (an inactive phase contributes 0), where the
water and gas range is the `smin`/`smax` of the transform of `cells[i]` when scaled and
that of the table `satRange` hands to `satRange_` when `doNotScale`; when water and gas
are both active `smin_oil` is clipped to `max(0, .)`, hence `smin_oil ≥ 0`.  The active
phases have distinct positions below `num_phases`. -/
theorem satRange_oil_complement (n : Nat) (cells : Nat → Nat) (smin smax : Nat → ℚ)
    (i : Nat) (hi : i < n) (he : S.do_eps_ = true)
    (hwo : S.phase_usage_.phase_used BlackoilPhases.Aqua = true → S.phase_usage_.phase_pos BlackoilPhases.Aqua ≠ S.phase_usage_.phase_pos BlackoilPhases.Liquid)
    (hgo : S.phase_usage_.phase_used BlackoilPhases.Vapour = true → S.phase_usage_.phase_pos BlackoilPhases.Vapour ≠ S.phase_usage_.phase_pos BlackoilPhases.Liquid)
    (hwg : S.phase_usage_.phase_used BlackoilPhases.Aqua = true → S.phase_usage_.phase_used BlackoilPhases.Vapour = true → S.phase_usage_.phase_pos BlackoilPhases.Aqua ≠ S.phase_usage_.phase_pos BlackoilPhases.Vapour)
    (hwn : S.phase_usage_.phase_used BlackoilPhases.Aqua = true → S.phase_usage_.phase_pos BlackoilPhases.Aqua < S.phase_usage_.num_phases)
    (hon : S.phase_usage_.phase_pos BlackoilPhases.Liquid < S.phase_usage_.num_phases)
    (hgn : S.phase_usage_.phase_used BlackoilPhases.Vapour = true → S.phase_usage_.phase_pos BlackoilPhases.Vapour < S.phase_usage_.num_phases) :
    (S.phase_usage_.phase_used BlackoilPhases.Aqua = true →
      (satRange S n cells smin smax).1 (S.phase_usage_.num_phases * i + S.phase_usage_.phase_pos BlackoilPhases.Aqua) = reportedMin (S.epsTransf (cells i)).wat (S.satfuncAt (S.cellToFunc i)) (S.phase_usage_.phase_pos BlackoilPhases.Aqua) ∧
      (satRange S n cells smin smax).2 (S.phase_usage_.num_phases * i + S.phase_usage_.phase_pos BlackoilPhases.Aqua) = reportedMax (S.epsTransf (cells i)).wat (S.satfuncAt (S.cellToFunc i)) (S.phase_usage_.phase_pos BlackoilPhases.Aqua)) ∧
    (S.phase_usage_.phase_used BlackoilPhases.Vapour = true →
      (satRange S n cells smin smax).1 (S.phase_usage_.num_phases * i + S.phase_usage_.phase_pos BlackoilPhases.Vapour) = reportedMin (S.epsTransf (cells i)).gas (S.satfuncAt (S.cellToFunc i)) (S.phase_usage_.phase_pos BlackoilPhases.Vapour) ∧
      (satRange S n cells smin smax).2 (S.phase_usage_.num_phases * i + S.phase_usage_.phase_pos BlackoilPhases.Vapour) = reportedMax (S.epsTransf (cells i)).gas (S.satfuncAt (S.cellToFunc i)) (S.phase_usage_.phase_pos BlackoilPhases.Vapour)) ∧
    (satRange S n cells smin smax).2 (S.phase_usage_.num_phases * i + S.phase_usage_.phase_pos BlackoilPhases.Liquid) =
      1 - (if S.phase_usage_.phase_used BlackoilPhases.Aqua = true then (satRange S n cells smin smax).1 (S.phase_usage_.num_phases * i + S.phase_usage_.phase_pos BlackoilPhases.Aqua) else 0)
        - (if S.phase_usage_.phase_used BlackoilPhases.Vapour = true then (satRange S n cells smin smax).1 (S.phase_usage_.num_phases * i + S.phase_usage_.phase_pos BlackoilPhases.Vapour) else 0) ∧
    (¬ (S.phase_usage_.phase_used BlackoilPhases.Vapour = true ∧ S.phase_usage_.phase_used BlackoilPhases.Aqua = true) →
      (satRange S n cells smin smax).1 (S.phase_usage_.num_phases * i + S.phase_usage_.phase_pos BlackoilPhases.Liquid) =
        1 - (if S.phase_usage_.phase_used BlackoilPhases.Aqua = true then (satRange S n cells smin smax).2 (S.phase_usage_.num_phases * i + S.phase_usage_.phase_pos BlackoilPhases.Aqua) else 0)
          - (if S.phase_usage_.phase_used BlackoilPhases.Vapour = true then (satRange S n cells smin smax).2 (S.phase_usage_.num_phases * i + S.phase_usage_.phase_pos BlackoilPhases.Vapour) else 0)) ∧
    (S.phase_usage_.phase_used BlackoilPhases.Vapour = true ∧ S.phase_usage_.phase_used BlackoilPhases.Aqua = true →
      (satRange S n cells smin smax).1 (S.phase_usage_.num_phases * i + S.phase_usage_.phase_pos BlackoilPhases.Liquid) = max 0 (1 - (satRange S n cells smin smax).2 (S.phase_usage_.num_phases * i + S.phase_usage_.phase_pos BlackoilPhases.Aqua) - (satRange S n cells smin smax).2 (S.phase_usage_.num_phases * i + S.phase_usage_.phase_pos BlackoilPhases.Vapour)) ∧
      0 ≤ (satRange S n cells smin smax).1 (S.phase_usage_.num_phases * i + S.phase_usage_.phase_pos BlackoilPhases.Liquid)) := by
  obtain ⟨o1, o2⟩ := satRange_slot S n cells smin smax hi (slot_lt_block (i := i) hon)
  obtain ⟨e1, e2, e3, e4⟩ := satRange__eps_slots S (S.satfuncAt (S.cellToFunc i)) i cells
    (satRange S i cells smin smax).1 (satRange S i cells smin smax).2 he hwo hgo hwg
  have hw : S.phase_usage_.phase_used BlackoilPhases.Aqua = true →
      (satRange S n cells smin smax).1 (S.phase_usage_.num_phases * i + S.phase_usage_.phase_pos BlackoilPhases.Aqua) = reportedMin (S.epsTransf (cells i)).wat (S.satfuncAt (S.cellToFunc i)) (S.phase_usage_.phase_pos BlackoilPhases.Aqua) ∧
      (satRange S n cells smin smax).2 (S.phase_usage_.num_phases * i + S.phase_usage_.phase_pos BlackoilPhases.Aqua) = reportedMax (S.epsTransf (cells i)).wat (S.satfuncAt (S.cellToFunc i)) (S.phase_usage_.phase_pos BlackoilPhases.Aqua) := by
    intro hW
    obtain ⟨w1, w2⟩ := satRange_slot S n cells smin smax hi (slot_lt_block (i := i) (hwn hW))
    rw [w1, w2]
    exact e3 hW
  have hg : S.phase_usage_.phase_used BlackoilPhases.Vapour = true →
      (satRange S n cells smin smax).1 (S.phase_usage_.num_phases * i + S.phase_usage_.phase_pos BlackoilPhases.Vapour) = reportedMin (S.epsTransf (cells i)).gas (S.satfuncAt (S.cellToFunc i)) (S.phase_usage_.phase_pos BlackoilPhases.Vapour) ∧
      (satRange S n cells smin smax).2 (S.phase_usage_.num_phases * i + S.phase_usage_.phase_pos BlackoilPhases.Vapour) = reportedMax (S.epsTransf (cells i)).gas (S.satfuncAt (S.cellToFunc i)) (S.phase_usage_.phase_pos BlackoilPhases.Vapour) := by
    intro hG
    obtain ⟨g1, g2⟩ := satRange_slot S n cells smin smax hi (slot_lt_block (i := i) (hgn hG))
    rw [g1, g2]
    exact e4 hG
  refine ⟨hw, hg, ?_, ?_, ?_⟩
  · rw [o2, e2]
    by_cases hW : S.phase_usage_.phase_used BlackoilPhases.Aqua = true <;> by_cases hG : S.phase_usage_.phase_used BlackoilPhases.Vapour = true
    · rw [if_pos hW, if_pos hG, if_pos hW, if_pos hG, (hw hW).1, (hg hG).1]
    · rw [if_pos hW, if_neg hG, if_pos hW, if_neg hG, (hw hW).1]
    · rw [if_neg hW, if_pos hG, if_neg hW, if_pos hG, (hg hG).1]
    · rw [if_neg hW, if_neg hG, if_neg hW, if_neg hG]
  · intro hn
    rw [o1, e1, if_neg hn]
    by_cases hW : S.phase_usage_.phase_used BlackoilPhases.Aqua = true <;> by_cases hG : S.phase_usage_.phase_used BlackoilPhases.Vapour = true
    · exact absurd ⟨hG, hW⟩ hn
    · rw [if_pos hW, if_neg hG, if_pos hW, if_neg hG, (hw hW).2]
    · rw [if_neg hW, if_pos hG, if_neg hW, if_pos hG, (hg hG).2]
    · rw [if_neg hW, if_neg hG, if_neg hW, if_neg hG]
  · intro hGW
    rw [o1, e1, if_pos hGW, if_pos hGW.2, if_pos hGW.1, (hw hGW.2).2, (hg hGW.1).2]
    exact ⟨rfl, le_max_left _ _⟩

/-- The statement of C13 at a three-phase cell with water scaled to `[1/8, 5/8]` and gas
left to the table range `[0, 1/2]`. -/
theorem satRange_oil_complement_witness :
    (satRange oneScaledCell 1 (fun c => c) zeros zeros).2 (oneScaledCell.phase_usage_.num_phases * 0 + oneScaledCell.phase_usage_.phase_pos BlackoilPhases.Liquid) =
      1 - (if oneScaledCell.phase_usage_.phase_used BlackoilPhases.Aqua = true then (satRange oneScaledCell 1 (fun c => c) zeros zeros).1 (oneScaledCell.phase_usage_.num_phases * 0 + oneScaledCell.phase_usage_.phase_pos BlackoilPhases.Aqua) else 0)
        - (if oneScaledCell.phase_usage_.phase_used BlackoilPhases.Vapour = true then (satRange oneScaledCell 1 (fun c => c) zeros zeros).1 (oneScaledCell.phase_usage_.num_phases * 0 + oneScaledCell.phase_usage_.phase_pos BlackoilPhases.Vapour) else 0) ∧
    (satRange oneScaledCell 1 (fun c => c) zeros zeros).1 (oneScaledCell.phase_usage_.num_phases * 0 + oneScaledCell.phase_usage_.phase_pos BlackoilPhases.Liquid) = max 0 (1 - (satRange oneScaledCell 1 (fun c => c) zeros zeros).2 (oneScaledCell.phase_usage_.num_phases * 0 + oneScaledCell.phase_usage_.phase_pos BlackoilPhases.Aqua) - (satRange oneScaledCell 1 (fun c => c) zeros zeros).2 (oneScaledCell.phase_usage_.num_phases * 0 + oneScaledCell.phase_usage_.phase_pos BlackoilPhases.Vapour)) ∧
    0 ≤ (satRange oneScaledCell 1 (fun c => c) zeros zeros).1 (oneScaledCell.phase_usage_.num_phases * 0 + oneScaledCell.phase_usage_.phase_pos BlackoilPhases.Liquid) :=
  have h := satRange_oil_complement oneScaledCell 1 (fun c => c) zeros zeros 0
    (by decide) rfl (fun _ => by decide) (fun _ => by decide) (fun _ _ => by decide)
    (fun _ => by decide) (by decide) (fun _ => by decide)
  ⟨h.2.2.1, (h.2.2.2.2 ⟨rfl, rfl⟩).1, (h.2.2.2.2 ⟨rfl, rfl⟩).2⟩

/-- With endpoint scaling, what `satRange` leaves at batch position `i`, in closed
form. -/
lemma satRange_eps_slots (n : Nat) (cells : Nat → Nat) (smin smax : Nat → ℚ)
    (i : Nat) (hi : i < n) (he : S.do_eps_ = true)
    (hwo : S.phase_usage_.phase_used BlackoilPhases.Aqua = true → S.phase_usage_.phase_pos BlackoilPhases.Aqua ≠ S.phase_usage_.phase_pos BlackoilPhases.Liquid)
    (hgo : S.phase_usage_.phase_used BlackoilPhases.Vapour = true → S.phase_usage_.phase_pos BlackoilPhases.Vapour ≠ S.phase_usage_.phase_pos BlackoilPhases.Liquid)
    (hwg : S.phase_usage_.phase_used BlackoilPhases.Aqua = true → S.phase_usage_.phase_used BlackoilPhases.Vapour = true → S.phase_usage_.phase_pos BlackoilPhases.Aqua ≠ S.phase_usage_.phase_pos BlackoilPhases.Vapour)
    (hwn : S.phase_usage_.phase_used BlackoilPhases.Aqua = true → S.phase_usage_.phase_pos BlackoilPhases.Aqua < S.phase_usage_.num_phases)
    (hon : S.phase_usage_.phase_pos BlackoilPhases.Liquid < S.phase_usage_.num_phases)
    (hgn : S.phase_usage_.phase_used BlackoilPhases.Vapour = true → S.phase_usage_.phase_pos BlackoilPhases.Vapour < S.phase_usage_.num_phases) :
    (satRange S n cells smin smax).1 (S.phase_usage_.num_phases * i + S.phase_usage_.phase_pos BlackoilPhases.Liquid) =
      (if S.phase_usage_.phase_used BlackoilPhases.Vapour = true ∧ S.phase_usage_.phase_used BlackoilPhases.Aqua = true then
        max 0 (1 - (if S.phase_usage_.phase_used BlackoilPhases.Aqua = true then reportedMax (S.epsTransf (cells i)).wat (S.satfuncAt (S.cellToFunc i))
          (S.phase_usage_.phase_pos BlackoilPhases.Aqua) else 0) - (if S.phase_usage_.phase_used BlackoilPhases.Vapour = true then reportedMax (S.epsTransf (cells i)).gas (S.satfuncAt (S.cellToFunc i))
          (S.phase_usage_.phase_pos BlackoilPhases.Vapour) else 0))
       else 1 - (if S.phase_usage_.phase_used BlackoilPhases.Aqua = true then reportedMax (S.epsTransf (cells i)).wat (S.satfuncAt (S.cellToFunc i))
          (S.phase_usage_.phase_pos BlackoilPhases.Aqua) else 0) - (if S.phase_usage_.phase_used BlackoilPhases.Vapour = true then reportedMax (S.epsTransf (cells i)).gas (S.satfuncAt (S.cellToFunc i))
          (S.phase_usage_.phase_pos BlackoilPhases.Vapour) else 0)) ∧
    (satRange S n cells smin smax).2 (S.phase_usage_.num_phases * i + S.phase_usage_.phase_pos BlackoilPhases.Liquid) =
      1 - (if S.phase_usage_.phase_used BlackoilPhases.Aqua = true then reportedMin (S.epsTransf (cells i)).wat (S.satfuncAt (S.cellToFunc i))
          (S.phase_usage_.phase_pos BlackoilPhases.Aqua) else 0) - (if S.phase_usage_.phase_used BlackoilPhases.Vapour = true then reportedMin (S.epsTransf (cells i)).gas (S.satfuncAt (S.cellToFunc i))
          (S.phase_usage_.phase_pos BlackoilPhases.Vapour) else 0) ∧
    (S.phase_usage_.phase_used BlackoilPhases.Aqua = true →
      (satRange S n cells smin smax).1 (S.phase_usage_.num_phases * i + S.phase_usage_.phase_pos BlackoilPhases.Aqua) = reportedMin (S.epsTransf (cells i)).wat (S.satfuncAt (S.cellToFunc i))
          (S.phase_usage_.phase_pos BlackoilPhases.Aqua) ∧
      (satRange S n cells smin smax).2 (S.phase_usage_.num_phases * i + S.phase_usage_.phase_pos BlackoilPhases.Aqua) = reportedMax (S.epsTransf (cells i)).wat (S.satfuncAt (S.cellToFunc i))
          (S.phase_usage_.phase_pos BlackoilPhases.Aqua)) ∧
    (S.phase_usage_.phase_used BlackoilPhases.Vapour = true →
      (satRange S n cells smin smax).1 (S.phase_usage_.num_phases * i + S.phase_usage_.phase_pos BlackoilPhases.Vapour) = reportedMin (S.epsTransf (cells i)).gas (S.satfuncAt (S.cellToFunc i))
          (S.phase_usage_.phase_pos BlackoilPhases.Vapour) ∧
      (satRange S n cells smin smax).2 (S.phase_usage_.num_phases * i + S.phase_usage_.phase_pos BlackoilPhases.Vapour) = reportedMax (S.epsTransf (cells i)).gas (S.satfuncAt (S.cellToFunc i))
          (S.phase_usage_.phase_pos BlackoilPhases.Vapour)) := by
  obtain ⟨o1, o2⟩ := satRange_slot S n cells smin smax hi (slot_lt_block (i := i) hon)
  obtain ⟨e1, e2, e3, e4⟩ := satRange__eps_slots S (S.satfuncAt (S.cellToFunc i)) i cells
    (satRange S i cells smin smax).1 (satRange S i cells smin smax).2 he hwo hgo hwg
  refine ⟨o1.trans e1, o2.trans e2, ?_, ?_⟩
  · intro hW
    obtain ⟨w1, w2⟩ := satRange_slot S n cells smin smax hi (slot_lt_block (i := i) (hwn hW))
    rw [w1, w2]
    exact e3 hW
  · intro hG
    obtain ⟨g1, g2⟩ := satRange_slot S n cells smin smax hi (slot_lt_block (i := i) (hgn hG))
    rw [g1, g2]
    exact e4 hG

/-- Without endpoint scaling, what `satRange` leaves at batch position `i`: the range
of the table `satfunc_[cell_to_func_[i]]`. -/
lemma satRange_plain_slots (n : Nat) (cells : Nat → Nat) (smin smax : Nat → ℚ)
    (i : Nat) (hi : i < n) (he : S.do_eps_ = false) {p : Nat} (hp : p < S.phase_usage_.num_phases) :
    (satRange S n cells smin smax).1 (S.phase_usage_.num_phases * i + p) = (S.satfuncAt (S.cellToFunc i)).smin_ p ∧
    (satRange S n cells smin smax).2 (S.phase_usage_.num_phases * i + p) = (S.satfuncAt (S.cellToFunc i)).smax_ p := by
  obtain ⟨o1, o2⟩ := satRange_slot S n cells smin smax hi (slot_lt_block (i := i) hp)
  rw [o1, o2]
  exact satRange__plain_slots S (S.satfuncAt (S.cellToFunc i)) i cells _ _ he hp

/-- C14, as stated, fails: one three-phase cell with endpoint scaling whose water
transform `initEPSParam` computed from the table range `[1/4, 3/4]` and a supplied maximum
`SWU = 1/8` alone.  Water is active at position 0 and `satRange` returns
`smin = 1/4 > smax = 1/8` for it. -/
theorem satRange_water_min_above_max :
    lowMaxCell.phase_usage_.phase_used BlackoilPhases.Aqua = true ∧
    lowMaxCell.phase_usage_.phase_pos BlackoilPhases.Aqua = 0 ∧
    (satRange lowMaxCell 1 (fun c => c) zeros zeros).1 0 = 1/4 ∧
    (satRange lowMaxCell 1 (fun c => c) zeros zeros).2 0 = 1/8 ∧
    ¬ ((satRange lowMaxCell 1 (fun c => c) zeros zeros).1 0
        ≤ (satRange lowMaxCell 1 (fun c => c) zeros zeros).2 0) := by
  obtain ⟨-, -, hw, -⟩ := satRange_eps_slots lowMaxCell 1 (fun c => c) zeros zeros 0
    (by decide) rfl (fun _ => by decide) (fun _ => by decide) (fun _ _ => by decide)
    (fun _ => by decide) (by decide) (fun _ => by decide)
  obtain ⟨h1, h2⟩ := hw rfl
  have v1 : (satRange lowMaxCell 1 (fun c => c) zeros zeros).1 0 = 1/4 :=
    h1.trans (by
      norm_num [reportedMin, lowMaxCell, oneScaledCell, threePhase,
        SaturationPropsFromDeck.epsTransf, initEPSParam, initEPSParam_sat, initEPSParam_kr,
        initEPSParam_pc, noSatScaling, vecAt, data0])
  have v2 : (satRange lowMaxCell 1 (fun c => c) zeros zeros).2 0 = 1/8 :=
    h2.trans (by
      norm_num [reportedMax, lowMaxCell, oneScaledCell, threePhase,
        SaturationPropsFromDeck.epsTransf, initEPSParam, initEPSParam_sat, initEPSParam_kr,
        initEPSParam_pc, noSatScaling, vecAt, data0])
  refine ⟨rfl, rfl, v1, v2, ?_⟩
  rw [v1, v2]
  norm_num

/-- C14, amended: at every batch position whose reported water and gas ranges are
ordered (`smin ≤ smax` for the transform of `cells[i]`, or for the table when
`doNotScale`) and, when water and gas are both active, whose reported water and gas
minima sum to at most 1, `satRange` under endpoint scaling returns `smin ≤ smax` for
water, gas and oil; without endpoint scaling it returns `smin ≤ smax` for every phase
position whenever the table it reads has `smin_ ≤ smax_`.  The active phases have
distinct positions below `num_phases`. -/
theorem satRange_min_le_max (n : Nat) (cells : Nat → Nat) (smin smax : Nat → ℚ)
    (i : Nat) (hi : i < n)
    (hwo : S.phase_usage_.phase_used BlackoilPhases.Aqua = true → S.phase_usage_.phase_pos BlackoilPhases.Aqua ≠ S.phase_usage_.phase_pos BlackoilPhases.Liquid)
    (hgo : S.phase_usage_.phase_used BlackoilPhases.Vapour = true → S.phase_usage_.phase_pos BlackoilPhases.Vapour ≠ S.phase_usage_.phase_pos BlackoilPhases.Liquid)
    (hwg : S.phase_usage_.phase_used BlackoilPhases.Aqua = true → S.phase_usage_.phase_used BlackoilPhases.Vapour = true → S.phase_usage_.phase_pos BlackoilPhases.Aqua ≠ S.phase_usage_.phase_pos BlackoilPhases.Vapour)
    (hwn : S.phase_usage_.phase_used BlackoilPhases.Aqua = true → S.phase_usage_.phase_pos BlackoilPhases.Aqua < S.phase_usage_.num_phases)
    (hon : S.phase_usage_.phase_pos BlackoilPhases.Liquid < S.phase_usage_.num_phases)
    (hgn : S.phase_usage_.phase_used BlackoilPhases.Vapour = true → S.phase_usage_.phase_pos BlackoilPhases.Vapour < S.phase_usage_.num_phases)
    (hscaled : S.do_eps_ = true →
      (S.phase_usage_.phase_used BlackoilPhases.Aqua = true → reportedMin (S.epsTransf (cells i)).wat (S.satfuncAt (S.cellToFunc i))
          (S.phase_usage_.phase_pos BlackoilPhases.Aqua) ≤ reportedMax (S.epsTransf (cells i)).wat (S.satfuncAt (S.cellToFunc i))
          (S.phase_usage_.phase_pos BlackoilPhases.Aqua)) ∧
      (S.phase_usage_.phase_used BlackoilPhases.Vapour = true → reportedMin (S.epsTransf (cells i)).gas (S.satfuncAt (S.cellToFunc i))
          (S.phase_usage_.phase_pos BlackoilPhases.Vapour) ≤ reportedMax (S.epsTransf (cells i)).gas (S.satfuncAt (S.cellToFunc i))
          (S.phase_usage_.phase_pos BlackoilPhases.Vapour)) ∧
      (S.phase_usage_.phase_used BlackoilPhases.Vapour = true ∧ S.phase_usage_.phase_used BlackoilPhases.Aqua = true → reportedMin (S.epsTransf (cells i)).wat (S.satfuncAt (S.cellToFunc i))
          (S.phase_usage_.phase_pos BlackoilPhases.Aqua) + reportedMin (S.epsTransf (cells i)).gas (S.satfuncAt (S.cellToFunc i))
          (S.phase_usage_.phase_pos BlackoilPhases.Vapour) ≤ 1))
    (hplain : S.do_eps_ = false → ∀ p, p < S.phase_usage_.num_phases → (S.satfuncAt (S.cellToFunc i)).smin_ p ≤ (S.satfuncAt (S.cellToFunc i)).smax_ p) :
    (S.do_eps_ = true →
      (S.phase_usage_.phase_used BlackoilPhases.Aqua = true → (satRange S n cells smin smax).1 (S.phase_usage_.num_phases * i + S.phase_usage_.phase_pos BlackoilPhases.Aqua) ≤ (satRange S n cells smin smax).2 (S.phase_usage_.num_phases * i + S.phase_usage_.phase_pos BlackoilPhases.Aqua)) ∧
      (S.phase_usage_.phase_used BlackoilPhases.Vapour = true → (satRange S n cells smin smax).1 (S.phase_usage_.num_phases * i + S.phase_usage_.phase_pos BlackoilPhases.Vapour) ≤ (satRange S n cells smin smax).2 (S.phase_usage_.num_phases * i + S.phase_usage_.phase_pos BlackoilPhases.Vapour)) ∧
      (satRange S n cells smin smax).1 (S.phase_usage_.num_phases * i + S.phase_usage_.phase_pos BlackoilPhases.Liquid) ≤ (satRange S n cells smin smax).2 (S.phase_usage_.num_phases * i + S.phase_usage_.phase_pos BlackoilPhases.Liquid)) ∧
    (S.do_eps_ = false → ∀ p, p < S.phase_usage_.num_phases →
      (satRange S n cells smin smax).1 (S.phase_usage_.num_phases * i + p) ≤ (satRange S n cells smin smax).2 (S.phase_usage_.num_phases * i + p)) := by
  constructor
  · intro he
    obtain ⟨o1, o2, hw, hg⟩ := satRange_eps_slots S n cells smin smax i hi he hwo hgo hwg
      hwn hon hgn
    obtain ⟨vw, vg, vs⟩ := hscaled he
    refine ⟨fun hW => ?_, fun hG => ?_, ?_⟩
    · rw [(hw hW).1, (hw hW).2]
      exact vw hW
    · rw [(hg hG).1, (hg hG).2]
      exact vg hG
    · rw [o1, o2]
      by_cases hW : S.phase_usage_.phase_used BlackoilPhases.Aqua = true <;> by_cases hG : S.phase_usage_.phase_used BlackoilPhases.Vapour = true
      · have a1 := vw hW
        have a2 := vg hG
        have a3 := vs ⟨hG, hW⟩
        rw [if_pos ⟨hG, hW⟩, if_pos hW, if_pos hG, if_pos hW, if_pos hG]
        exact max_le (by linarith) (by linarith)
      · have a1 := vw hW
        rw [if_neg (fun h => hG h.1), if_pos hW, if_neg hG, if_pos hW, if_neg hG]
        linarith
      · have a2 := vg hG
        rw [if_neg (fun h => hW h.2), if_neg hW, if_pos hG, if_neg hW, if_pos hG]
        linarith
      · rw [if_neg (fun h => hW h.2), if_neg hW, if_neg hG, if_neg hW, if_neg hG]
  · intro he p hp
    obtain ⟨h1, h2⟩ := satRange_plain_slots S n cells smin smax i hi he hp
    rw [h1, h2]
    exact hplain he p hp

/-- The amended statement of C14 at a three-phase cell with water scaled to
`[1/8, 5/8]` and gas left to the table range `[0, 1/2]`. -/
theorem satRange_min_le_max_witness :
    (satRange oneScaledCell 1 (fun c => c) zeros zeros).1 (oneScaledCell.phase_usage_.num_phases * 0 + oneScaledCell.phase_usage_.phase_pos BlackoilPhases.Aqua) ≤ (satRange oneScaledCell 1 (fun c => c) zeros zeros).2 (oneScaledCell.phase_usage_.num_phases * 0 + oneScaledCell.phase_usage_.phase_pos BlackoilPhases.Aqua) ∧
    (satRange oneScaledCell 1 (fun c => c) zeros zeros).1 (oneScaledCell.phase_usage_.num_phases * 0 + oneScaledCell.phase_usage_.phase_pos BlackoilPhases.Vapour) ≤ (satRange oneScaledCell 1 (fun c => c) zeros zeros).2 (oneScaledCell.phase_usage_.num_phases * 0 + oneScaledCell.phase_usage_.phase_pos BlackoilPhases.Vapour) ∧
    (satRange oneScaledCell 1 (fun c => c) zeros zeros).1 (oneScaledCell.phase_usage_.num_phases * 0 + oneScaledCell.phase_usage_.phase_pos BlackoilPhases.Liquid) ≤ (satRange oneScaledCell 1 (fun c => c) zeros zeros).2 (oneScaledCell.phase_usage_.num_phases * 0 + oneScaledCell.phase_usage_.phase_pos BlackoilPhases.Liquid) :=
  have h := (satRange_min_le_max oneScaledCell 1 (fun c => c) zeros zeros 0
    (by decide) (fun _ => by decide) (fun _ => by decide) (fun _ _ => by decide)
    (fun _ => by decide) (by decide) (fun _ => by decide)
    (fun _ => by
      norm_num [reportedMin, reportedMax, oneScaledCell, threePhase, tableA, data0,
        SaturationPropsFromDeck.epsTransf, SaturationPropsFromDeck.satfuncAt,
        SaturationPropsFromDeck.cellToFunc])
    (fun hf => absurd hf (by decide))).1 rfl
  ⟨h.1 rfl, h.2.1 rfl, h.2.2⟩

/-! ### Shared lemmas: the loops of `relperm` and `capPress` -/

/-- A loop that stores one block per data point and never sets the index of the fluid
state: every block is evaluated with the fluid state the loop starts with. -/
lemma loop_keep_index_slot (np n : Nat) (F : ExplicitArraysFluidState → Nat → Nat → ℚ)
    (fs0 : ExplicitArraysFluidState) (out : Nat → ℚ) {i p : Nat} (hi : i < n) (hp : p < np) :
    ((List.range n).foldl
      (fun (acc : ExplicitArraysFluidState × (Nat → ℚ)) k =>
        (acc.1, writeBlock acc.2 (np * k) np (F acc.1 k)))
      (fs0, out)).2 (np * i + p) = F fs0 i p := by
  have h := foldl_range_invariant
    (fun (acc : ExplicitArraysFluidState × (Nat → ℚ)) k =>
      (acc.1, writeBlock acc.2 (np * k) np (F acc.1 k)))
    (fun k acc => acc.1 = fs0 ∧ ∀ j q, j < k → q < np → acc.2 (np * j + q) = F fs0 j q)
    (fs0, out) ⟨rfl, fun j q hj _ => absurd hj (Nat.not_lt_zero j)⟩
    (fun k acc hacc => by
      refine ⟨hacc.1, fun j q hj hq => ?_⟩
      by_cases hjk : j = k
      · subst hjk
        simp only [hacc.1]
        exact writeBlock_hit _ _ _ _ hq
      · have hlt : j < k := by omega
        simp only []
        rw [writeBlock_below _ _ _ _ (block_index_lt hlt hq)]
        exact hacc.2 j q hlt hq) n
  exact h.2 i p hi hp

/-- A loop that sets the index of the fluid state to the data point before it stores the
block of that point: block `i` is evaluated at index `i`. -/
lemma loop_set_index_slot (np n : Nat) (F : ExplicitArraysFluidState → Nat → Nat → ℚ)
    (s : Nat → ℚ) (idx0 : Nat) (out : Nat → ℚ) {i p : Nat} (hi : i < n) (hp : p < np) :
    ((List.range n).foldl
      (fun (acc : ExplicitArraysFluidState × (Nat → ℚ)) k =>
        (({ acc.1 with arrayIdx := k } : ExplicitArraysFluidState),
          writeBlock acc.2 (np * k) np
            (F ({ acc.1 with arrayIdx := k } : ExplicitArraysFluidState) k)))
      (({ saturations := s, arrayIdx := idx0 } : ExplicitArraysFluidState), out)).2
        (np * i + p)
      = F { saturations := s, arrayIdx := i } i p := by
  have h := foldl_range_invariant
    (fun (acc : ExplicitArraysFluidState × (Nat → ℚ)) k =>
      (({ acc.1 with arrayIdx := k } : ExplicitArraysFluidState),
        writeBlock acc.2 (np * k) np
          (F ({ acc.1 with arrayIdx := k } : ExplicitArraysFluidState) k)))
    (fun k acc => acc.1.saturations = s ∧
      ∀ j q, j < k → q < np → acc.2 (np * j + q) = F { saturations := s, arrayIdx := j } j q)
    (({ saturations := s, arrayIdx := idx0 } : ExplicitArraysFluidState), out)
    ⟨rfl, fun j q hj _ => absurd hj (Nat.not_lt_zero j)⟩
    (fun k acc hacc => by
      refine ⟨hacc.1, fun j q hj hq => ?_⟩
      by_cases hjk : j = k
      · subst hjk
        simp only [hacc.1]
        exact writeBlock_hit _ _ _ _ hq
      · have hlt : j < k := by omega
        simp only []
        rw [writeBlock_below _ _ _ _ (block_index_lt hlt hq)]
        exact hacc.2 j q hlt hq) n
  exact h.2 i p hi hp

/-- The loop with derivatives: it sets the index to the data point and stores the value
block and the derivative block of that point. -/
lemma loop_set_index_deriv_slot (np n : Nat)
    (F : ExplicitArraysFluidState → Nat → (Nat → ℚ) × (Nat → ℚ))
    (s : Nat → ℚ) (idx0 : Nat) (out d : Nat → ℚ) {i : Nat} (hi : i < n) :
    (∀ p, p < np →
      ((List.range n).foldl
        (fun (acc : ExplicitArraysFluidState × (Nat → ℚ) × (Nat → ℚ)) k =>
          (({ acc.1 with arrayIdx := k } : ExplicitArraysFluidState),
            writeBlock acc.2.1 (np * k) np
              (F ({ acc.1 with arrayIdx := k } : ExplicitArraysFluidState) k).1,
            writeBlock acc.2.2 (np * np * k) (np * np)
              (F ({ acc.1 with arrayIdx := k } : ExplicitArraysFluidState) k).2))
        (({ saturations := s, arrayIdx := idx0 } : ExplicitArraysFluidState), out, d)).2.1
          (np * i + p)
        = (F { saturations := s, arrayIdx := i } i).1 p) ∧
    (∀ q, q < np * np →
      ((List.range n).foldl
        (fun (acc : ExplicitArraysFluidState × (Nat → ℚ) × (Nat → ℚ)) k =>
          (({ acc.1 with arrayIdx := k } : ExplicitArraysFluidState),
            writeBlock acc.2.1 (np * k) np
              (F ({ acc.1 with arrayIdx := k } : ExplicitArraysFluidState) k).1,
            writeBlock acc.2.2 (np * np * k) (np * np)
              (F ({ acc.1 with arrayIdx := k } : ExplicitArraysFluidState) k).2))
        (({ saturations := s, arrayIdx := idx0 } : ExplicitArraysFluidState), out, d)).2.2
          (np * np * i + q)
        = (F { saturations := s, arrayIdx := i } i).2 q) := by
  have h := foldl_range_invariant
    (fun (acc : ExplicitArraysFluidState × (Nat → ℚ) × (Nat → ℚ)) k =>
      (({ acc.1 with arrayIdx := k } : ExplicitArraysFluidState),
        writeBlock acc.2.1 (np * k) np
          (F ({ acc.1 with arrayIdx := k } : ExplicitArraysFluidState) k).1,
        writeBlock acc.2.2 (np * np * k) (np * np)
          (F ({ acc.1 with arrayIdx := k } : ExplicitArraysFluidState) k).2))
    (fun k acc => acc.1.saturations = s ∧
      (∀ j q, j < k → q < np →
        acc.2.1 (np * j + q) = (F { saturations := s, arrayIdx := j } j).1 q) ∧
      (∀ j q, j < k → q < np * np →
        acc.2.2 (np * np * j + q) = (F { saturations := s, arrayIdx := j } j).2 q))
    (({ saturations := s, arrayIdx := idx0 } : ExplicitArraysFluidState), out, d)
    ⟨rfl, fun j q hj _ => absurd hj (Nat.not_lt_zero j),
      fun j q hj _ => absurd hj (Nat.not_lt_zero j)⟩
    (fun k acc hacc => by
      refine ⟨hacc.1, fun j q hj hq => ?_, fun j q hj hq => ?_⟩
      · by_cases hjk : j = k
        · subst hjk
          simp only [hacc.1]
          exact writeBlock_hit _ _ _ _ hq
        · have hlt : j < k := by omega
          simp only []
          rw [writeBlock_below _ _ _ _ (block_index_lt hlt hq)]
          exact hacc.2.1 j q hlt hq
      · by_cases hjk : j = k
        · subst hjk
          simp only [hacc.1]
          exact writeBlock_hit _ _ _ _ hq
        · have hlt : j < k := by omega
          simp only []
          rw [writeBlock_below _ _ _ _ (block_index_lt hlt hq)]
          exact hacc.2.2 j q hlt hq) n
  exact ⟨fun p hp => h.2.1 i p hi hp, fun q hq => h.2.2 i q hi hq⟩

/-- The values `relperm` stores without derivatives: every data point is evaluated with
the fluid state as constructed, whose index the loop never sets. -/
lemma relperm_none_slot (arrayIdx0 n : Nat) (s : Nat → ℚ) (cells : Nat → Nat)
    (kr : Nat → ℚ) {i p : Nat} (hi : i < n) (hp : p < S.phase_usage_.num_phases) :
    (relperm C S arrayIdx0 n s cells kr none).1 (S.phase_usage_.num_phases * i + p) =
      relpermPoint C S { saturations := s, arrayIdx := arrayIdx0 } (cells i) p :=
  loop_keep_index_slot S.phase_usage_.num_phases n
    (fun fs k => relpermPoint C S fs (cells k)) { saturations := s, arrayIdx := arrayIdx0 }
    kr hi hp

/-- The values and derivatives `relperm` stores with derivatives: data point `i` is
evaluated at index `i`. -/
lemma relperm_some_slot (arrayIdx0 n : Nat) (s : Nat → ℚ) (cells : Nat → Nat)
    (kr d : Nat → ℚ) {i : Nat} (hi : i < n) :
    (∀ p, p < S.phase_usage_.num_phases →
      (relperm C S arrayIdx0 n s cells kr (some d)).1 (S.phase_usage_.num_phases * i + p) =
        (relpermPointDeriv C S { saturations := s, arrayIdx := i } (cells i)).1 p) ∧
    (∃ d', (relperm C S arrayIdx0 n s cells kr (some d)).2 = some d' ∧
      ∀ q, q < S.phase_usage_.num_phases * S.phase_usage_.num_phases →
        d' (S.phase_usage_.num_phases * S.phase_usage_.num_phases * i + q) =
          (relpermPointDeriv C S { saturations := s, arrayIdx := i } (cells i)).2 q) := by
  obtain ⟨h1, h2⟩ := loop_set_index_deriv_slot S.phase_usage_.num_phases n
    (fun fs k => relpermPointDeriv C S fs (cells k)) s arrayIdx0 kr d hi
  exact ⟨h1, _, rfl, h2⟩

/-- The values `capPress` stores without derivatives: data point `i` is evaluated at
index `i`. -/
lemma capPress_none_slot (arrayIdx0 n : Nat) (s : Nat → ℚ) (cells : Nat → Nat)
    (pc : Nat → ℚ) {i p : Nat} (hi : i < n) (hp : p < S.phase_usage_.num_phases) :
    (capPress C S arrayIdx0 n s cells pc none).1 (S.phase_usage_.num_phases * i + p) =
      capPressPoint C S { saturations := s, arrayIdx := i } (cells i) p :=
  loop_set_index_slot S.phase_usage_.num_phases n
    (fun fs k => capPressPoint C S fs (cells k)) s arrayIdx0 pc hi hp

/-- The values and derivatives `capPress` stores with derivatives: data point `i` is
evaluated at index `i`. -/
lemma capPress_some_slot (arrayIdx0 n : Nat) (s : Nat → ℚ) (cells : Nat → Nat)
    (pc d : Nat → ℚ) {i : Nat} (hi : i < n) :
    (∀ p, p < S.phase_usage_.num_phases →
      (capPress C S arrayIdx0 n s cells pc (some d)).1 (S.phase_usage_.num_phases * i + p) =
        (capPressPointDeriv C S { saturations := s, arrayIdx := i } (cells i)).1 p) ∧
    (∃ d', (capPress C S arrayIdx0 n s cells pc (some d)).2 = some d' ∧
      ∀ q, q < S.phase_usage_.num_phases * S.phase_usage_.num_phases →
        d' (S.phase_usage_.num_phases * S.phase_usage_.num_phases * i + q) =
          (capPressPointDeriv C S { saturations := s, arrayIdx := i } (cells i)).2 q) := by
  obtain ⟨h1, h2⟩ := loop_set_index_deriv_slot S.phase_usage_.num_phases n
    (fun fs k => capPressPointDeriv C S fs (cells k)) s arrayIdx0 pc d hi
  exact ⟨h1, _, rfl, h2⟩

/-! ### Relative permeability and capillary pressure -/

/-- C15 at a failing input: three phases, two data points with saturations
`(1/4, 1/2, 1/4)` and `(1/2, 1/4, 1/4)`, straight-line curves `kr_p = s_p`.  With a
derivative array the water value of data point 1 (slot 3) is `1/2`, evaluated at its own
saturations.  With a null derivative array the loop never sets the index of the fluid
state: from index 0 the same slot holds `1/4`, the value of data point 0, and from any
index the slots of the two data points hold the same value. -/
theorem relperm_null_derivative_ignores_data_point :
    twoPoints 3 = 1/2 ∧
    (relperm straightLines twoRegions 0 2 twoPoints (fun c => c) zeros (some zeros)).1 3
      = 1/2 ∧
    (relperm straightLines twoRegions 0 2 twoPoints (fun c => c) zeros none).1 3 = 1/4 ∧
    (∀ arrayIdx0,
      (relperm straightLines twoRegions arrayIdx0 2 twoPoints (fun c => c) zeros none).1 3 =
      (relperm straightLines twoRegions arrayIdx0 2 twoPoints (fun c => c) zeros none).1 0) := by
  have hn := fun a => relperm_none_slot straightLines twoRegions a 2 twoPoints
    (fun c => c) zeros (i := 1) (p := 0) (by decide) (by decide)
  have hn0 := fun a => relperm_none_slot straightLines twoRegions a 2 twoPoints
    (fun c => c) zeros (i := 0) (p := 0) (by decide) (by decide)
  have hs := (relperm_some_slot straightLines twoRegions 0 2 twoPoints
    (fun c => c) zeros zeros (i := 1) (by decide)).1 0 (by decide)
  refine ⟨by norm_num [twoPoints], ?_, ?_, ?_⟩
  · exact hs.trans (by
      norm_num [relpermPointDeriv, straightLines, twoRegions, twoPoints])
  · exact (hn 0).trans (by
      norm_num [relpermPoint, straightLines, twoRegions, twoPoints])
  · intro a
    exact (hn a).trans ((hn0 a).trans (by
      simp [relpermPoint, straightLines, twoRegions])).symm

/-- C16: `relperm` evaluates each data point `i` with the region table of cell
`cells[i]` in exactly one of three modes: with the drainage transforms, the imbibition
transforms and the history record of `cells[i]` when hysteresis is active; otherwise with
the drainage transforms of `cells[i]` when endpoint scaling is active; otherwise with the
plain table.  This holds for the values stored without derivatives and for the values and
derivatives stored with derivatives. -/
theorem relperm_dispatch (arrayIdx0 n : Nat) (s : Nat → ℚ) (cells : Nat → Nat)
    (kr d : Nat → ℚ) (i p : Nat) (hi : i < n) (hp : p < S.phase_usage_.num_phases) :
    (S.do_hyst_ = true →
      (relperm C S arrayIdx0 n s cells kr none).1 (S.phase_usage_.num_phases * i + p) =
        C.evalKr (S.satfuncAt (S.cellToFunc (cells i)))
          { saturations := s, arrayIdx := arrayIdx0 }
          (EvalMode.hyst (S.epsTransf (cells i)) (S.epsTransfHyst (cells i))
            (S.satHyst (cells i))) p ∧
      (relperm C S arrayIdx0 n s cells kr (some d)).1 (S.phase_usage_.num_phases * i + p) =
        (C.evalKrDeriv (S.satfuncAt (S.cellToFunc (cells i)))
          { saturations := s, arrayIdx := i }
          (EvalMode.hyst (S.epsTransf (cells i)) (S.epsTransfHyst (cells i))
            (S.satHyst (cells i)))).1 p ∧
      ∃ d', (relperm C S arrayIdx0 n s cells kr (some d)).2 = some d' ∧
        ∀ q, q < S.phase_usage_.num_phases * S.phase_usage_.num_phases →
          d' (S.phase_usage_.num_phases * S.phase_usage_.num_phases * i + q) =
            (C.evalKrDeriv (S.satfuncAt (S.cellToFunc (cells i)))
              { saturations := s, arrayIdx := i }
              (EvalMode.hyst (S.epsTransf (cells i)) (S.epsTransfHyst (cells i))
                (S.satHyst (cells i)))).2 q) ∧
    (S.do_hyst_ = false → S.do_eps_ = true →
      (relperm C S arrayIdx0 n s cells kr none).1 (S.phase_usage_.num_phases * i + p) =
        C.evalKr (S.satfuncAt (S.cellToFunc (cells i)))
          { saturations := s, arrayIdx := arrayIdx0 }
          (EvalMode.eps (S.epsTransf (cells i))) p ∧
      (relperm C S arrayIdx0 n s cells kr (some d)).1 (S.phase_usage_.num_phases * i + p) =
        (C.evalKrDeriv (S.satfuncAt (S.cellToFunc (cells i)))
          { saturations := s, arrayIdx := i }
          (EvalMode.eps (S.epsTransf (cells i)))).1 p ∧
      ∃ d', (relperm C S arrayIdx0 n s cells kr (some d)).2 = some d' ∧
        ∀ q, q < S.phase_usage_.num_phases * S.phase_usage_.num_phases →
          d' (S.phase_usage_.num_phases * S.phase_usage_.num_phases * i + q) =
            (C.evalKrDeriv (S.satfuncAt (S.cellToFunc (cells i)))
              { saturations := s, arrayIdx := i }
              (EvalMode.eps (S.epsTransf (cells i)))).2 q) ∧
    (S.do_hyst_ = false → S.do_eps_ = false →
      (relperm C S arrayIdx0 n s cells kr none).1 (S.phase_usage_.num_phases * i + p) =
        C.evalKr (S.satfuncAt (S.cellToFunc (cells i)))
          { saturations := s, arrayIdx := arrayIdx0 } EvalMode.plain p ∧
      (relperm C S arrayIdx0 n s cells kr (some d)).1 (S.phase_usage_.num_phases * i + p) =
        (C.evalKrDeriv (S.satfuncAt (S.cellToFunc (cells i)))
          { saturations := s, arrayIdx := i } EvalMode.plain).1 p ∧
      ∃ d', (relperm C S arrayIdx0 n s cells kr (some d)).2 = some d' ∧
        ∀ q, q < S.phase_usage_.num_phases * S.phase_usage_.num_phases →
          d' (S.phase_usage_.num_phases * S.phase_usage_.num_phases * i + q) =
            (C.evalKrDeriv (S.satfuncAt (S.cellToFunc (cells i)))
              { saturations := s, arrayIdx := i } EvalMode.plain).2 q) := by
  have hn := relperm_none_slot C S arrayIdx0 n s cells kr hi hp
  obtain ⟨hs, d', hd, hq⟩ := relperm_some_slot C S arrayIdx0 n s cells kr d hi
  have hsp := hs p hp
  refine ⟨fun hh => ?_, fun hh he => ?_, fun hh he => ?_⟩
  · simp only [relpermPoint, relpermPointDeriv, hh, if_true] at hn hsp hq
    exact ⟨hn, hsp, d', hd, hq⟩
  · simp only [relpermPoint, relpermPointDeriv, hh, he, Bool.false_eq_true, if_false,
      if_true] at hn hsp hq
    exact ⟨hn, hsp, d', hd, hq⟩
  · simp only [relpermPoint, relpermPointDeriv, hh, he, Bool.false_eq_true, if_false]
      at hn hsp hq
    exact ⟨hn, hsp, d', hd, hq⟩

/-- The statement of C16 at two cells in two regions without endpoint scaling: the oil
value of data point 1 comes from the plain evaluation of the table of cell 1. -/
theorem relperm_dispatch_witness :
    (relperm straightLines twoRegions 0 2 twoPoints (fun c => c) zeros (some zeros)).1
        (twoRegions.phase_usage_.num_phases * 1 + 1) =
      (straightLines.evalKrDeriv (twoRegions.satfuncAt (twoRegions.cellToFunc 1))
        { saturations := twoPoints, arrayIdx := 1 } EvalMode.plain).1 1 :=
  ((relperm_dispatch straightLines twoRegions 0 2 twoPoints (fun c => c) zeros zeros 1 1
    (by decide) (by decide)).2.2 rfl rfl).2.1

/-- C17: `capPress` evaluates every data point `i` at its own saturations (index `i`)
with the drainage transforms of `cells[i]` when endpoint scaling is active and with the
plain region table otherwise, in the path with derivatives and in the path without; its
output is the same whatever the hysteresis switch, the imbibition transforms and the
history records are. -/
theorem capPress_dispatch (arrayIdx0 n : Nat) (s : Nat → ℚ) (cells : Nat → Nat)
    (pc d : Nat → ℚ) (i p : Nat) (hi : i < n) (hp : p < S.phase_usage_.num_phases) :
    (S.do_eps_ = true →
      (capPress C S arrayIdx0 n s cells pc none).1 (S.phase_usage_.num_phases * i + p) =
        C.evalPc (S.satfuncAt (S.cellToFunc (cells i)))
          { saturations := s, arrayIdx := i } (EvalMode.eps (S.epsTransf (cells i))) p ∧
      (capPress C S arrayIdx0 n s cells pc (some d)).1 (S.phase_usage_.num_phases * i + p) =
        (C.evalPcDeriv (S.satfuncAt (S.cellToFunc (cells i)))
          { saturations := s, arrayIdx := i } (EvalMode.eps (S.epsTransf (cells i)))).1 p ∧
      ∃ d', (capPress C S arrayIdx0 n s cells pc (some d)).2 = some d' ∧
        ∀ q, q < S.phase_usage_.num_phases * S.phase_usage_.num_phases →
          d' (S.phase_usage_.num_phases * S.phase_usage_.num_phases * i + q) =
            (C.evalPcDeriv (S.satfuncAt (S.cellToFunc (cells i)))
              { saturations := s, arrayIdx := i }
              (EvalMode.eps (S.epsTransf (cells i)))).2 q) ∧
    (S.do_eps_ = false →
      (capPress C S arrayIdx0 n s cells pc none).1 (S.phase_usage_.num_phases * i + p) =
        C.evalPc (S.satfuncAt (S.cellToFunc (cells i)))
          { saturations := s, arrayIdx := i } EvalMode.plain p ∧
      (capPress C S arrayIdx0 n s cells pc (some d)).1 (S.phase_usage_.num_phases * i + p) =
        (C.evalPcDeriv (S.satfuncAt (S.cellToFunc (cells i)))
          { saturations := s, arrayIdx := i } EvalMode.plain).1 p ∧
      ∃ d', (capPress C S arrayIdx0 n s cells pc (some d)).2 = some d' ∧
        ∀ q, q < S.phase_usage_.num_phases * S.phase_usage_.num_phases →
          d' (S.phase_usage_.num_phases * S.phase_usage_.num_phases * i + q) =
            (C.evalPcDeriv (S.satfuncAt (S.cellToFunc (cells i)))
              { saturations := s, arrayIdx := i } EvalMode.plain).2 q) ∧
    (∀ (hyst : Bool) (imb : List Int) (th : List EPSTransforms) (sh : List SatHyst)
        (dpcds : Option (Nat → ℚ)),
      capPress C
          { S with do_hyst_ := hyst, cell_to_func_imb_ := imb, eps_transf_hyst_ := th,
                   sat_hyst_ := sh }
          arrayIdx0 n s cells pc dpcds
        = capPress C S arrayIdx0 n s cells pc dpcds) := by
  have hn := capPress_none_slot C S arrayIdx0 n s cells pc hi hp
  obtain ⟨hs, d', hd, hq⟩ := capPress_some_slot C S arrayIdx0 n s cells pc d hi
  have hsp := hs p hp
  refine ⟨fun he => ?_, fun he => ?_, fun hyst imb th sh dpcds => rfl⟩
  · simp only [capPressPoint, capPressPointDeriv, he, if_true] at hn hsp hq
    exact ⟨hn, hsp, d', hd, hq⟩
  · simp only [capPressPoint, capPressPointDeriv, he, Bool.false_eq_true, if_false]
      at hn hsp hq
    exact ⟨hn, hsp, d', hd, hq⟩

/-- The statement of C17 at one cell with endpoint scaling: the water value of data
point 1 is evaluated at index 1 with the drainage transforms of the cell. -/
theorem capPress_dispatch_witness :
    (capPress straightLines oneScaledCell 0 2 twoPoints (fun _ => 0) zeros none).1
        (oneScaledCell.phase_usage_.num_phases * 1 + 0) =
      straightLines.evalPc (oneScaledCell.satfuncAt (oneScaledCell.cellToFunc 0))
        { saturations := twoPoints, arrayIdx := 1 }
        (EvalMode.eps (oneScaledCell.epsTransf 0)) 0 :=
  ((capPress_dispatch straightLines oneScaledCell 0 2 twoPoints (fun _ => 0) zeros zeros 1 0
    (by decide) (by decide)).1 rfl).1

/-! ### Calibration of the initial water saturation -/

/-- C18: with the water phase active, `swatInitScaling` returns the saturation as
follows: if `swat ≤ wat.smin` of the cell the result is `wat.smin`; otherwise, if
`pcow < 1e-8`, the result is `wat.smax`; otherwise `swat` is returned unchanged.  In the
two clamping cases no member is modified, so the `pcFactor` of the cell is not. -/
theorem swatInitScaling_clamps (cell : Nat) (pcow swat : ℚ)
    (hW : S.phase_usage_.phase_used BlackoilPhases.Aqua = true) :
    (swat ≤ (S.epsTransf cell).wat.smin →
      swatInitScaling C S cell pcow swat
        = (CallResult.returned, S, (S.epsTransf cell).wat.smin)) ∧
    (¬ swat ≤ (S.epsTransf cell).wat.smin → pcow < 1 / 100000000 →
      swatInitScaling C S cell pcow swat
        = (CallResult.returned, S, (S.epsTransf cell).wat.smax)) ∧
    (¬ swat ≤ (S.epsTransf cell).wat.smin → ¬ pcow < 1 / 100000000 →
      (swatInitScaling C S cell pcow swat).1 = CallResult.returned ∧
      (swatInitScaling C S cell pcow swat).2.2 = swat) := by
  unfold swatInitScaling
  simp only [hW, if_true]
  refine ⟨fun h1 => ?_, fun h1 h2 => ?_, fun h1 h2 => ?_⟩
  · rw [if_pos h1]
  · rw [if_neg h1, if_pos h2]
  · rw [if_neg h1, if_neg h2]
    split_ifs <;> exact ⟨rfl, rfl⟩

/-- The statement of C18 at a cell whose water range is `[1/8, 5/8]`: `swat = 1/16` is
raised to `1/8`, and with `pcow = 0` the saturation `swat = 1/2` becomes `5/8`; the
members are as before the call. -/
theorem swatInitScaling_clamps_witness :
    swatInitScaling straightLines oneScaledCell 0 (1/4) (1/16)
      = (CallResult.returned, oneScaledCell, (oneScaledCell.epsTransf 0).wat.smin) ∧
    swatInitScaling straightLines oneScaledCell 0 0 (1/2)
      = (CallResult.returned, oneScaledCell, (oneScaledCell.epsTransf 0).wat.smax) :=
  ⟨(swatInitScaling_clamps straightLines oneScaledCell 0 (1/4) (1/16) rfl).1
      (by norm_num [SaturationPropsFromDeck.epsTransf, oneScaledCell, data0]),
   (swatInitScaling_clamps straightLines oneScaledCell 0 0 (1/2) rfl).2.1
      (by norm_num [SaturationPropsFromDeck.epsTransf, oneScaledCell, data0])
      (by norm_num)⟩

/-- C19: in the remaining case of `swatInitScaling` (water active, `swat > wat.smin` and
`pcow ≥ 1e-8`, cell index within `eps_transf_`) the water `pcFactor` of the cell is
multiplied once by `pcow/pc`, where `pc` is the water capillary pressure evaluated at
`swat` with the current drainage transforms of the cell, when `pc > 1e-8`, and no member
is changed when `pc ≤ 1e-8`; no other field of the transforms of the cell, no transform
of another cell and no other member is changed. -/
theorem swatInitScaling_rescales_pcFactor (cell : Nat) (pcow swat : ℚ)
    (hW : S.phase_usage_.phase_used BlackoilPhases.Aqua = true)
    (hs : ¬ swat ≤ (S.epsTransf cell).wat.smin)
    (hp : ¬ pcow < 1 / 100000000)
    (hc : cell < S.eps_transf_.length) :
    (S.phase_usage_.phase_pos BlackoilPhases.Aqua < S.phase_usage_.num_phases →
      swatInitPc C S cell swat =
        C.evalPc (S.satfuncAt (S.cellToFunc cell))
          { saturations :=
              Function.update (fun _ => 0) (S.phase_usage_.phase_pos BlackoilPhases.Aqua) swat
            arrayIdx := 0 }
          (EvalMode.eps (S.epsTransf cell))
          (S.phase_usage_.phase_pos BlackoilPhases.Aqua)) ∧
    (1 / 100000000 < swatInitPc C S cell swat →
      (swatInitScaling C S cell pcow swat).2.1.epsTransf cell =
        { (S.epsTransf cell) with
          wat := { (S.epsTransf cell).wat with
            pcFactor :=
              (S.epsTransf cell).wat.pcFactor * (pcow / swatInitPc C S cell swat) } }) ∧
    (¬ 1 / 100000000 < swatInitPc C S cell swat →
      (swatInitScaling C S cell pcow swat).2.1 = S) ∧
    (∀ c, c ≠ cell →
      (swatInitScaling C S cell pcow swat).2.1.epsTransf c = S.epsTransf c) ∧
    (swatInitScaling C S cell pcow swat).2.1.eps_transf_.length = S.eps_transf_.length ∧
    (swatInitScaling C S cell pcow swat).2.1.eps_transf_hyst_ = S.eps_transf_hyst_ ∧
    (swatInitScaling C S cell pcow swat).2.1.sat_hyst_ = S.sat_hyst_ ∧
    (swatInitScaling C S cell pcow swat).2.1.satfunc_ = S.satfunc_ ∧
    (swatInitScaling C S cell pcow swat).2.1.cell_to_func_ = S.cell_to_func_ ∧
    (swatInitScaling C S cell pcow swat).2.1.phase_usage_ = S.phase_usage_ := by
  unfold swatInitScaling
  simp only [hW, if_true, if_neg hs, if_neg hp, gt_iff_lt]
  refine ⟨fun hwn => ?_, fun hpc => ?_, fun hpc => ?_, fun c hne => ?_, ?_⟩
  · unfold swatInitPc
    simp only []
    have h := writeBlock_hit (fun _ => 0) 0 S.phase_usage_.num_phases
      (C.evalPc (S.satfuncAt (S.cellToFunc cell))
        { saturations :=
            Function.update (fun _ => 0) (S.phase_usage_.phase_pos BlackoilPhases.Aqua) swat
          arrayIdx := 0 }
        (EvalMode.eps (S.epsTransf cell))) hwn
    rw [Nat.zero_add] at h
    exact h
  · rw [if_pos hpc]
    simp only [SaturationPropsFromDeck.epsTransf]
    rw [List.getD_eq_getElem?_getD, List.getElem?_set_self hc]
    rfl
  · rw [if_neg hpc]
  · split_ifs
    · simp only [SaturationPropsFromDeck.epsTransf]
      rw [List.getD_eq_getElem?_getD, List.getElem?_set_ne (fun h => hne h.symm),
        ← List.getD_eq_getElem?_getD]
    · rfl
  · split_ifs
    · exact ⟨List.length_set _ _ _, rfl, rfl, rfl, rfl, rfl⟩
    · exact ⟨rfl, rfl, rfl, rfl, rfl, rfl⟩

/-- The statement of C19 at a cell whose water range is `[1/8, 5/8]` and whose water
`pcFactor` is 1: with `swat = 1/2` the curve gives `pc = 1/2`, and `pcow = 1/4` makes the
factor `1 * ((1/4) / (1/2))`. -/
theorem swatInitScaling_rescales_pcFactor_witness :
    swatInitPc straightLines oneScaledCell 0 (1/2) = 1/2 ∧
    (swatInitScaling straightLines oneScaledCell 0 (1/4) (1/2)).2.1.epsTransf 0 =
      { (oneScaledCell.epsTransf 0) with
        wat := { (oneScaledCell.epsTransf 0).wat with
          pcFactor := (oneScaledCell.epsTransf 0).wat.pcFactor
            * ((1/4) / swatInitPc straightLines oneScaledCell 0 (1/2)) } } :=
  have hpc : swatInitPc straightLines oneScaledCell 0 (1/2) = 1/2 := by
    norm_num [swatInitPc, straightLines, writeBlock, oneScaledCell, threePhase,
      Function.update_apply]
  have h := swatInitScaling_rescales_pcFactor straightLines oneScaledCell 0 (1/4) (1/2) rfl
    (by norm_num [SaturationPropsFromDeck.epsTransf, oneScaledCell, data0])
    (by norm_num) (by decide)
  ⟨hpc, h.2.1 (by rw [hpc]; norm_num)⟩

/-- C20: `swatInitScaling` throws when the water phase is inactive, and then neither the
saturation argument nor any member (in particular no transform) is changed. -/
theorem swatInitScaling_no_water_throws (cell : Nat) (pcow swat : ℚ)
    (hW : S.phase_usage_.phase_used BlackoilPhases.Aqua = false) :
    swatInitScaling C S cell pcow swat = (CallResult.threw, S, swat) := by
  unfold swatInitScaling
  simp only [hW, Bool.false_eq_true, if_false]

/-- The statement of C20 at an oil-gas run. -/
theorem swatInitScaling_no_water_throws_witness :
    swatInitScaling straightLines { oneScaledCell with phase_usage_ := oilGas } 0 (1/4) (1/2)
      = (CallResult.threw, { oneScaledCell with phase_usage_ := oilGas }, 1/2) :=
  swatInitScaling_no_water_throws straightLines { oneScaledCell with phase_usage_ := oilGas }
    0 (1/4) (1/2) rfl

/-- What a call of `swatInitScaling` does to the water `pcFactor` of the cell, in every
case, and what it leaves alone. -/
lemma swatInitScaling_pcFactor (cell : Nat) (pcow swat : ℚ) :
    (swatInitScaling C S cell pcow swat).2.1.phase_usage_ = S.phase_usage_ ∧
    (swatInitScaling C S cell pcow swat).2.1.eps_transf_.length = S.eps_transf_.length ∧
    (S.phase_usage_.phase_used BlackoilPhases.Aqua = false ∨
      swat ≤ (S.epsTransf cell).wat.smin ∨ pcow < 1 / 100000000 ∨
      swatInitPc C S cell swat ≤ 1 / 100000000 →
      (swatInitScaling C S cell pcow swat).2.1 = S) ∧
    (S.phase_usage_.phase_used BlackoilPhases.Aqua = true →
      ¬ swat ≤ (S.epsTransf cell).wat.smin → ¬ pcow < 1 / 100000000 →
      1 / 100000000 < swatInitPc C S cell swat → cell < S.eps_transf_.length →
      ((swatInitScaling C S cell pcow swat).2.1.epsTransf cell).wat.pcFactor =
        (S.epsTransf cell).wat.pcFactor * (pcow / swatInitPc C S cell swat)) := by
  unfold swatInitScaling
  by_cases hW : S.phase_usage_.phase_used BlackoilPhases.Aqua = true
  · rw [if_pos hW]
    simp only [gt_iff_lt]
    by_cases h1 : swat ≤ (S.epsTransf cell).wat.smin
    · rw [if_pos h1]
      exact ⟨rfl, rfl, fun _ => rfl, fun _ h => absurd h1 h⟩
    · by_cases h2 : pcow < 1 / 100000000
      · rw [if_neg h1, if_pos h2]
        exact ⟨rfl, rfl, fun _ => rfl, fun _ _ h => absurd h2 h⟩
      · by_cases h3 : 1 / 100000000 < swatInitPc C S cell swat
        · rw [if_neg h1, if_neg h2, if_pos h3]
          refine ⟨rfl, List.length_set _ _ _, fun h => ?_, fun _ _ _ _ hc => ?_⟩
          · rcases h with h | h | h | h
            · rw [hW] at h
              exact absurd h (by decide)
            · exact absurd h h1
            · exact absurd h h2
            · exact absurd h3 (not_lt.mpr h)
          · simp only [SaturationPropsFromDeck.epsTransf]
            rw [List.getD_eq_getElem?_getD, List.getElem?_set_self hc]
            rfl
        · rw [if_neg h1, if_neg h2, if_neg h3]
          exact ⟨rfl, rfl, fun _ => rfl, fun _ _ _ h => absurd h h3⟩
  · have hW' : S.phase_usage_.phase_used BlackoilPhases.Aqua = false := by simpa using hW
    rw [if_neg hW]
    exact ⟨rfl, rfl, fun _ => rfl, fun h => absurd h hW⟩

/-- The first calibration call of the evaluations: `pcow = 1/4`, `swat = 1/2` on
`oneScaledCell` halves the water `pcFactor`. -/
lemma swatInitScaling_oneScaledCell :
    swatInitPc scaledLines oneScaledCell 0 (1/2) = 1/2 ∧
    (swatInitScaling scaledLines oneScaledCell 0 (1/4) (1/2)).2.1 = halvedCell ∧
    swatInitPc scaledLines halvedCell 0 (1/2) = 1/4 := by
  have e0 : (oneScaledCell.epsTransf 0).wat.pcFactor = 1 := by
    norm_num [SaturationPropsFromDeck.epsTransf, oneScaledCell, data0]
  have p1 : swatInitPc scaledLines oneScaledCell 0 (1/2) = 1/2 := by
    norm_num [swatInitPc, scaledLines, straightLines, pcFactorOf, writeBlock, oneScaledCell,
      threePhase, Function.update_apply, SaturationPropsFromDeck.epsTransf, data0]
  have hW : oneScaledCell.phase_usage_.phase_used BlackoilPhases.Aqua = true := rfl
  have h1 : ¬ (1/2 : ℚ) ≤ (oneScaledCell.epsTransf 0).wat.smin := by
    norm_num [SaturationPropsFromDeck.epsTransf, oneScaledCell, data0]
  have h2 : ¬ (1/4 : ℚ) < 1 / 100000000 := by norm_num
  have h3 : (1 / 100000000 : ℚ) < 1/2 := by norm_num
  refine ⟨p1, ?_, ?_⟩
  · unfold swatInitScaling
    simp only [hW, if_true, h1, h2, if_false, gt_iff_lt, p1, h3, e0]
    norm_num [halvedCell, oneScaledCell, SaturationPropsFromDeck.epsTransf, data0]
  · norm_num [swatInitPc, scaledLines, straightLines, pcFactorOf, writeBlock, halvedCell,
      oneScaledCell, threePhase, Function.update_apply, SaturationPropsFromDeck.epsTransf,
      data0]

/-- C21, as stated, fails: a cell whose water range is `[1/8, 5/8]` and whose water
`pcFactor` is 1, with capillary pressure `pc = pcFactor * (1 - s)`.  A first call with
`pcow = 1/4`, `swat = 1/2` rescales `pcFactor` to `1/2`; a second call on the same cell
with `pcow = 1/8`, `swat = 1/2` rescales it again, to `1/4`. -/
theorem swatInitScaling_second_call_rescales_again :
    (oneScaledCell.epsTransf 0).wat.pcFactor = 1 ∧
    ((swatInitScaling scaledLines oneScaledCell 0 (1/4) (1/2)).2.1.epsTransf 0).wat.pcFactor
      = 1/2 ∧
    ((swatInitScaling scaledLines
        (swatInitScaling scaledLines oneScaledCell 0 (1/4) (1/2)).2.1 0 (1/8) (1/2)).2.1.epsTransf
      0).wat.pcFactor = 1/4 ∧
    ((swatInitScaling scaledLines
        (swatInitScaling scaledLines oneScaledCell 0 (1/4) (1/2)).2.1 0 (1/8) (1/2)).2.1.epsTransf
      0).wat.pcFactor ≠
    ((swatInitScaling scaledLines oneScaledCell 0 (1/4) (1/2)).2.1.epsTransf 0).wat.pcFactor := by
  obtain ⟨-, hS1, p2⟩ := swatInitScaling_oneScaledCell
  have e0 : (oneScaledCell.epsTransf 0).wat.pcFactor = 1 := by
    norm_num [SaturationPropsFromDeck.epsTransf, oneScaledCell, data0]
  have e1 : (halvedCell.epsTransf 0).wat.pcFactor = 1/2 := by
    norm_num [SaturationPropsFromDeck.epsTransf, halvedCell, data0]
  obtain ⟨-, -, -, r2⟩ := swatInitScaling_pcFactor scaledLines halvedCell 0 (1/8) (1/2)
  have f2 := r2 rfl
    (by norm_num [SaturationPropsFromDeck.epsTransf, halvedCell, data0])
    (by norm_num) (by rw [p2]; norm_num) (by decide)
  rw [p2, e1] at f2
  rw [hS1, e1, f2]
  refine ⟨e0, rfl, ?_, ?_⟩ <;> norm_num

/-- C21, amended: a call of `swatInitScaling` multiplies the water `pcFactor` of the cell
at most once, and nothing restricts the adjustment to the first call on a cell.  After a
call, a further call on the same cell (water active, cell index within `eps_transf_`)
leaves the `pcFactor` of the cell unchanged when it clamps the saturation
(`swat ≤ wat.smin` or `pcow < 1e-8`) or evaluates `pc ≤ 1e-8`, and otherwise multiplies
it again by `pcow/pc`, `pc` being evaluated with the transforms the earlier call left. -/
theorem swatInitScaling_further_call (cell : Nat) (pcow1 swat1 pcow2 swat2 : ℚ)
    (hW : S.phase_usage_.phase_used BlackoilPhases.Aqua = true)
    (hc : cell < S.eps_transf_.length) :
    (swat2 ≤ ((swatInitScaling C S cell pcow1 swat1).2.1.epsTransf cell).wat.smin ∨
      pcow2 < 1 / 100000000 ∨
      swatInitPc C (swatInitScaling C S cell pcow1 swat1).2.1 cell swat2 ≤ 1 / 100000000 →
      ((swatInitScaling C (swatInitScaling C S cell pcow1 swat1).2.1 cell pcow2 swat2).2.1.epsTransf
          cell).wat.pcFactor =
        ((swatInitScaling C S cell pcow1 swat1).2.1.epsTransf cell).wat.pcFactor) ∧
    (¬ swat2 ≤ ((swatInitScaling C S cell pcow1 swat1).2.1.epsTransf cell).wat.smin →
      ¬ pcow2 < 1 / 100000000 →
      1 / 100000000 < swatInitPc C (swatInitScaling C S cell pcow1 swat1).2.1 cell swat2 →
      ((swatInitScaling C (swatInitScaling C S cell pcow1 swat1).2.1 cell pcow2 swat2).2.1.epsTransf
          cell).wat.pcFactor =
        ((swatInitScaling C S cell pcow1 swat1).2.1.epsTransf cell).wat.pcFactor
          * (pcow2 / swatInitPc C (swatInitScaling C S cell pcow1 swat1).2.1 cell swat2)) := by
  obtain ⟨u1, l1, -, -⟩ := swatInitScaling_pcFactor C S cell pcow1 swat1
  obtain ⟨-, -, k2, r2⟩ := swatInitScaling_pcFactor C (swatInitScaling C S cell pcow1 swat1).2.1 cell pcow2 swat2
  refine ⟨fun h => ?_, fun h1 h2 h3 => ?_⟩
  · rw [k2 (Or.inr h)]
  · exact r2 (by rw [u1]; exact hW) h1 h2 h3 (by rw [l1]; exact hc)

/-- The amended statement of C21 at the calls of the counterexample: the second call
multiplies the factor `1/2` the first call left by `(1/8) / (1/4)`. -/
theorem swatInitScaling_further_call_witness :
    ((swatInitScaling scaledLines (swatInitScaling scaledLines oneScaledCell 0 (1/4) (1/2)).2.1 0 (1/8) (1/2)).2.1.epsTransf
        0).wat.pcFactor =
      ((swatInitScaling scaledLines oneScaledCell 0 (1/4) (1/2)).2.1.epsTransf 0).wat.pcFactor
        * ((1/8) / swatInitPc scaledLines (swatInitScaling scaledLines oneScaledCell 0 (1/4) (1/2)).2.1 0 (1/2)) :=
  (swatInitScaling_further_call scaledLines oneScaledCell 0 (1/4) (1/2) (1/8) (1/2) rfl
    (by decide)).2
    (by
      rw [swatInitScaling_oneScaledCell.2.1]
      norm_num [SaturationPropsFromDeck.epsTransf, halvedCell, data0])
    (by norm_num)
    (by
      rw [swatInitScaling_oneScaledCell.2.1, swatInitScaling_oneScaledCell.2.2]
      norm_num)

/-! ### Hysteresis update -/

/-- C22: when hysteresis is not active `updateSatHyst` is a no-op: for every batch of
cells and saturations, and whatever the per-step update of the table class does, the
members after the call (drainage transforms, imbibition transforms, history records,
region maps and all others) are the members before it. -/
theorem updateSatHyst_inactive_noop
    (U : SatFunc → (Nat → ℚ) → EPSTransforms → EPSTransforms → SatHyst → SatHyst)
    (n : Nat) (cells : Nat → Nat) (s : Nat → ℚ) (hh : S.do_hyst_ = false) :
    updateSatHyst U S n cells s = S := by
  unfold updateSatHyst
  simp only [hh, Bool.false_eq_true, if_false]

/-- The statement of C22 at a cell with endpoint scaling and no hysteresis. -/
theorem updateSatHyst_inactive_noop_witness :
    updateSatHyst (trackExtreme (fun s => s 0)) oneScaledCell 2 (fun _ => 0) twoPoints
      = oneScaledCell :=
  updateSatHyst_inactive_noop oneScaledCell (trackExtreme (fun s => s 0)) 2 (fun _ => 0)
    twoPoints rfl

/-- A call of `updateSatHyst` with the per-step update `trackExtreme` changes nothing but
history records, and lowers the tracked extreme of no cell. -/
lemma updateSatHyst_trackExtreme_le (disp : (Nat → ℚ) → ℚ) (n : Nat) (cells : Nat → Nat)
    (s : Nat → ℚ) :
    (updateSatHyst (trackExtreme disp) S n cells s).do_hyst_ = S.do_hyst_ ∧
    (updateSatHyst (trackExtreme disp) S n cells s).eps_transf_ = S.eps_transf_ ∧
    (updateSatHyst (trackExtreme disp) S n cells s).eps_transf_hyst_ = S.eps_transf_hyst_ ∧
    ∀ c, (S.satHyst c).sat_extreme
      ≤ ((updateSatHyst (trackExtreme disp) S n cells s).satHyst c).sat_extreme := by
  unfold updateSatHyst
  by_cases hh : S.do_hyst_ = true
  · simp only [hh, if_true]
    have h := foldl_range_invariant
      (fun (acc : SaturationPropsFromDeck) i =>
        { acc with
          sat_hyst_ := acc.sat_hyst_.set (cells i)
            (trackExtreme disp (acc.satfuncAt (acc.cellToFunc (cells i)))
              (fun p => s (S.phase_usage_.num_phases * i + p))
              (acc.epsTransf (cells i)) (acc.epsTransfHyst (cells i))
              (acc.satHyst (cells i))) })
      (fun _ acc => acc.do_hyst_ = true ∧ acc.eps_transf_ = S.eps_transf_ ∧
        acc.eps_transf_hyst_ = S.eps_transf_hyst_ ∧
        ∀ c, (S.satHyst c).sat_extreme ≤ (acc.satHyst c).sat_extreme)
      S ⟨hh, rfl, rfl, fun _ => le_refl _⟩
      (fun k acc hacc => by
        refine ⟨hacc.1, hacc.2.1, hacc.2.2.1, fun c => ?_⟩
        refine le_trans (hacc.2.2.2 c) ?_
        simp only [SaturationPropsFromDeck.satHyst]
        rw [List.getD_eq_getElem?_getD, List.getD_eq_getElem?_getD, List.getElem?_set]
        by_cases hc : cells k = c
        · subst hc
          by_cases hl : cells k < acc.sat_hyst_.length
          · simp only [if_true, hl, trackExtreme, Option.getD_some]
            rw [List.getElem?_eq_getElem hl]
            simp [SaturationPropsFromDeck.satHyst, List.getD_eq_getElem?_getD,
              List.getElem?_eq_getElem hl]
          · simp only [if_true, hl, if_false]
            rw [List.getElem?_eq_none (not_lt.mp hl)]
        · simp only [hc, if_false]
          exact le_refl _) n
    exact h
  · have hh' : S.do_hyst_ = false := by simpa using hh
    simp only [hh', Bool.false_eq_true, if_false]
    exact ⟨trivial, trivial, trivial, fun _ => le_refl _⟩

/-- A sequence of calls with one more call at its end. -/
lemma updateSatHystCalls_append
    (U : SatFunc → (Nat → ℚ) → EPSTransforms → EPSTransforms → SatHyst → SatHyst)
    (calls : List (Nat × (Nat → Nat) × (Nat → ℚ))) (call : Nat × (Nat → Nat) × (Nat → ℚ)) :
    updateSatHystCalls U S (calls ++ [call]) =
      updateSatHyst U (updateSatHystCalls U S calls) call.1 call.2.1 call.2.2 := by
  unfold updateSatHystCalls
  rw [List.foldl_append]
  rfl

/-- C23: with hysteresis active and the per-step update of section 4.2 (`trackExtreme`),
a call of `updateSatHyst` leaves hysteresis active and lowers the tracked extreme of no
cell: not a single call from the current members, not the call that ends any sequence of
calls (whatever saturations the calls carry, oscillating ones included), and hence not a
whole sequence. -/
theorem updateSatHyst_extreme_never_decreases (disp : (Nat → ℚ) → ℚ)
    (hh : S.do_hyst_ = true) :
    (∀ (n : Nat) (cells : Nat → Nat) (s : Nat → ℚ),
      (updateSatHyst (trackExtreme disp) S n cells s).do_hyst_ = true) ∧
    (∀ (n : Nat) (cells : Nat → Nat) (s : Nat → ℚ) (c : Nat),
      (S.satHyst c).sat_extreme
        ≤ ((updateSatHyst (trackExtreme disp) S n cells s).satHyst c).sat_extreme) ∧
    (∀ (calls : List (Nat × (Nat → Nat) × (Nat → ℚ)))
        (call : Nat × (Nat → Nat) × (Nat → ℚ)) (c : Nat),
      ((updateSatHystCalls (trackExtreme disp) S calls).satHyst c).sat_extreme
        ≤ ((updateSatHystCalls (trackExtreme disp) S (calls ++ [call])).satHyst
            c).sat_extreme) ∧
    (∀ (calls : List (Nat × (Nat → Nat) × (Nat → ℚ))) (c : Nat),
      (S.satHyst c).sat_extreme
        ≤ ((updateSatHystCalls (trackExtreme disp) S calls).satHyst c).sat_extreme) := by
  refine ⟨fun n cells s => ?_, fun n cells s c => ?_, fun calls call c => ?_,
    fun calls c => ?_⟩
  · rw [(updateSatHyst_trackExtreme_le S disp n cells s).1]
    exact hh
  · exact (updateSatHyst_trackExtreme_le S disp n cells s).2.2.2 c
  · rw [updateSatHystCalls_append]
    exact (updateSatHyst_trackExtreme_le _ disp call.1 call.2.1 call.2.2).2.2.2 c
  · induction calls using List.reverseRecOn with
    | nil => exact le_refl _
    | append_singleton calls call ih =>
      rw [updateSatHystCalls_append]
      exact le_trans ih
        ((updateSatHyst_trackExtreme_le _ disp call.1 call.2.1 call.2.2).2.2.2 c)

/-- The statement of C23 at a cell whose tracked extreme is `1/2`: a call with the
displacing saturation `1/4` and a later call with `3/4` do not lower it. -/
theorem updateSatHyst_extreme_never_decreases_witness :
    (hystCell.satHyst 0).sat_extreme
      ≤ ((updateSatHyst (trackExtreme (fun s => s 0)) hystCell 1 (fun _ => 0)
          (fun _ => 1/4)).satHyst 0).sat_extreme ∧
    ((updateSatHystCalls (trackExtreme (fun s => s 0)) hystCell
        [(1, fun _ => 0, fun _ => 1/4)]).satHyst 0).sat_extreme
      ≤ ((updateSatHystCalls (trackExtreme (fun s => s 0)) hystCell
          ([(1, fun _ => 0, fun _ => 1/4)] ++ [(1, fun _ => 0, fun _ => 3/4)])).satHyst
            0).sat_extreme :=
  have h := updateSatHyst_extreme_never_decreases hystCell (fun s => s 0) rfl
  ⟨h.2.1 1 (fun _ => 0) (fun _ => 1/4) 0,
    h.2.2.1 [(1, fun _ => 0, fun _ => 1/4)] (1, fun _ => 0, fun _ => 3/4) 0⟩

end Evaluator

section Init

theorem satoptsSwitch_ok (xs : List String) (b hs : Bool)
    (h : satoptsSwitch xs b = Except.ok hs) :
    hs = true ↔ (b = true ∨ "HYSTER" ∈ xs) := by
  induction xs generalizing b with
  | nil =>
    simp only [satoptsSwitch, Except.ok.injEq] at h
    subst h
    simp
  | cons x xs ih =>
    unfold satoptsSwitch at h
    by_cases hx : x = "HYSTER"
    · rw [if_pos hx] at h
      have := ih true h
      rw [this]
      simp [hx]
    · rw [if_neg hx] at h
      cases h

theorem initSwitch_ok (D : DeckData) (hs : Bool) (h : initSwitch D = Except.ok hs) :
    hs = true ↔ (D.hasKeyword "SATOPTS" = true ∧ "HYSTER" ∈ D.satopts) := by
  unfold initSwitch at h
  by_cases hk : D.hasKeyword "SATOPTS" = true
  · rw [if_pos hk] at h
    rw [satoptsSwitch_ok _ _ _ h]
    simp [hk]
  · rw [if_neg hk] at h
    simp only [Except.ok.injEq] at h
    subst h
    simp [hk]

theorem initHyst_ok (D : DeckData) (hs dh : Bool) (h : initHyst D hs = Except.ok dh) :
    (dh = true ↔ (hs = true ∧ D.hasKeyword "EHYSTR" = true ∧ D.ehystr_item2 = 0
        ∧ D.ehystr_item5 = "KR" ∧ D.hasKeyword "ENDSCALE" = true))
    ∧ (dh = false → hs = false ∧ D.hasKeyword "EHYSTR" = false) := by
  unfold initHyst at h
  split_ifs at h with h1 h2 h3 h4 h5 h6
  · simp only [Except.ok.injEq] at h
    subst h
    simp only [Bool.and_eq_true] at h1
    simp only [ne_eq, not_not] at h2 h3
    simp only [Bool.not_eq_true, Bool.not_eq_eq_eq_not, Bool.not_true] at h4
    simp [h1.1, h1.2, h2, h3]
    simpa using h4
  · simp only [Except.ok.injEq] at h
    subst h
    simp only [Bool.not_eq_true] at h5 h6
    simp [h5, h6]

theorem initScaling_ok (D : DeckData) (n : Nat) (gc : Option (Nat → Nat))
    (S0 S : SaturationPropsFromDeck) (nt : Int) (dh : Bool)
    (h : initScaling D n gc S0 nt dh = Except.ok S) :
    S.do_hyst_ = dh ∧ S.do_eps_ = D.hasKeyword "ENDSCALE"
      ∧ S.cell_to_func_ = S0.cell_to_func_ ∧ S.satfunc_ = S0.satfunc_
      ∧ S.phase_usage_ = S0.phase_usage_
      ∧ (dh = true → D.hasKeyword "ENDSCALE" = true →
          hystExcludedKeys.any D.hasKeyword = false) := by
  unfold initScaling at h
  simp only at h
  repeat' (split at h)
  all_goals (cases h; try simp_all)

theorem init_ok (D : DeckData) (n : Nat) (gc : Option (Nat → Nat))
    (S : SaturationPropsFromDeck) (h : init D n gc = Except.ok S) :
    ∃ hs nt dh, initSwitch D = Except.ok hs
      ∧ initNumTables D (satfuncsExpected D) = Except.ok nt ∧ 0 ≤ nt
      ∧ initHyst D hs = Except.ok dh
      ∧ initScaling D n gc
          { freshProps D.phase_usage with
            cell_to_func_ := initCellToFunc D n gc
            satfunc_ := (List.range nt.toNat).map D.tables } nt dh = Except.ok S := by
  unfold init at h
  simp only at h
  split_ifs at h with h0
  cases hs : initSwitch D with
  | error e => simp only [hs] at h; cases h
  | ok a =>
    simp only [hs] at h
    cases hn : initNumTables D (satfuncsExpected D) with
    | error e => simp only [hn] at h; cases h
    | ok nt =>
      simp only [hn] at h
      split_ifs at h with h1
      cases hh : initHyst D a with
      | error e => simp only [hh] at h; cases h
      | ok dh =>
        simp only [hh] at h
        exact ⟨a, nt, dh, rfl, rfl, not_lt.mp h1, hh, h⟩

theorem foldl_max_le (v : List Int) (a : Int) :
    a ≤ v.foldl max a ∧ ∀ x ∈ v, x ≤ v.foldl max a := by
  induction v generalizing a with
  | nil => simp
  | cons y ys ih =>
    simp only [List.foldl_cons, List.mem_cons, forall_eq_or_imp]
    have h := ih (max a y)
    exact ⟨le_trans (le_max_left a y) h.1, le_trans (le_max_right a y) h.1, h.2⟩

theorem le_maxElement (v : List Int) (x : Int) (hx : x ∈ v) : x ≤ maxElement v :=
  (foldl_max_le v (v.headD 0)).2 x hx

theorem initNumTables_ok (D : DeckData) (e nt : Int)
    (h : initNumTables D e = Except.ok nt) (h0 : 0 ≤ nt) : e ≤ nt := by
  unfold initNumTables at h
  simp only at h
  repeat' (split at h)
  all_goals (cases h; try omega)

theorem init_members (D : DeckData) (n : Nat) (gc : Option (Nat → Nat))
    (S : SaturationPropsFromDeck) (h : init D n gc = Except.ok S) :
    S.cell_to_func_ = initCellToFunc D n gc
      ∧ satfuncsExpected D ≤ (S.satfunc_.length : Int)
      ∧ S.do_eps_ = D.hasKeyword "ENDSCALE"
      ∧ (S.do_hyst_ = true ↔
          ((D.hasKeyword "SATOPTS" = true ∧ "HYSTER" ∈ D.satopts)
            ∧ (D.hasKeyword "EHYSTR" = true ∧ D.ehystr_item2 = 0 ∧ D.ehystr_item5 = "KR")
            ∧ D.hasKeyword "ENDSCALE" = true))
      ∧ (S.do_hyst_ = false →
          ¬ (D.hasKeyword "SATOPTS" = true ∧ "HYSTER" ∈ D.satopts)
            ∧ D.hasKeyword "EHYSTR" = false)
      ∧ (S.do_hyst_ = true → hystExcludedKeys.any D.hasKeyword = false) := by
  obtain ⟨hs, nt, dh, h1, h2, h3, h4, h5⟩ := init_ok D n gc S h
  obtain ⟨k1, k2, k3, k4, _, k6⟩ := initScaling_ok D n gc _ S nt dh h5
  have hsw := initSwitch_ok D hs h1
  have hhy := initHyst_ok D hs dh h4
  refine ⟨k3, ?_, k2, ?_, ?_, ?_⟩
  · rw [k4]
    simp only [List.length_map, List.length_range]
    rw [Int.toNat_of_nonneg h3]
    exact initNumTables_ok D _ nt h2 h3
  · rw [k1, hhy.1, hsw]
    tauto
  · intro hd
    rw [k1] at hd
    have := hhy.2 hd
    rw [← hsw]
    simp [this.1, this.2]
  · intro hd
    rw [k1] at hd
    exact k6 hd (hhy.1.mp hd).2.2.2.2

/-- C24: after a successful `init`, hysteresis is active exactly when the switch `HYSTER`
of `SATOPTS` is set, `EHYSTR` is present with item 2 equal to 0 and item 5 equal to `KR`,
and `ENDSCALE` is present; endpoint scaling is active exactly when `ENDSCALE` is present,
so hysteresis active implies endpoint scaling active. -/
theorem init_hysteresis_active_iff (D : DeckData) (n : Nat) (gc : Option (Nat → Nat))
    (S : SaturationPropsFromDeck) (h : init D n gc = Except.ok S) :
    (S.do_hyst_ = true ↔
        ((D.hasKeyword "SATOPTS" = true ∧ "HYSTER" ∈ D.satopts)
          ∧ (D.hasKeyword "EHYSTR" = true ∧ D.ehystr_item2 = 0 ∧ D.ehystr_item5 = "KR")
          ∧ D.hasKeyword "ENDSCALE" = true))
      ∧ S.do_eps_ = D.hasKeyword "ENDSCALE"
      ∧ (S.do_hyst_ = true → S.do_eps_ = true) := by
  obtain ⟨_, _, k3, k4, _, _⟩ := init_members D n gc S h
  refine ⟨k4, k3, fun hd => ?_⟩
  rw [k3]
  exact (k4.mp hd).2.2

/-- Witness of C24: `init` succeeds on the deck `hystDeck` with one cell, with hysteresis
and endpoint scaling active, and on `endscaleDeck` with endpoint scaling alone. -/
theorem init_hysteresis_active_iff_witness :
    (∃ S, init hystDeck 1 none = Except.ok S ∧ S.do_hyst_ = true ∧ S.do_eps_ = true)
      ∧ (∃ S, init endscaleDeck 1 none = Except.ok S ∧ ¬ S.do_hyst_ = true
          ∧ S.do_eps_ = true) := by
  refine ⟨⟨_, rfl, ?_⟩, ⟨_, rfl, ?_⟩⟩
  · have h := init_hysteresis_active_iff hystDeck 1 none _ rfl
    have hd := h.1.mpr ⟨⟨rfl, by decide⟩, ⟨rfl, rfl, rfl⟩, rfl⟩
    exact ⟨hd, h.2.2 hd⟩
  · have h := init_hysteresis_active_iff endscaleDeck 1 none _ rfl
    refine ⟨fun hd => ?_, h.2.1⟩
    have := (h.1.mp hd).1.1
    revert this
    decide

/-- Counterexample to C25: the deck `endscaleDeck` has `ENDSCALE` without the switch
`HYSTER` and without `EHYSTR`, and `init` succeeds on it, with endpoint scaling active and
hysteresis inactive. -/
theorem init_accepts_endscale_alone :
    endscaleDeck.hasKeyword "ENDSCALE" = true
      ∧ endscaleDeck.hasKeyword "SATOPTS" = false
      ∧ endscaleDeck.hasKeyword "EHYSTR" = false
      ∧ ∃ S, init endscaleDeck 1 none = Except.ok S ∧ S.do_eps_ = true
          ∧ S.do_hyst_ = false :=
  ⟨rfl, rfl, rfl, _, rfl, rfl, rfl⟩

/-- C25 (amended): `init` fails whenever the switch `HYSTER` of `SATOPTS` or the keyword
`EHYSTR` is present without all three of the switch, `EHYSTR` and `ENDSCALE` being
present. -/
theorem init_fails_on_partial_hysteresis (D : DeckData) (n : Nat) (gc : Option (Nat → Nat))
    (h1 : (D.hasKeyword "SATOPTS" = true ∧ "HYSTER" ∈ D.satopts)
      ∨ D.hasKeyword "EHYSTR" = true)
    (h2 : ¬ ((D.hasKeyword "SATOPTS" = true ∧ "HYSTER" ∈ D.satopts)
      ∧ D.hasKeyword "EHYSTR" = true ∧ D.hasKeyword "ENDSCALE" = true)) :
    ∃ e, init D n gc = Except.error e := by
  cases hi : init D n gc with
  | error e => exact ⟨e, rfl⟩
  | ok S =>
    exfalso
    obtain ⟨_, _, _, k4, k5, _⟩ := init_members D n gc S hi
    cases hd : S.do_hyst_ with
    | true =>
      have := k4.mp hd
      exact h2 ⟨this.1, this.2.1.1, this.2.2⟩
    | false =>
      have := k5 hd
      rcases h1 with h1 | h1
      · exact this.1 h1
      · rw [this.2] at h1
        cases h1

/-- Witness of C25 (amended): `init` fails on the deck `hysterDeck`, which has the switch
`HYSTER` alone, and on `hystDeck` with the keyword `ENDSCALE` removed. -/
theorem init_fails_on_partial_hysteresis_witness :
    (∃ e, init hysterDeck 1 none = Except.error e)
      ∧ (∃ e, init { hystDeck with keywords := ["SATOPTS", "EHYSTR"] } 1 none
          = Except.error e) :=
  ⟨init_fails_on_partial_hysteresis hysterDeck 1 none (Or.inl ⟨rfl, by decide⟩)
      (fun h => by revert h; decide),
    init_fails_on_partial_hysteresis _ 1 none (Or.inr rfl)
      (fun h => by revert h; decide)⟩

/-- C26: `init` with hysteresis active fails when one of the keys `KRW`, `KRG`, `KRO`,
`KRWR`, `KRGR`, `KRORW`, `KRORG`, `IKRG`, `IKRO`, `IKRWR`, `IKRGR`, `IKRORW`, `IKRORG` is
present (a successful `init` with such a key has hysteresis inactive), but `IKRW` is not
among the keys tested: on the deck `ikrwDeck`, which has `IKRW` equal to `1/2`, `init`
succeeds with hysteresis active and the imbibition water transform scaling the maximum
relative permeability to `1/2`. -/
theorem init_hysteresis_accepts_IKRW :
    (∀ (D : DeckData) (n : Nat) (gc : Option (Nat → Nat)) (S : SaturationPropsFromDeck)
        (k : String),
        k ∈ ["KRW", "KRG", "KRO", "KRWR", "KRGR", "KRORW", "KRORG",
             "IKRG", "IKRO", "IKRWR", "IKRGR", "IKRORW", "IKRORG"] →
        D.hasKeyword k = true → init D n gc = Except.ok S → S.do_hyst_ = false)
      ∧ "IKRW" ∉ hystExcludedKeys
      ∧ ikrwDeck.hasKeyword "IKRW" = true
      ∧ ∃ S, init ikrwDeck 1 none = Except.ok S ∧ S.do_hyst_ = true
          ∧ (S.epsTransfHyst 0).wat.doKrMax = true
          ∧ (S.epsTransfHyst 0).wat.krmax = 1 / 2 := by
  refine ⟨?_, by decide, rfl, _, rfl, rfl, ?_, ?_⟩
  · intro D n gc S k hk hp hi
    obtain ⟨_, _, _, _, _, k6⟩ := init_members D n gc S hi
    cases hd : S.do_hyst_ with
    | false => rfl
    | true =>
      exfalso
      have hany := k6 hd
      rw [List.any_eq_false] at hany
      have hmem : k ∈ hystExcludedKeys := by
        revert hk
        simp only [hystExcludedKeys, List.mem_cons, List.mem_singleton, List.not_mem_nil,
          or_false]
        tauto
      exact hany k hmem hp
  · show (initEPSParam false 0 data0 false (1/4) (1/4) (3/4) (1/4) 0 (3/4) 1 0
        [] [] [] [] [] [] [1/2] []).doKrMax = true
    norm_num [initEPSParam, initEPSParam_sat, initEPSParam_kr, initEPSParam_pc,
      noSatScaling, vecAt, data0, tab_s_r, tab_s_max]
  · show (initEPSParam false 0 data0 false (1/4) (1/4) (3/4) (1/4) 0 (3/4) 1 0
        [] [] [] [] [] [] [1/2] []).krmax = 1 / 2
    norm_num [initEPSParam, initEPSParam_sat, initEPSParam_kr, initEPSParam_pc,
      noSatScaling, vecAt, data0, tab_s_r, tab_s_max]

/-- Counterexample to C27: on the deck `zeroSatnumDeck`, whose `SATNUM` is 0 in cell 0,
`init` succeeds with one table and leaves `cell_to_func_[0] = -1`, which is not a valid
index. -/
theorem init_accepts_region_zero :
    ∃ S, init zeroSatnumDeck 2 none = Except.ok S ∧ S.satfunc_.length = 1
      ∧ S.cellToFunc 0 = -1 ∧ ¬ (0 ≤ S.cellToFunc 0) :=
  ⟨_, rfl, rfl, rfl, by decide⟩

/-- C27 (amended): after a successful `init` the vector `cell_to_func_` has one entry for
each cell and, for every cell whose deck position lies within `SATNUM`, the region index
`cell_to_func_[cell]` is below the number of tables; it is at least 0 when every entry of
`SATNUM` is at least 1. -/
theorem init_region_index_bounds (D : DeckData) (n : Nat) (gc : Option (Nat → Nat))
    (S : SaturationPropsFromDeck) (h : init D n gc = Except.ok S) (cell : Nat)
    (hc : cell < n)
    (hpos : D.hasKeyword "SATNUM" = true → deckPos gc cell < D.satnum.length) :
    S.cell_to_func_.length = n
      ∧ S.cellToFunc cell < (S.satfunc_.length : Int)
      ∧ ((∀ x ∈ D.satnum, 1 ≤ x) → 0 ≤ S.cellToFunc cell) := by
  obtain ⟨k1, k2, _, _, _, _⟩ := init_members D n gc S h
  unfold SaturationPropsFromDeck.cellToFunc
  rw [k1]
  unfold satfuncsExpected at k2
  unfold initCellToFunc
  by_cases hk : D.hasKeyword "SATNUM" = true
  · rw [if_pos hk] at k2 ⊢
    have hp := hpos hk
    have hget : ((List.range n).map
        (fun cell => D.satnum.getD (deckPos gc cell) 0 - 1)).getD cell 0
        = D.satnum.getD (deckPos gc cell) 0 - 1 := by
      rw [List.getD_eq_getElem?_getD, List.getElem?_map,
        List.getElem?_range hc]
      rfl
    have hmem : D.satnum.getD (deckPos gc cell) 0 ∈ D.satnum := by
      rw [List.getD_eq_getElem?_getD, List.getElem?_eq_getElem hp]
      exact List.getElem_mem _
    rw [hget]
    refine ⟨by simp, ?_, fun hall => ?_⟩
    · have := le_maxElement D.satnum _ hmem
      omega
    · have := hall _ hmem
      omega
  · rw [if_neg hk] at k2 ⊢
    have hget : (List.replicate n (0 : Int)).getD cell 0 = 0 := by
      rw [List.getD_eq_getElem?_getD]
      simp [List.getElem?_replicate, hc]
    rw [hget]
    refine ⟨by simp, ?_, fun _ => le_refl _⟩
    omega

/-- Witness of C27 (amended): on the deck `twoRegionDeck` (`SATNUM` 1 and 2, two tables)
`init` succeeds and cell 1 gets the region index 1, within `[0, 2)`. -/
theorem init_region_index_bounds_witness :
    ∃ S, init twoRegionDeck 2 none = Except.ok S
      ∧ S.cell_to_func_.length = 2
      ∧ S.cellToFunc 1 < (S.satfunc_.length : Int)
      ∧ 0 ≤ S.cellToFunc 1 :=
  ⟨_, rfl,
    (init_region_index_bounds twoRegionDeck 2 none _ rfl 1 (by decide)
      (fun _ => by decide)).1,
    (init_region_index_bounds twoRegionDeck 2 none _ rfl 1 (by decide)
      (fun _ => by decide)).2.1,
    (init_region_index_bounds twoRegionDeck 2 none _ rfl 1 (by decide)
      (fun _ => by decide)).2.2 (by decide)⟩

theorem resizeVec_length {α : Type} (v : List α) (n : Nat) (d : α) :
    (resizeVec v n d).length = n := by
  unfold resizeVec
  simp only [List.length_append, List.length_take, List.length_replicate]
  omega

theorem foldl_set_spec {α : Type} (f : Nat → α → α) (d : α) (n : Nat) (l : List α) :
    ((List.range n).foldl (fun (l : List α) i => l.set i (f i (l.getD i d))) l).length
        = l.length
      ∧ ∀ j, j < l.length →
          ((List.range n).foldl (fun (l : List α) i => l.set i (f i (l.getD i d))) l).getD j d
            = if j < n then f j (l.getD j d) else l.getD j d := by
  induction n with
  | zero => exact ⟨rfl, fun j _ => by simp⟩
  | succ k ih =>
    obtain ⟨i1, i2⟩ := ih
    rw [List.range_succ, List.foldl_append]
    simp only [List.foldl_cons, List.foldl_nil]
    refine ⟨by rw [List.length_set, i1], fun j hj => ?_⟩
    by_cases hk : j = k
    · subst hk
      rw [List.getD_eq_getElem?_getD, List.getElem?_set_self (by rw [i1]; exact hj)]
      rw [i2 j hj]
      simp
    · rw [List.getD_eq_getElem?_getD, List.getElem?_set_ne (fun h => hk h.symm),
        ← List.getD_eq_getElem?_getD, i2 j hj]
      by_cases hlt : j < k
      · have : j < k + 1 := by omega
        rw [if_pos hlt, if_pos this]
      · have : ¬ j < k + 1 := by omega
        rw [if_neg hlt, if_neg this]

theorem initEPS_length (S : SaturationPropsFromDeck) (n : Nat) (eps_vec : List (List ℚ))
    (eps_transf : List EPSTransforms) :
    (initEPS S n eps_vec eps_transf).length = eps_transf.length :=
  (foldl_set_spec (initEPSCell S eps_vec) epsTransforms0 n eps_transf).1

theorem initEPS_cell (S : SaturationPropsFromDeck) (n : Nat) (eps_vec : List (List ℚ))
    (eps_transf : List EPSTransforms) (cell : Nat) (hc : cell < n)
    (hl : cell < eps_transf.length) :
    (initEPS S n eps_vec eps_transf).getD cell epsTransforms0
      = initEPSCell S eps_vec cell (eps_transf.getD cell epsTransforms0) := by
  have h := (foldl_set_spec (initEPSCell S eps_vec) epsTransforms0 n eps_transf).2 cell hl
  rw [if_pos hc] at h
  exact h

theorem initScaling_eps_length (D : DeckData) (n : Nat) (gc : Option (Nat → Nat))
    (S0 S : SaturationPropsFromDeck) (nt : Int) (dh : Bool)
    (h : initScaling D n gc S0 nt dh = Except.ok S) :
    S.eps_transf_.length = if D.hasKeyword "ENDSCALE" = true then n else S0.eps_transf_.length := by
  unfold initScaling at h
  simp only at h
  repeat' (split at h)
  all_goals (cases h; try simp_all [initEPS_length, resizeVec_length])

theorem init_eps_length (D : DeckData) (n : Nat) (gc : Option (Nat → Nat))
    (S : SaturationPropsFromDeck) (h : init D n gc = Except.ok S) :
    S.eps_transf_.length = if D.hasKeyword "ENDSCALE" = true then n else 0 := by
  obtain ⟨hs, nt, dh, -, -, -, -, h5⟩ := init_ok D n gc S h
  rw [initScaling_eps_length D n gc _ S nt dh h5]
  rfl

theorem initEPSParam_oil_smax (do_3pt_ : Bool) (cell : Nat) (data : Transform)
    (sl_tab scr_tab su_tab sxcr_tab s0_tab krsr_tab krmax_tab pcmax_tab : ℚ)
    (sl scr su sxcr s0 krsr krmax pcmax : List ℚ) (h0 : 0 ≤ s0_tab) :
    (initEPSParam do_3pt_ cell data true sl_tab scr_tab su_tab sxcr_tab s0_tab krsr_tab
        krmax_tab pcmax_tab sl scr su sxcr s0 krsr krmax pcmax).smax
      = 1 - orTab su cell su_tab - orTab s0 cell s0_tab := by
  obtain ⟨-, -, -, -, e5, -, -⟩ := initEPSParam_sat_fields do_3pt_ cell data true sl_tab
    scr_tab su_tab sxcr_tab s0_tab krsr_tab krmax_tab pcmax_tab sl scr su sxcr s0 krsr krmax
    pcmax
  rw [e5]
  have hneg : ¬ s0_tab < 0 := not_lt.mpr h0
  cases hn : noSatScaling do_3pt_ scr su sxcr s0 with
  | true =>
    rw [initEPSParam_sat_unscaled do_3pt_ cell data true sl_tab scr_tab su_tab sxcr_tab
      s0_tab sl scr su sxcr s0 hn]
    have hsu : su.isEmpty = true := by
      unfold noSatScaling at hn
      simp only [Bool.and_eq_true] at hn
      exact hn.1.1.2
    have hs0 : s0.isEmpty = true := by
      unfold noSatScaling at hn
      simp only [Bool.and_eq_true] at hn
      exact hn.2
    simp only [tab_s_max, orTab, hsu, hs0, if_true, if_neg hneg]
  | false =>
    obtain ⟨-, -, -, f4, -, -, -⟩ := initEPSParam_sat_scaled do_3pt_ cell data true sl_tab
      scr_tab su_tab sxcr_tab s0_tab sl scr su sxcr s0 hn
    rw [f4]
    simp only [if_true, if_neg hneg]

/-- C34: the vector `eps_transf_` that `swatInitScaling` indexes is resized only in the
`ENDSCALE` branch of `init`: after a successful `init` it has `number_of_cells` entries
when `ENDSCALE` is present and none otherwise.  On the deck `plainDeck` (water active, no
`ENDSCALE`) with one cell, `init` succeeds with `eps_transf_` empty, so that
`eps_transf_[0]`, which `swatInitScaling` reads for cell 0, is out of range. -/
theorem init_without_endscale_leaves_eps_transf_empty :
    (∀ (D : DeckData) (n : Nat) (gc : Option (Nat → Nat)) (S : SaturationPropsFromDeck),
        init D n gc = Except.ok S →
          S.eps_transf_.length = if D.hasKeyword "ENDSCALE" = true then n else 0)
      ∧ plainDeck.hasKeyword "ENDSCALE" = false
      ∧ ∃ S, init plainDeck 1 none = Except.ok S
          ∧ S.phase_usage_.phase_used BlackoilPhases.Aqua = true
          ∧ S.do_eps_ = false
          ∧ S.eps_transf_.length = 0
          ∧ S.eps_transf_[0]? = none :=
  ⟨init_eps_length, rfl, _, rfl, rfl, rfl, rfl, rfl⟩

/-- C35: the capillary pressure factor `initEPSParam` produces is never negative; it is 1
when `pcmax_tab = 0` and no `pcmax` array is supplied; and in the transforms `initEPS`
leaves for a cell the factor of the water-oil family (water and oil active) and of the
gas-oil family (gas and oil active) is 1. -/
theorem initEPSParam_pcFactor_nonneg :
    (∀ (do_3pt_ : Bool) (cell : Nat) (data : Transform) (oil : Bool)
        (sl_tab scr_tab su_tab sxcr_tab s0_tab krsr_tab krmax_tab pcmax_tab : ℚ)
        (sl scr su sxcr s0 krsr krmax pcmax : List ℚ),
        0 ≤ (initEPSParam do_3pt_ cell data oil sl_tab scr_tab su_tab sxcr_tab s0_tab
          krsr_tab krmax_tab pcmax_tab sl scr su sxcr s0 krsr krmax pcmax).pcFactor)
      ∧ (∀ (do_3pt_ : Bool) (cell : Nat) (data : Transform) (oil : Bool)
          (sl_tab scr_tab su_tab sxcr_tab s0_tab krsr_tab krmax_tab : ℚ)
          (sl scr su sxcr s0 krsr krmax : List ℚ),
          (initEPSParam do_3pt_ cell data oil sl_tab scr_tab su_tab sxcr_tab s0_tab
            krsr_tab krmax_tab 0 sl scr su sxcr s0 krsr krmax []).pcFactor = 1)
      ∧ (∀ (S : SaturationPropsFromDeck) (n : Nat) (eps_vec : List (List ℚ))
          (eps_transf : List EPSTransforms) (cell : Nat),
          cell < n → cell < eps_transf.length →
          S.phase_usage_.phase_used BlackoilPhases.Liquid = true →
          (S.phase_usage_.phase_used BlackoilPhases.Aqua = true →
            ((initEPS S n eps_vec eps_transf).getD cell epsTransforms0).watoil.pcFactor = 1)
          ∧ (S.phase_usage_.phase_used BlackoilPhases.Vapour = true →
            ((initEPS S n eps_vec eps_transf).getD cell epsTransforms0).gasoil.pcFactor
              = 1)) := by
  have h2 : ∀ (do_3pt_ : Bool) (cell : Nat) (data : Transform) (oil : Bool)
      (sl_tab scr_tab su_tab sxcr_tab s0_tab krsr_tab krmax_tab : ℚ)
      (sl scr su sxcr s0 krsr krmax : List ℚ),
      (initEPSParam do_3pt_ cell data oil sl_tab scr_tab su_tab sxcr_tab s0_tab
        krsr_tab krmax_tab 0 sl scr su sxcr s0 krsr krmax []).pcFactor = 1 := by
    intros
    rw [initEPSParam_pcFactor_closed]
    exact if_pos (Or.inr (Or.inl rfl))
  refine ⟨?_, h2, ?_⟩
  · intros do_3pt_ cell data oil sl_tab scr_tab su_tab sxcr_tab s0_tab krsr_tab krmax_tab
      pcmax_tab sl scr su sxcr s0 krsr krmax pcmax
    rw [initEPSParam_pcFactor_closed]
    split_ifs with h
    · norm_num
    · simp only [not_or, not_lt] at h
      obtain ⟨-, -, h3⟩ := h
      rcases le_or_lt 0 pcmax_tab with hp | hp
      · rcases eq_or_lt_of_le hp with hz | hpos
        · rw [← hz, div_zero]
        · exact div_nonneg (nonneg_of_mul_nonneg_right h3 hpos) hp
      · have : vecAt pcmax cell ≤ 0 := by
          by_contra hv
          have hv2 : 0 < vecAt pcmax cell := not_le.mp hv
          have := mul_neg_of_neg_of_pos hp hv2
          linarith
        exact div_nonneg_of_nonpos this (le_of_lt hp)
  · intro S n eps_vec eps_transf cell hc hl hL
    rw [initEPS_cell S n eps_vec eps_transf cell hc hl]
    unfold initEPSCell
    constructor
    · intro hA
      cases hV : S.phase_usage_.phase_used BlackoilPhases.Vapour <;>
        simp only [hA, hL, hV, Bool.not_true, Bool.not_false, Bool.and_false, Bool.and_true,
          Bool.or_false, Bool.or_true, Bool.false_eq_true, if_true, if_false, Bool.false_and,
          Bool.and_self, Bool.or_self] <;>
        exact h2 _ _ _ _ _ _ _ _ _ _ _ _ _ _ _ _ _ _
    · intro hV
      cases hA : S.phase_usage_.phase_used BlackoilPhases.Aqua <;>
        simp only [hA, hL, hV, Bool.not_true, Bool.not_false, Bool.and_false, Bool.and_true,
          Bool.or_false, Bool.or_true, Bool.false_eq_true, if_true, if_false, Bool.false_and,
          Bool.and_self, Bool.or_self] <;>
        exact h2 _ _ _ _ _ _ _ _ _ _ _ _ _ _ _ _ _ _

/-- The statement of C35 at a water curve with `pcmax_tab = 4` and `pcmax = 2`, and at
the oil families of a three-phase cell. -/
theorem initEPSParam_pcFactor_nonneg_witness :
    0 ≤ (initEPSParam false 0 data0 false (1/8) (1/4) (7/8) (3/4) (-1) (3/4) 1 4
        [] [] [] [] [] [] [7/8] [2]).pcFactor
      ∧ ((initEPS oneScaledCell 1 swlOnly [epsTransforms0]).getD 0
          epsTransforms0).watoil.pcFactor = 1
      ∧ ((initEPS oneScaledCell 1 swlOnly [epsTransforms0]).getD 0
          epsTransforms0).gasoil.pcFactor = 1 :=
  ⟨initEPSParam_pcFactor_nonneg.1 false 0 data0 false (1/8) (1/4) (7/8) (3/4) (-1) (3/4) 1 4
      [] [] [] [] [] [] [7/8] [2],
    (initEPSParam_pcFactor_nonneg.2.2 oneScaledCell 1 swlOnly [epsTransforms0] 0
      (by decide) (by decide) rfl).1 rfl,
    (initEPSParam_pcFactor_nonneg.2.2 oneScaledCell 1 swlOnly [epsTransforms0] 0
      (by decide) (by decide) rfl).2 rfl⟩

/-- C37: in a three-phase system, for a cell whose table minima of water and gas are not
negative, `initEPS` leaves the same oil maximum in the water-oil and the gas-oil
transform: `1 - (SWL[cell] or the table water minimum) - (SGL[cell] or the table gas
minimum)`, whether the family is scaled or not. -/
theorem initEPS_oil_maximum (S : SaturationPropsFromDeck) (n : Nat) (eps_vec : List (List ℚ))
    (eps_transf : List EPSTransforms) (cell : Nat) (hc : cell < n)
    (hl : cell < eps_transf.length)
    (hA : S.phase_usage_.phase_used BlackoilPhases.Aqua = true)
    (hL : S.phase_usage_.phase_used BlackoilPhases.Liquid = true)
    (hV : S.phase_usage_.phase_used BlackoilPhases.Vapour = true)
    (hw : 0 ≤ (S.satfuncAt (S.cellToFunc cell)).smin_
      (S.phase_usage_.phase_pos BlackoilPhases.Aqua))
    (hg : 0 ≤ (S.satfuncAt (S.cellToFunc cell)).smin_
      (S.phase_usage_.phase_pos BlackoilPhases.Vapour)) :
    ((initEPS S n eps_vec eps_transf).getD cell epsTransforms0).watoil.smax
        = 1 - orTab (eps_vec.getD 0 []) cell
                ((S.satfuncAt (S.cellToFunc cell)).smin_
                  (S.phase_usage_.phase_pos BlackoilPhases.Aqua))
            - orTab (eps_vec.getD 3 []) cell
                ((S.satfuncAt (S.cellToFunc cell)).smin_
                  (S.phase_usage_.phase_pos BlackoilPhases.Vapour))
      ∧ ((initEPS S n eps_vec eps_transf).getD cell epsTransforms0).gasoil.smax
        = 1 - orTab (eps_vec.getD 0 []) cell
                ((S.satfuncAt (S.cellToFunc cell)).smin_
                  (S.phase_usage_.phase_pos BlackoilPhases.Aqua))
            - orTab (eps_vec.getD 3 []) cell
                ((S.satfuncAt (S.cellToFunc cell)).smin_
                  (S.phase_usage_.phase_pos BlackoilPhases.Vapour))
      ∧ ((initEPS S n eps_vec eps_transf).getD cell epsTransforms0).watoil.smax
        = ((initEPS S n eps_vec eps_transf).getD cell epsTransforms0).gasoil.smax := by
  rw [initEPS_cell S n eps_vec eps_transf cell hc hl]
  unfold initEPSCell
  simp only [hA, hL, hV, Bool.not_true, Bool.and_false, Bool.and_true, Bool.or_false,
    Bool.false_eq_true, if_true, if_false, Bool.false_and, Bool.and_self]
  have e1 := initEPSParam_oil_smax S.do_3pt_ cell (eps_transf.getD cell epsTransforms0).watoil
    0 (S.satfuncAt (S.cellToFunc cell)).sowcr_
    ((S.satfuncAt (S.cellToFunc cell)).smin_ (S.phase_usage_.phase_pos BlackoilPhases.Aqua))
    (S.satfuncAt (S.cellToFunc cell)).swcr_
    ((S.satfuncAt (S.cellToFunc cell)).smin_ (S.phase_usage_.phase_pos BlackoilPhases.Vapour))
    (S.satfuncAt (S.cellToFunc cell)).krorw_ (S.satfuncAt (S.cellToFunc cell)).kromax_ 0
    (eps_vec.getD 0 []) (eps_vec.getD 6 []) (eps_vec.getD 0 []) (eps_vec.getD 2 [])
    (eps_vec.getD 3 []) (eps_vec.getD 13 []) (eps_vec.getD 10 []) [] hg
  have e2 := initEPSParam_oil_smax S.do_3pt_ cell (eps_transf.getD cell epsTransforms0).gasoil
    0 (S.satfuncAt (S.cellToFunc cell)).sogcr_
    ((S.satfuncAt (S.cellToFunc cell)).smin_ (S.phase_usage_.phase_pos BlackoilPhases.Vapour))
    (S.satfuncAt (S.cellToFunc cell)).sgcr_
    ((S.satfuncAt (S.cellToFunc cell)).smin_ (S.phase_usage_.phase_pos BlackoilPhases.Aqua))
    (S.satfuncAt (S.cellToFunc cell)).krorg_ (S.satfuncAt (S.cellToFunc cell)).kromax_ 0
    (eps_vec.getD 3 []) (eps_vec.getD 7 []) (eps_vec.getD 3 []) (eps_vec.getD 5 [])
    (eps_vec.getD 0 []) (eps_vec.getD 14 []) (eps_vec.getD 10 []) [] hw
  rw [e1, e2]
  refine ⟨rfl, ?_, ?_⟩ <;> ring

/-- The statement of C37 at a three-phase cell with table minima `1/4` (water) and `0`
(gas) and the array `SWL = 1/8` alone: both oil maxima are `7/8`. -/
theorem initEPS_oil_maximum_witness :
    ((initEPS oneScaledCell 1 swlOnly [epsTransforms0]).getD 0
        epsTransforms0).watoil.smax = 7 / 8
      ∧ ((initEPS oneScaledCell 1 swlOnly [epsTransforms0]).getD 0
        epsTransforms0).gasoil.smax = 7 / 8 :=
  have h := initEPS_oil_maximum oneScaledCell 1 swlOnly
    [epsTransforms0] 0 (by decide) (by decide) rfl rfl rfl
    (by
      show (0 : ℚ) ≤ 1 / 4
      norm_num)
    (by
      show (0 : ℚ) ≤ 0
      norm_num)
  have e : (1 : ℚ) - orTab (swlOnly.getD 0 []) 0
        ((oneScaledCell.satfuncAt (oneScaledCell.cellToFunc 0)).smin_
          (oneScaledCell.phase_usage_.phase_pos BlackoilPhases.Aqua))
      - orTab (swlOnly.getD 3 []) 0
        ((oneScaledCell.satfuncAt (oneScaledCell.cellToFunc 0)).smin_
          (oneScaledCell.phase_usage_.phase_pos BlackoilPhases.Vapour)) = 7 / 8 := by
    show (1 : ℚ) - orTab [1/8] 0 (1/4) - orTab [] 0 0 = 7 / 8
    norm_num [orTab, vecAt]
  ⟨h.1.trans e, h.2.1.trans e⟩

end Init

section Utilities

variable (props : BlackoilPropertiesInterface)

theorem mobilityLoop_eq (np : Nat) (mob visc : Nat → ℚ) :
    mobilityLoop np mob visc
      = (fun p => if p < np then mob p / visc p else mob p,
          (Finset.range np).sum (fun p => mob p / visc p)) := by
  unfold mobilityLoop
  induction np with
  | zero => simp
  | succ n ih =>
    rw [List.range_succ, List.foldl_append, ih]
    simp only [List.foldl_cons, List.foldl_nil, lt_self_iff_false, if_false,
      Function.update_same, Finset.sum_range_succ]
    congr 1
    funext q
    by_cases hq : q = n
    · subst hq
      simp
    · rw [Function.update_noteq hq]
      have : q < n + 1 ↔ q < n := by omega
      simp only [this]

theorem producedLoop_eq (np : Nat) (mob : Nat → ℚ) (totmob flux : ℚ) (produced : Nat → ℚ) :
    producedLoop np mob totmob flux produced
      = fun p => if p < np then produced p + (mob p / totmob) * flux else produced p := by
  unfold producedLoop
  induction np with
  | zero => simp
  | succ n ih =>
    rw [List.range_succ, List.foldl_append, ih]
    simp only [List.foldl_cons, List.foldl_nil, lt_self_iff_false, if_false]
    funext q
    by_cases hq : q = n
    · subst hq
      simp
    · rw [Function.update_noteq hq]
      have : q < n + 1 ↔ q < n := by omega
      simp only [this]

theorem injectedProducedStep_injected (p z s src : List ℚ) (dt : ℚ) (np : Nat)
    (st : InjectedProduced) (c : Nat) (j : Nat) :
    (injectedProducedStep props p z s src dt np st c).injected j
      = st.injected j
        + (if j = 0 then (if src.getD c 0 > 0 then src.getD c 0 * dt else 0) else 0) := by
  unfold injectedProducedStep
  by_cases h1 : src.getD c 0 > 0
  · rw [if_pos h1, if_pos h1]
    by_cases hj : j = 0
    · subst hj
      simp
    · simp [Function.update_noteq hj, hj]
  · rw [if_neg h1, if_neg h1]
    by_cases h2 : src.getD c 0 < 0
    · rw [if_pos h2]
      simp
    · rw [if_neg h2]
      simp

theorem injectedProducedStep_produced (p z s src : List ℚ) (dt : ℚ) (np : Nat)
    (hnp : props.numPhases = np) (st : InjectedProduced) (c : Nat) (ph : Nat) :
    (injectedProducedStep props p z s src dt np st c).produced ph
      = st.produced ph
        + (if ph < np then
            (if src.getD c 0 < 0 then
              cellMobility props p z s np c ph / cellTotalMobility props p z s np c
                * (- src.getD c 0 * dt)
             else 0)
           else 0) := by
  unfold injectedProducedStep
  by_cases h1 : src.getD c 0 > 0
  · have h2 : ¬ src.getD c 0 < 0 := not_lt.mpr (le_of_lt h1)
    rw [if_pos h1, if_neg h2]
    simp
  · rw [if_neg h1]
    by_cases h2 : src.getD c 0 < 0
    · rw [if_pos h2, if_pos h2]
      simp only [mobilityLoop_eq, producedLoop_eq, hnp]
      by_cases hp : ph < np
      · rw [if_pos hp, if_pos hp, if_pos hp]
        have hw : ∀ (a v : Nat → ℚ) (q : Nat), q < np → writeBlock a 0 np v q = v q := by
          intro a v q hq
          simp [writeBlock, hq]
        have hsum : (Finset.range np).sum
            (fun q => writeBlock st.mob 0 np
                (props.relperm 1 (ptrAt s (np * c)) (fun _ => c)) q
              / writeBlock st.visc 0 np
                (props.viscosity 1 (ptrAt p c) (ptrAt z (np * c)) (fun _ => c)) q)
            = cellTotalMobility props p z s np c := by
          unfold cellTotalMobility cellMobility
          refine Finset.sum_congr rfl (fun q hq => ?_)
          rw [hw _ _ q (Finset.mem_range.mp hq), hw _ _ q (Finset.mem_range.mp hq)]
        rw [hsum, hw _ _ ph hp, hw _ _ ph hp]
        rfl
      · rw [if_neg hp, if_neg hp]
        simp
    · rw [if_neg h2, if_neg h2]
      simp

theorem cellLoop_injected (p z s src : List ℚ) (dt : ℚ) (np : Nat)
    (st : InjectedProduced) (k : Nat) (j : Nat) :
    ((List.range k).foldl (injectedProducedStep props p z s src dt np) st).injected j
      = st.injected j
        + (if j = 0 then
            (Finset.range k).sum
              (fun c => if src.getD c 0 > 0 then src.getD c 0 * dt else 0)
           else 0) := by
  induction k with
  | zero => simp
  | succ n ih =>
    rw [List.range_succ, List.foldl_append]
    simp only [List.foldl_cons, List.foldl_nil]
    rw [injectedProducedStep_injected, ih, Finset.sum_range_succ]
    by_cases hj : j = 0
    · simp only [hj, if_true]
      ring
    · simp only [hj, if_false]
      ring

theorem cellLoop_produced (p z s src : List ℚ) (dt : ℚ) (np : Nat)
    (hnp : props.numPhases = np) (st : InjectedProduced) (k : Nat) (ph : Nat) :
    ((List.range k).foldl (injectedProducedStep props p z s src dt np) st).produced ph
      = st.produced ph
        + (if ph < np then
            (Finset.range k).sum
              (fun c => if src.getD c 0 < 0 then
                cellMobility props p z s np c ph / cellTotalMobility props p z s np c
                  * (- src.getD c 0 * dt)
                else 0)
           else 0) := by
  induction k with
  | zero => simp
  | succ n ih =>
    rw [List.range_succ, List.foldl_append]
    simp only [List.foldl_cons, List.foldl_nil]
    rw [injectedProducedStep_produced props p z s src dt np hnp, ih, Finset.sum_range_succ]
    by_cases hp : ph < np
    · simp only [hp, if_true]
      ring
    · simp only [hp, if_false]
      ring

/-- C28: when `src` is not empty (the source divides by `src.size()`), `s` has
`np = s.size()/src.size()` values for each cell of `src`, the properties have `np` phases and the total mobility of every producing cell is not zero,
`computeInjectedProduced` returns, `produced[p]` is the sum over the cells with
`src[c] < 0` of the outflow `-src[c]*dt` times the share `mob_p/totmob` with
`mob_p = kr_p/visc_p`, and the sum of `produced[p]` over the phases is the total outflow,
the sum of `-src[c]*dt` over the cells with `src[c] < 0`. -/
theorem computeInjectedProduced_conserves_produced (p z s src : List ℚ) (dt : ℚ)
    (injected produced : Nat → ℚ)
    (_hsrc : 0 < src.length)
    (hsz : s.length = src.length * (s.length / src.length))
    (hnp : props.numPhases = s.length / src.length)
    (htot : ∀ c, c < src.length → src.getD c 0 < 0 →
      cellTotalMobility props p z s (s.length / src.length) c ≠ 0) :
    ∃ inj prod,
      computeInjectedProduced props p z s src dt injected produced = some (inj, prod)
      ∧ (∀ ph, ph < s.length / src.length →
          prod ph = (Finset.range src.length).sum
            (fun c => if src.getD c 0 < 0 then
              cellMobility props p z s (s.length / src.length) c ph
                / cellTotalMobility props p z s (s.length / src.length) c
                * (- src.getD c 0 * dt)
              else 0))
      ∧ (Finset.range (s.length / src.length)).sum prod
          = (Finset.range src.length).sum
              (fun c => if src.getD c 0 < 0 then - src.getD c 0 * dt else 0) := by
  have hprod : ∀ ph, ph < s.length / src.length →
      ((List.range src.length).foldl
          (injectedProducedStep props p z s src dt (s.length / src.length))
          { injected := fillZero injected (s.length / src.length)
            produced := fillZero produced (s.length / src.length)
            mob := fun _ => 0
            visc := fun _ => 0 }).produced ph
        = (Finset.range src.length).sum
            (fun c => if src.getD c 0 < 0 then
              cellMobility props p z s (s.length / src.length) c ph
                / cellTotalMobility props p z s (s.length / src.length) c
                * (- src.getD c 0 * dt)
              else 0) := by
    intro ph hph
    rw [cellLoop_produced props p z s src dt _ hnp]
    simp [fillZero, hph]
  unfold computeInjectedProduced
  simp only
  rw [if_neg (not_not.mpr hsz)]
  refine ⟨_, _, rfl, hprod, ?_⟩
  rw [Finset.sum_congr rfl (fun ph hph => hprod ph (Finset.mem_range.mp hph)),
    Finset.sum_comm]
  refine Finset.sum_congr rfl (fun c hc => ?_)
  by_cases h2 : src.getD c 0 < 0
  · simp only [h2, if_true]
    rw [← Finset.sum_mul, ← Finset.sum_div]
    have ht := htot c (Finset.mem_range.mp hc) h2
    have hdef : (Finset.range (s.length / src.length)).sum
        (fun ph => cellMobility props p z s (s.length / src.length) c ph)
        = cellTotalMobility props p z s (s.length / src.length) c := rfl
    rw [hdef, div_self ht, one_mul]
  · simp only [h2, if_false, Finset.sum_const_zero]

/-- Witness of C28: two cells of two phases with saturations `(1/4, 3/4)` and
`(1/2, 1/2)`, `src = (1, -2)` and `dt = 1/2`: the produced volumes sum to the outflow
1 of the second cell. -/
theorem computeInjectedProduced_conserves_produced_witness :
    ∃ inj prod,
      computeInjectedProduced linearProps [1, 1] [] [1/4, 3/4, 1/2, 1/2] [1, -2] (1/2)
        zeros zeros = some (inj, prod)
      ∧ prod 0 = 1 / 2 ∧ prod 1 = 1 / 2
      ∧ prod 0 + prod 1 = 1 := by
  obtain ⟨inj, prod, h1, h2, h3⟩ :=
    computeInjectedProduced_conserves_produced linearProps [1, 1] []
      [1/4, 3/4, 1/2, 1/2] [1, -2] (1/2) zeros zeros (by decide) (by decide) rfl
      (by
        intro c hc hneg
        have hc2 : c < 2 := hc
        interval_cases c
        · norm_num at hneg
        · norm_num [cellTotalMobility, cellMobility, linearProps, ptrAt,
            Finset.sum_range_succ])
  have e2 : ([1/4, 3/4, 1/2, 1/2] : List ℚ).length / ([1, -2] : List ℚ).length = 2 := by
    decide
  rw [e2] at h2 h3
  have p0 := h2 0 (by decide)
  have p1 := h2 1 (by decide)
  norm_num [cellTotalMobility, cellMobility, linearProps, ptrAt,
    Finset.sum_range_succ] at p0 p1
  refine ⟨inj, prod, h1, p0, p1, ?_⟩
  rw [p0, p1]
  norm_num

/-- C29: when `s` has `np = s.size()/src.size()` values for each cell of `src` and
`np > 0`, `computeInjectedProduced` returns, `injected[0]` is the sum of `src[c]*dt` over
the cells with `src[c] > 0`, `injected[p] = 0` for `1 <= p < np`, and the loop body of a
cell with `src[c] = 0` changes nothing. -/
theorem computeInjectedProduced_injects_first_phase (p z s src : List ℚ) (dt : ℚ)
    (injected produced : Nat → ℚ)
    (hsz : s.length = src.length * (s.length / src.length))
    (hnp : 0 < s.length / src.length) :
    ∃ inj prod,
      computeInjectedProduced props p z s src dt injected produced = some (inj, prod)
      ∧ inj 0 = (Finset.range src.length).sum
          (fun c => if src.getD c 0 > 0 then src.getD c 0 * dt else 0)
      ∧ (∀ ph, 1 ≤ ph → ph < s.length / src.length → inj ph = 0)
      ∧ (∀ (st : InjectedProduced) (c : Nat), src.getD c 0 = 0 →
          injectedProducedStep props p z s src dt (s.length / src.length) st c = st) := by
  unfold computeInjectedProduced
  simp only
  rw [if_neg (not_not.mpr hsz)]
  refine ⟨_, _, rfl, ?_, ?_, ?_⟩
  · rw [cellLoop_injected]
    simp [fillZero, hnp]
  · intro ph h1 h2
    rw [cellLoop_injected]
    have : ph ≠ 0 := by omega
    simp [fillZero, h2, this]
  · intro st c hc
    unfold injectedProducedStep
    rw [hc]
    simp

/-- Witness of C29: two cells of two phases, `src = (1, -2)` and `dt = 1/2`: the
injected volume of the first phase is `1/2` and that of the second phase is 0. -/
theorem computeInjectedProduced_injects_first_phase_witness :
    ∃ inj prod,
      computeInjectedProduced linearProps [1, 1] [] [1/4, 3/4, 1/2, 1/2] [1, -2] (1/2)
        zeros zeros = some (inj, prod)
      ∧ inj 0 = 1 / 2 ∧ inj 1 = 0 := by
  obtain ⟨inj, prod, h1, h2, h3, _⟩ :=
    computeInjectedProduced_injects_first_phase linearProps [1, 1] []
      [1/4, 3/4, 1/2, 1/2] [1, -2] (1/2) zeros zeros (by decide) (by decide)
  refine ⟨inj, prod, h1, ?_, h3 1 (le_refl 1) (by decide)⟩
  rw [h2]
  norm_num [Finset.sum_range_succ]

theorem foldl_add_eq_sum (f : Nat → ℚ) (n : Nat) :
    (List.range n).foldl (fun (acc : ℚ) q => acc + f q) 0 = (Finset.range n).sum f := by
  induction n with
  | zero => simp
  | succ k ih =>
    rw [List.range_succ, List.foldl_append, ih, Finset.sum_range_succ]
    simp

theorem setLoop_spec (L : List ℚ) (b m : Nat) (v : Nat → ℚ) :
    ((List.range m).foldl (fun (ff : List ℚ) ph => ff.set (b + ph) (v ph)) L).length
        = L.length
      ∧ (∀ j, (j < b ∨ b + m ≤ j) →
          ((List.range m).foldl (fun (ff : List ℚ) ph => ff.set (b + ph) (v ph)) L).getD j 0
            = L.getD j 0)
      ∧ (∀ ph, ph < m → b + ph < L.length →
          ((List.range m).foldl (fun (ff : List ℚ) ph => ff.set (b + ph) (v ph)) L).getD
            (b + ph) 0 = v ph) := by
  induction m with
  | zero =>
    refine ⟨rfl, fun _ _ => rfl, fun ph h => ?_⟩
    omega
  | succ k ih =>
    obtain ⟨i1, i2, i3⟩ := ih
    rw [List.range_succ, List.foldl_append]
    simp only [List.foldl_cons, List.foldl_nil]
    refine ⟨by rw [List.length_set, i1], fun j hj => ?_, fun ph hph hlen => ?_⟩
    · rw [List.getD_eq_getElem?_getD, List.getElem?_set_ne (by omega),
        ← List.getD_eq_getElem?_getD]
      exact i2 j (by omega)
    · by_cases hk : ph = k
      · subst hk
        rw [List.getD_eq_getElem?_getD, List.getElem?_set_self (by rw [i1]; exact hlen)]
        rfl
      · rw [List.getD_eq_getElem?_getD, List.getElem?_set_ne (by omega),
          ← List.getD_eq_getElem?_getD]
        exact i3 ph (by omega) hlen

theorem cellSetLoop_spec (L : List ℚ) (np : Nat) (w : Nat → Nat → ℚ) (k : Nat) :
    ((List.range k).foldl
        (fun (ff : List ℚ) i =>
          (List.range np).foldl (fun (ff : List ℚ) ph => ff.set (i * np + ph) (w i ph)) ff)
        L).length = L.length
      ∧ (∀ j, k * np ≤ j →
          ((List.range k).foldl
            (fun (ff : List ℚ) i =>
              (List.range np).foldl (fun (ff : List ℚ) ph => ff.set (i * np + ph) (w i ph))
                ff)
            L).getD j 0 = L.getD j 0)
      ∧ (∀ i ph, i < k → ph < np → i * np + ph < L.length →
          ((List.range k).foldl
            (fun (ff : List ℚ) i =>
              (List.range np).foldl (fun (ff : List ℚ) ph => ff.set (i * np + ph) (w i ph))
                ff)
            L).getD (i * np + ph) 0 = w i ph) := by
  induction k with
  | zero =>
    refine ⟨rfl, fun _ _ => rfl, fun i ph h => ?_⟩
    omega
  | succ n ih =>
    obtain ⟨i1, i2, i3⟩ := ih
    rw [List.range_succ, List.foldl_append]
    simp only [List.foldl_cons, List.foldl_nil]
    obtain ⟨s1, s2, s3⟩ := setLoop_spec
      ((List.range n).foldl
        (fun (ff : List ℚ) i =>
          (List.range np).foldl (fun (ff : List ℚ) ph => ff.set (i * np + ph) (w i ph)) ff)
        L) (n * np) np (w n)
    have hsucc : (n + 1) * np = n * np + np := by ring
    refine ⟨by rw [s1, i1], fun j hj => ?_, fun i ph hi hph hlen => ?_⟩
    · rw [s2 j (Or.inr (by omega))]
      exact i2 j (by omega)
    · by_cases hk : i = n
      · subst hk
        exact s3 ph hph (by rw [i1]; exact hlen)
      · have hlt : i < n := by omega
        have hle : (i + 1) * np ≤ n * np := Nat.mul_le_mul_right np hlt
        have hi1 : (i + 1) * np = i * np + np := by ring
        rw [s2 (i * np + ph) (Or.inl (by omega))]
        exact i3 i ph hlt hph hlen

theorem zipWith_same {α β : Type} (f : α → α → β) (l : List α) :
    List.zipWith f l l = l.map (fun a => f a a) := by
  induction l with
  | nil => rfl
  | cons a t ih => simp [ih]

theorem computePhaseMobilities_entry (cells : List Nat) (p z s : List ℚ)
    (hs : s.length = props.numCells * props.numPhases) :
    ∃ pmobc, computePhaseMobilities props cells p z s = some pmobc
      ∧ pmobc.length = props.numCells * props.numPhases
      ∧ ∀ j, j < props.numCells * props.numPhases →
          pmobc.getD j 0 = phaseMobility props cells p z s j := by
  unfold computePhaseMobilities
  simp only
  rw [if_neg (not_not.mpr hs)]
  refine ⟨_, rfl, by simp, fun j hj => ?_⟩
  rw [List.zipWith_map, zipWith_same, List.getD_eq_getElem?_getD, List.getElem?_map,
    List.getElem?_range hj]
  rfl

/-- C30: when `s` has `numPhases` values for each of the `numCells` cells,
`computeFractionalFlow` returns a vector of `cells.size() * numPhases` values, and for an
entry `i` of `cells` below `numCells` the fractional flow of each phase is its mobility
divided by the sum of the mobilities of the entry, so that the fractional flows of the
entry sum to 1 when that sum is not zero. -/
theorem computeFractionalFlow_sums_to_one (cells : List Nat) (p z s ff0 : List ℚ)
    (hs : s.length = props.numCells * props.numPhases)
    (i : Nat) (hi : i < cells.length) (hin : i < props.numCells) :
    ∃ ff, computeFractionalFlow props cells p z s ff0 = some ff
      ∧ ff.length = cells.length * props.numPhases
      ∧ (∀ phase, phase < props.numPhases →
          ff.getD (i * props.numPhases + phase) 0
            = phaseMobility props cells p z s (i * props.numPhases + phase)
              / (Finset.range props.numPhases).sum
                  (fun q => phaseMobility props cells p z s (i * props.numPhases + q)))
      ∧ ((Finset.range props.numPhases).sum
            (fun q => phaseMobility props cells p z s (i * props.numPhases + q)) ≠ 0 →
          (Finset.range props.numPhases).sum
            (fun phase => ff.getD (i * props.numPhases + phase) 0) = 1) := by
  obtain ⟨pmobc, hp, _, hentry⟩ := computePhaseMobilities_entry props cells p z s hs
  have hidx : ∀ q, q < props.numPhases →
      i * props.numPhases + q < props.numCells * props.numPhases := by
    intro q hq
    have hle : (i + 1) * props.numPhases ≤ props.numCells * props.numPhases :=
      Nat.mul_le_mul_right _ hin
    have hi1 : (i + 1) * props.numPhases = i * props.numPhases + props.numPhases := by ring
    omega
  have hlen : ∀ q, q < props.numPhases →
      i * props.numPhases + q
        < (resizeVec ff0 (cells.length * props.numPhases) 0).length := by
    intro q hq
    rw [resizeVec_length]
    have hle : (i + 1) * props.numPhases ≤ cells.length * props.numPhases :=
      Nat.mul_le_mul_right _ hi
    have hi1 : (i + 1) * props.numPhases = i * props.numPhases + props.numPhases := by ring
    omega
  obtain ⟨c1, _, c3⟩ := cellSetLoop_spec
    (resizeVec ff0 (cells.length * props.numPhases) 0) props.numPhases
    (fun i phase => pmobc.getD (i * props.numPhases + phase) 0
      / (List.range props.numPhases).foldl
          (fun (phase_sum : ℚ) phase =>
            phase_sum + pmobc.getD (i * props.numPhases + phase) 0) 0)
    cells.length
  have hval : ∀ phase, phase < props.numPhases →
      ((List.range cells.length).foldl
        (fun (ff : List ℚ) i =>
          (List.range props.numPhases).foldl
            (fun (ff : List ℚ) ph => ff.set (i * props.numPhases + ph)
              (pmobc.getD (i * props.numPhases + ph) 0
                / (List.range props.numPhases).foldl
                    (fun (phase_sum : ℚ) phase =>
                      phase_sum + pmobc.getD (i * props.numPhases + phase) 0) 0))
            ff)
        (resizeVec ff0 (cells.length * props.numPhases) 0)).getD
          (i * props.numPhases + phase) 0
        = phaseMobility props cells p z s (i * props.numPhases + phase)
          / (Finset.range props.numPhases).sum
              (fun q => phaseMobility props cells p z s (i * props.numPhases + q)) := by
    intro phase hph
    rw [c3 i phase hi hph (hlen phase hph)]
    rw [foldl_add_eq_sum, hentry _ (hidx phase hph)]
    congr 1
    exact Finset.sum_congr rfl (fun q hq => hentry _ (hidx q (Finset.mem_range.mp hq)))
  unfold computeFractionalFlow
  simp only [hp]
  refine ⟨_, rfl, ?_, hval, fun hne => ?_⟩
  · rw [c1, resizeVec_length]
  · rw [Finset.sum_congr rfl (fun phase hph => hval phase (Finset.mem_range.mp hph)),
      ← Finset.sum_div, div_self hne]

/-- Witness of C30: two cells of two phases with saturations `(1/4, 3/4)` and
`(1/2, 1/2)`: the fractional flows of the first cell are `1/4` and `3/4`. -/
theorem computeFractionalFlow_sums_to_one_witness :
    ∃ ff, computeFractionalFlow linearProps [0, 1] [1, 1] [] [1/4, 3/4, 1/2, 1/2] []
        = some ff
      ∧ ff.length = 4
      ∧ ff.getD 0 0 = 1 / 4 ∧ ff.getD 1 0 = 3 / 4
      ∧ ff.getD 0 0 + ff.getD 1 0 = 1 := by
  obtain ⟨ff, h1, h2, h3, h4⟩ :=
    computeFractionalFlow_sums_to_one linearProps [0, 1] [1, 1] [] [1/4, 3/4, 1/2, 1/2] []
      rfl 0 (by decide) (by decide)
  have f0 := h3 0 (by decide)
  have f1 := h3 1 (by decide)
  have e : linearProps.numPhases = 2 := rfl
  rw [e] at f0 f1 h4
  norm_num [phaseMobility, linearProps, ptrAt, Finset.sum_range_succ] at f0 f1 h4
  refine ⟨ff, h1, h2, ?_, ?_, ?_⟩
  · simpa using f0
  · simpa using f1
  · simpa using h4

/-- C31: `computePhaseMobilities` sizes everything by `props.numCells()`, not by the
`cells` it is given: it returns exactly when `s.size() = numCells * numPhases`, and then
`pmobc` has `numCells * numPhases` entries `kr/mu`.  With two cells in the properties, one
cell given and `s` holding the two saturations of that cell
(`s.size() = cells.size() * numPhases`), the assertion fails, and `computeTotalMobility`,
which loops over `cells.size()`, fails with it; three cells given fail likewise. -/
theorem computePhaseMobilities_sized_by_numCells :
    (∀ (props : BlackoilPropertiesInterface) (cells : List Nat) (p z s : List ℚ),
        (computePhaseMobilities props cells p z s).isSome = true
          ↔ s.length = props.numCells * props.numPhases)
      ∧ (∀ (props : BlackoilPropertiesInterface) (cells : List Nat) (p z s pmobc : List ℚ),
          computePhaseMobilities props cells p z s = some pmobc →
            pmobc.length = props.numCells * props.numPhases
              ∧ ∀ j, j < props.numCells * props.numPhases →
                  pmobc.getD j 0 = phaseMobility props cells p z s j)
      ∧ ([1/2, 1/2] : List ℚ).length = ([1] : List Nat).length * linearProps.numPhases
      ∧ computePhaseMobilities linearProps [1] [1] [] [1/2, 1/2] = none
      ∧ computeTotalMobility linearProps [1] [1] [] [1/2, 1/2] = none
      ∧ ([1/4, 3/4, 1/2, 1/2, 1/2, 1/2] : List ℚ).length
          = ([0, 1, 1] : List Nat).length * linearProps.numPhases
      ∧ computePhaseMobilities linearProps [0, 1, 1] [1, 1, 1] []
          [1/4, 3/4, 1/2, 1/2, 1/2, 1/2] = none := by
  refine ⟨fun props cells p z s => ?_, fun props cells p z s pmobc h => ?_, rfl, rfl, rfl,
    rfl, rfl⟩
  · unfold computePhaseMobilities
    by_cases hs : s.length = props.numCells * props.numPhases
    · simp [hs]
    · simp [hs]
  · by_cases hs : s.length = props.numCells * props.numPhases
    · obtain ⟨q, hq, hl, he⟩ := computePhaseMobilities_entry props cells p z s hs
      rw [hq] at h
      cases h
      exact ⟨hl, he⟩
    · unfold computePhaseMobilities at h
      simp [hs] at h

end Utilities

end Opm
